import Mathlib

/-!
SurvivalPack: EVA suit and SurvivalShip per-frame simulation

A shallow embedding of the Orbiter "SurvivalPack" vessel plugins
(`PlanetHazards.cpp`, `EVA.cpp`, `SurvivalShip.cpp`) and the properties
proved about them.

Modelling conventions

* A C++ `double` is modelled as an exact rational (`ℚ`): rounding, infinities
  and NaN are outside the model.  Division by zero follows `ℚ` (`x / 0 = 0`); a
  property that depends on the value of a quotient is stated for the states the
  objects can be in (`EVA.Reachable`, `SurvivalShip.Reachable`), on which the divisor
  is not zero.
* A C++ `int` member is a `CInt`: an integer of the 32-bit two's-complement range,
  with `+` and `-` wrapping around on overflow as the compiled code does.
* Every member function becomes a pure function from the object state (and the
  values the host simulator hands over during the call) to the new state.
* Values obtained from the host through the SDK (surface reference body,
  atmospheric pressure, gravity magnitude, vector lengths, `rand()` draws, ...)
  are explicit inputs collected in the records `EVAHost` and `ShipHost`.
* Log output (`oapiWriteLog`) and HUD drawing have no effect on the state and are
  left out.
-/

namespace SurvivalPack

/-! ## Utility -/

/-- `Clamp` of `EVA.cpp` and `SurvivalShip::Clamp`: both have the same body. -/
def Clamp (v lo hi : ℚ) : ℚ :=
  if v < lo then lo
  else if v > hi then hi
  else v

/-- The value a 32-bit two's-complement `int` holds after an operation whose
mathematical result is `x`: `x` reduced modulo 2^32 into [-2^31, 2^31 - 1]. -/
def wrapInt32 (x : Int) : Int :=
  (x + 2147483648) % 4294967296 - 2147483648

/-- A C++ `int`: an integer between -2^31 and 2^31 - 1. -/
abbrev CInt : Type := { x : Int // -2147483648 ≤ x ∧ x ≤ 2147483647 }

/-- The `int` holding the integer `x`, wrapped into the 32-bit range. -/
def CInt.wrap (x : Int) : CInt :=
  ⟨wrapInt32 x, by unfold wrapInt32; omega⟩

/-- Addition of two `int`s, wrapping on overflow. -/
instance : Add CInt := ⟨fun a b => CInt.wrap (a.val + b.val)⟩

/-- Subtraction of two `int`s, wrapping on overflow. -/
instance : Sub CInt := ⟨fun a b => CInt.wrap (a.val - b.val)⟩

/-- Integer literals of type `int`. -/
instance (n : Nat) : OfNat CInt n := ⟨CInt.wrap n⟩

/-! ## PlanetHazards -/

/-- `struct PlanetHazardProfile` of `PlanetHazards.h`. -/
structure PlanetHazardProfile where
  baseTemp : ℚ
  tempVariance : ℚ
  surfacePressure : ℚ
  surfaceRadiation : ℚ
  atmToxicity : ℚ
  hasAtmosphere : Bool
  corrosive : Bool
  oceanWorld : Bool
  gasGiant : Bool
  deriving DecidableEq, Repr

/-- The value-initialised profile `PlanetHazardProfile{}`: every number zero,
every flag false. -/
def PlanetHazardProfile.zeroInit : PlanetHazardProfile :=
  { baseTemp := 0, tempVariance := 0, surfacePressure := 0, surfaceRadiation := 0,
    atmToxicity := 0, hasAtmosphere := false, corrosive := false, oceanWorld := false,
    gasGiant := false }

/-- The `std::map<std::string, PlanetHazardProfile>` as an association list; the
entry nearest the head is the live one for its key. -/
abbrev ProfileMap := List (String × PlanetHazardProfile)

/-- Assignment `m[k] = v`. -/
def ProfileMap.assign (m : ProfileMap) (k : String) (v : PlanetHazardProfile) : ProfileMap :=
  (k, v) :: m

/-- Lookup `m.find(k)`: `none` stands for `m.end()`. -/
def ProfileMap.find : ProfileMap → String → Option PlanetHazardProfile
  | [], _ => none
  | (key, v) :: m, k => if k = key then some v else ProfileMap.find m k

/-- Read access `m[k]` (a missing key reads as the value-initialised profile). -/
def ProfileMap.index (m : ProfileMap) (k : String) : PlanetHazardProfile :=
  (m.find k).getD PlanetHazardProfile.zeroInit

/-- `InitProfiles`: the content of `s_profiles` once initialised.  The assignments
are made in the order of the source. -/
def InitProfiles : ProfileMap :=
  let m : ProfileMap := []
  let m := m.assign "Mercury" ⟨170.0, 250.0, 0.0, 0.6, 0.0, false, false, false, false⟩
  let m := m.assign "Venus" ⟨460.0, 5.0, 9.2e6, 0.5, 1.0, true, true, false, false⟩
  let m := m.assign "Earth" ⟨15.0, 20.0, 1.01e5, 0.1, 0.0, true, false, false, false⟩
  let m := m.assign "Moon" ⟨-20.0, 130.0, 0.0, 0.3, 0.0, false, false, false, false⟩
  let m := m.assign "Mars" ⟨-60.0, 40.0, 600.0, 0.6, 0.7, true, false, false, false⟩
  let m := m.assign "Phobos" ⟨-60.0, 40.0, 0.0, 0.6, 0.0, false, false, false, false⟩
  let m := m.assign "Deimos" (m.index "Phobos")
  let m := m.assign "Jupiter" ⟨-150.0, 20.0, 0.0, 1.0, 1.0, false, false, false, true⟩
  let m := m.assign "Io" ⟨-130.0, 40.0, 0.0, 0.9, 0.7, true, false, false, false⟩
  let m := m.assign "Europa" ⟨-160.0, 30.0, 0.0, 0.9, 0.0, false, false, true, false⟩
  let m := m.assign "Ganymede" ⟨-150.0, 30.0, 0.0, 0.6, 0.0, false, false, false, false⟩
  let m := m.assign "Callisto" ⟨-140.0, 30.0, 0.0, 0.4, 0.0, false, false, false, false⟩
  let m := m.assign "Saturn" ⟨-170.0, 20.0, 0.0, 0.7, 1.0, false, false, false, true⟩
  let m := m.assign "Titan" ⟨-180.0, 10.0, 1.5e5, 0.3, 0.9, true, false, false, false⟩
  let m := m.assign "Uranus" ⟨-200.0, 10.0, 0.0, 0.5, 1.0, false, false, false, true⟩
  let m := m.assign "Neptune" ⟨-210.0, 10.0, 0.0, 0.5, 1.0, false, false, false, true⟩
  let m := m.assign "Pluto" ⟨-230.0, 10.0, 1.0, 0.3, 0.5, true, false, false, false⟩
  m

/-- `GetPlanetHazardProfile`, as a function of the name the host reports for the
body handle. -/
def GetPlanetHazardProfile (name : String) : PlanetHazardProfile :=
  match InitProfiles.find name with
  | some p => p
  | none =>
    { baseTemp := -100.0, tempVariance := 50.0, surfacePressure := 0.0,
      surfaceRadiation := 0.5, atmToxicity := 0.0, hasAtmosphere := false,
      corrosive := false, oceanWorld := false, gasGiant := false }

/-- The seventeen body names that `InitProfiles` enters into the table. -/
def tableNames : List String :=
  ["Mercury", "Venus", "Earth", "Moon", "Mars", "Phobos", "Deimos", "Jupiter", "Io",
   "Europa", "Ganymede", "Callisto", "Saturn", "Titan", "Uranus", "Neptune", "Pluto"]

/-- Well-formedness of a hazard profile: the two 0-1 scalars are in range,
pressure and temperature swing are not negative, and a body without atmosphere has
no surface pressure. -/
def PlanetHazardProfile.WellFormed (p : PlanetHazardProfile) : Prop :=
  0 ≤ p.surfaceRadiation ∧ p.surfaceRadiation ≤ 1 ∧
  0 ≤ p.atmToxicity ∧ p.atmToxicity ≤ 1 ∧
  0 ≤ p.surfacePressure ∧ 0 ≤ p.tempVariance ∧
  (p.hasAtmosphere = false → p.surfacePressure = 0)

/-- The radiation sample, the same statements in `EVA::UpdateEnvironment` and in
`SurvivalShip::UpdateEnvironment`: the value assigned to `envRadiation` for the
profile `p` at altitude `alt`. -/
def sampleRadiation (p : PlanetHazardProfile) (alt : ℚ) : ℚ :=
  let baseRad := p.surfaceRadiation
  let baseRad :=
    if p.gasGiant then
      if alt < 0 then 1.0 else baseRad
    else
      if alt > 1.0e6 then baseRad + 0.2 else baseRad
  Clamp baseRad 0.0 1.0

/-! ## EVA -/

/-- `VECTOR3` of the SDK. -/
structure VECTOR3 where
  x : ℚ
  y : ℚ
  z : ℚ
  deriving DecidableEq, Repr

/-- `struct IonBattery` of `EVA.h`. -/
structure IonBattery where
  capacity : ℚ
  charge : ℚ
  damaged : Bool
  deriving DecidableEq, Repr

/-- The `std::map<std::string, int> inventory` of the suit.  The only keys the code
ever reads or writes are `"Crystal"` and `"ION_CORE"`, both entered by the
constructor, so the map is a record of these two counts, each a C++ `int`. -/
structure Inventory where
  Crystal : CInt
  ION_CORE : CInt
  deriving DecidableEq, Repr

/-- The data members of `class EVA` (`EVA.h`), in the order of the header. -/
structure EVA where
  suitOxygen : ℚ
  suitPower : ℚ
  suitIntegrity : ℚ
  health : ℚ
  maxSafePressure : ℚ
  maxSafeTempLow : ℚ
  maxSafeTempHigh : ℚ
  baseRadiationShield : ℚ
  baseToxicProtection : ℚ
  thermalInsulation : ℚ
  suitInternalTemp : ℚ
  suitCoolingPower : ℚ
  suitHeatingPower : ℚ
  toxicShieldCapacity : ℚ
  toxicShieldCharge : ℚ
  toxicShieldEfficiency : ℚ
  toxicShieldDrainRate : ℚ
  toxicShieldOnline : Bool
  ion : IonBattery
  ionLeakFactor : ℚ
  inventory : Inventory
  inMiningRange : Bool
  resourcePos : VECTOR3
  miningRange : ℚ
  envPressure : ℚ
  envRadiation : ℚ
  envToxicity : ℚ
  envTemperature : ℚ
  underwater : Bool
  inAtmosphere : Bool
  inVacuum : Bool
  currentProfile : PlanetHazardProfile

/-- What the host simulator reports to the EVA vessel during one `clbkPreStep`. -/
structure EVAHost where
  /-- `GetSurfaceRef()`: the name of the reference body, `none` for a null handle. -/
  surfaceRef : Option String
  /-- `oapiGetSize(hRef)`. -/
  radius : ℚ
  /-- `length(gpos - cpos)`: distance of the vessel from the centre of the body. -/
  rDist : ℚ
  /-- `GetAtmosphericParams(atm) != 0`. -/
  atmParams : Bool
  /-- `GetAtmPressure()`. -/
  atmPressure : ℚ
  /-- `GetAtmTemperature()` in kelvin. -/
  atmTemperature : ℚ
  /-- `oapiGetObjectByName("Sun")` is not null. -/
  sun : Bool
  /-- The value `pow(flux / sigma, 0.25)` of `ComputeVacuumTemperature`, in kelvin. -/
  sunTempK : ℚ
  /-- The value `dotp(nml, sunDir)` of `ComputeAtmosphereTemperature`. -/
  sunDot : ℚ
  /-- `length(gvec)`: magnitude of the local gravity vector. -/
  g : ℚ
  /-- First draw `rand() / RAND_MAX` of `ApplyRandomMicrometeorites`. -/
  rand1 : ℚ
  /-- Second draw `rand() / RAND_MAX` of `ApplyRandomMicrometeorites`. -/
  rand2 : ℚ
  /-- `Local2Global(_V(0,0,0), pos)`: global position of the vessel. -/
  pos : VECTOR3
  deriving Repr

/-- One vessel of the host's vessel list, as `TryReenterShip` sees it. -/
structure VesselInfo where
  /-- The handle equals `GetHandle()`. -/
  isSelf : Bool
  /-- `oapiGetVesselInterface` returned a non-null pointer. -/
  hasInterface : Bool
  /-- `GetClassName`. -/
  className : String
  /-- `length(pos - myPos)`. -/
  dist : ℚ
  deriving Repr

/-- The `OAPI_KEY_*` codes of the host SDK header used by the two key handlers.
The header is not part of the sources, so the codes are a parameter. -/
structure KeyCodes where
  keyA : Nat
  keyC : Nat
  keyE : Nat
  keyH : Nat
  keyM : Nat
  keyP : Nat
  keyR : Nat
  deriving Repr

/-- The keyboard scan codes the SDK assigns to the seven keys. -/
def orbiterKeys : KeyCodes :=
  { keyA := 0x1E, keyC := 0x2E, keyE := 0x12, keyH := 0x23, keyM := 0x32, keyP := 0x19,
    keyR := 0x13 }

namespace EVA

/-- The constructor `EVA::EVA`. -/
def construct : EVA :=
  { suitOxygen := 600.0
    suitPower := 1.0
    suitIntegrity := 1.0
    health := 1.0
    maxSafePressure := 5.0e5
    maxSafeTempLow := -40.0
    maxSafeTempHigh := 60.0
    baseRadiationShield := 0.7
    baseToxicProtection := 0.4
    thermalInsulation := 0.7
    suitInternalTemp := 20.0
    suitCoolingPower := 5.0
    suitHeatingPower := 5.0
    toxicShieldCapacity := 100.0
    toxicShieldCharge := 0.0
    toxicShieldEfficiency := 0.5
    toxicShieldDrainRate := 2.0
    toxicShieldOnline := true
    ion := { capacity := 200.0, charge := 0.0, damaged := false }
    ionLeakFactor := 0.02
    miningRange := 3.0
    inMiningRange := false
    resourcePos := ⟨10, 0, 10⟩
    inventory := { Crystal := 0, ION_CORE := 0 }
    envPressure := 0.0
    envRadiation := 0.0
    envToxicity := 0.0
    envTemperature := 0.0
    underwater := false
    inAtmosphere := false
    inVacuum := true
    currentProfile := PlanetHazardProfile.zeroInit }

/-- `EVA::CheckProximity`: `length(pos - target) <= range`, written without the
square root (`sqrt d2 <= r` holds exactly when `0 <= r` and `d2 <= r * r`). -/
def CheckProximity (pos target : VECTOR3) (range : ℚ) : Bool :=
  let d2 := (pos.x - target.x) * (pos.x - target.x) + (pos.y - target.y) * (pos.y - target.y)
            + (pos.z - target.z) * (pos.z - target.z)
  decide (0 ≤ range ∧ d2 ≤ range * range)

/-- `EVA::MineResource`. -/
def MineResource (s : EVA) : EVA :=
  if s.inMiningRange = false then s
  else if s.health ≤ 0.0 ∨ s.suitIntegrity ≤ 0.0 then s
  else { s with inventory := { s.inventory with Crystal := s.inventory.Crystal + 1 } }

/-- `EVA::ComputeVacuumTemperature`. -/
def ComputeVacuumTemperature (h : EVAHost) : ℚ :=
  if h.sun = false then -270.0
  else
    let tempK := h.sunTempK
    tempK - 273.15

/-- `EVA::ComputeAtmosphereTemperature`. -/
def ComputeAtmosphereTemperature (s : EVA) (h : EVAHost) : ℚ :=
  let T := h.atmTemperature
  let tempC_atm := T - 273.15
  let temp := 0.5 * tempC_atm + 0.5 * s.currentProfile.baseTemp
  let temp :=
    if h.sun then
      let dot := h.sunDot
      let factor := Clamp dot (-1.0) 1.0
      temp + s.currentProfile.tempVariance * factor * 0.5
    else temp
  let moderated := s.suitInternalTemp + (temp - s.suitInternalTemp) * (1.0 - s.thermalInsulation)
  moderated

/-- `EVA::ComputeWaterTemperature`. -/
def ComputeWaterTemperature (s : EVA) (_depth : ℚ) : ℚ :=
  let temp : ℚ := 4.0
  let temp := if s.currentProfile.oceanWorld then 0.0 else temp
  let moderated := s.suitInternalTemp + (temp - s.suitInternalTemp) * 0.8
  moderated

/-- The atmosphere test of `EVA::UpdateEnvironment` (`bool hasAtm = ...` and the
`if (hasAtm)` statement); `alt` is the altitude `r - radius`. -/
def sampleAtmosphere (s : EVA) (h : EVAHost) (alt : ℚ) : EVA :=
  let hasAtm := h.atmParams && s.currentProfile.hasAtmosphere
  if hasAtm then
    let s : EVA := { s with envPressure := h.atmPressure }
    if s.envPressure > 0.0 then
      let s : EVA := { s with inAtmosphere := true }
      if alt < 0.0 ∧ s.currentProfile.oceanWorld then { s with underwater := true } else s
    else { s with inVacuum := true }
  else { s with envPressure := 0.0, inVacuum := true }

/-- The toxicity assignment of `EVA::UpdateEnvironment` (`if (inAtmosphere) ...`). -/
def sampleToxicity (s : EVA) : EVA :=
  if s.inAtmosphere then
    let s : EVA := { s with envToxicity := s.currentProfile.atmToxicity }
    if s.currentProfile.corrosive then { s with envToxicity := 1.0 } else s
  else { s with envToxicity := 0.0 }

/-- The end of `EVA::UpdateEnvironment`: the pressure floor under water and the choice
of the temperature model. -/
def sampleTemperature (s : EVA) (h : EVAHost) (alt : ℚ) : EVA :=
  let s : EVA := if s.underwater then { s with envPressure := max s.envPressure 2.0e5 } else s
  if s.inVacuum then { s with envTemperature := ComputeVacuumTemperature h }
  else if s.underwater then { s with envTemperature := ComputeWaterTemperature s (-alt) }
  else { s with envTemperature := ComputeAtmosphereTemperature s h }

/-- `EVA::UpdateEnvironment`. -/
def UpdateEnvironment (s : EVA) (h : EVAHost) (_simdt : ℚ) : EVA :=
  let s : EVA := { s with underwater := false, inAtmosphere := false, inVacuum := false }
  match h.surfaceRef with
  | none =>
    let s : EVA :=
      { s with envPressure := 0.0, envRadiation := 0.7, envToxicity := 0.0,
               inVacuum := true, currentProfile := PlanetHazardProfile.zeroInit }
    { s with envTemperature := ComputeVacuumTemperature h }
  | some name =>
    let s : EVA := { s with currentProfile := GetPlanetHazardProfile name }
    let alt := h.rDist - h.radius
    let s : EVA := sampleAtmosphere s h alt
    let s : EVA := { s with envRadiation := sampleRadiation s.currentProfile alt }
    let s : EVA := sampleToxicity s
    sampleTemperature s h alt

/-- `EVA::ApplyRandomMicrometeorites`. -/
def ApplyRandomMicrometeorites (s : EVA) (h : EVAHost) (simdt : ℚ) : EVA :=
  if s.inVacuum = false then s
  else if s.health ≤ 0.0 then s
  else
    let hitsPerHour : ℚ := 0.1
    let p := hitsPerHour / 3600.0 * simdt
    let r := h.rand1
    if r < p then
      let dmg : ℚ := 0.1
      let s : EVA := { s with suitIntegrity := s.suitIntegrity - dmg }
      let s : EVA := if s.suitIntegrity < 0.0 then { s with suitIntegrity := 0.0 } else s
      if s.ion.charge > 0.0 then
        let pDamage : ℚ := 0.3
        let r2 := h.rand2
        if r2 < pDamage then { s with ion := { s.ion with damaged := true } } else s
      else s
    else s

/-- `EVA::UpdateToxicShield`. -/
def UpdateToxicShield (s : EVA) (simdt : ℚ) : EVA :=
  if s.toxicShieldOnline = false then s
  else if s.toxicShieldCharge ≤ 0.0 then { s with toxicShieldCharge := 0.0 }
  else if s.envToxicity > 0.05 then
    let drain := s.toxicShieldDrainRate * s.envToxicity * simdt
    let s : EVA := { s with toxicShieldCharge := s.toxicShieldCharge - drain }
    if s.toxicShieldCharge < 0.0 then { s with toxicShieldCharge := 0.0 } else s
  else s

/-- `EVA::ConsumeIonCharge`: the returned flag and the new state. -/
def ConsumeIonCharge (s : EVA) (amount : ℚ) : Bool × EVA :=
  if s.ion.charge < amount then (false, s)
  else
    let s : EVA := { s with ion := { s.ion with charge := s.ion.charge - amount } }
    let s : EVA := if s.ion.charge < 0.0 then { s with ion := { s.ion with charge := 0.0 } } else s
    (true, s)

/-- `EVA::ApplyIonBatteryEffects`. -/
def ApplyIonBatteryEffects (s : EVA) (simdt : ℚ) : EVA :=
  let s : EVA :=
    if s.ion.damaged ∧ s.ion.charge > 0.0 then
      let leak := s.ionLeakFactor * (s.ion.charge / s.ion.capacity)
      let radHit := leak * simdt
      { s with health := s.health - radHit * 0.5,
               suitIntegrity := s.suitIntegrity - radHit * 0.5 }
    else s
  let s : EVA :=
    if s.suitIntegrity ≤ 0.0 ∧ s.ion.charge > s.ion.capacity * 0.5 then
      let burst := s.ion.charge / s.ion.capacity
      let dmg := burst * 0.5
      { s with health := s.health - dmg, ion := { s.ion with charge := 0.0 } }
    else s
  { s with health := Clamp s.health 0.0 1.0,
           suitIntegrity := Clamp s.suitIntegrity 0.0 1.0 }

/-- `EVA::RechargeToxicShieldFromIon`. -/
def RechargeToxicShieldFromIon (s : EVA) : EVA :=
  let ionPerChunk : ℚ := 10.0
  let shieldPerChunk : ℚ := 25.0
  if s.toxicShieldCharge ≥ s.toxicShieldCapacity then s
  else
    let r := ConsumeIonCharge s ionPerChunk
    if r.1 = false then r.2
    else
      let s : EVA := r.2
      let s : EVA := { s with toxicShieldCharge := s.toxicShieldCharge + shieldPerChunk }
      if s.toxicShieldCharge > s.toxicShieldCapacity then
        { s with toxicShieldCharge := s.toxicShieldCapacity }
      else s

/-- `EVA::CraftIonCell`. -/
def CraftIonCell (s : EVA) : EVA :=
  let crystals := s.inventory.Crystal
  if crystals < 5 then s
  else
    let s : EVA := { s with inventory := { s.inventory with Crystal := crystals - 5 } }
    let addCharge : ℚ := 20.0
    let s : EVA := { s with ion := { s.ion with charge := s.ion.charge + addCharge } }
    let s : EVA := if s.ion.charge > s.ion.capacity then
               { s with ion := { s.ion with charge := s.ion.capacity } } else s
    { s with inventory := { s.inventory with ION_CORE := s.inventory.ION_CORE + 1 } }

/-- `EVA::ApplyGravityEffects`; `g` is `length(gvec)`. -/
def ApplyGravityEffects (s : EVA) (g simdt : ℚ) : EVA :=
  let s : EVA :=
    if g < 0.5 then
      let dmg := (0.5 - g) * 0.0001
      { s with health := s.health - dmg * simdt }
    else s
  let s : EVA :=
    if g > 12.0 ∧ g ≤ 25.0 then
      let excess := g - 12.0
      let s : EVA :=
        { s with health := s.health - simdt * 0.001 * excess,
                        suitIntegrity := s.suitIntegrity - simdt * 0.0005 * excess,
                        suitOxygen := s.suitOxygen - simdt * 0.2 * excess }
      if s.suitOxygen < 0.0 then { s with suitOxygen := 0.0 } else s
    else s
  let s : EVA :=
    if g > 25.0 then { s with health := 0.0, suitIntegrity := 0.0 }
    else s
  { s with health := Clamp s.health 0.0 1.0,
           suitIntegrity := Clamp s.suitIntegrity 0.0 1.0 }

/-- The block `// Oxygen` of `EVA::ApplyEnvironmentEffects`. -/
def envOxygen (s : EVA) (simdt : ℚ) : EVA :=
  let oxyRate : ℚ := 1.0
  let oxyRate := if s.underwater then oxyRate * 1.2 else oxyRate
  let s : EVA := { s with suitOxygen := s.suitOxygen - simdt * oxyRate }
  let s : EVA := if s.suitOxygen < 0.0 then { s with suitOxygen := 0.0 } else s
  if s.suitOxygen ≤ 0.0 then { s with health := s.health - simdt * 0.02 } else s

/-- The block `// Pressure` of `EVA::ApplyEnvironmentEffects`. -/
def envPressureDamage (s : EVA) (simdt : ℚ) : EVA :=
  if s.envPressure > s.maxSafePressure then
    let over := s.envPressure - s.maxSafePressure
    let dmgRate := over / s.maxSafePressure
    { s with suitIntegrity := s.suitIntegrity - simdt * 0.01 * dmgRate,
             health := s.health - simdt * 0.01 * dmgRate }
  else s

/-- The block `// Radiation` of `EVA::ApplyEnvironmentEffects`. -/
def envRadiationDamage (s : EVA) (simdt : ℚ) : EVA :=
  let effectiveRad := s.envRadiation * (1.0 - s.baseRadiationShield)
  if effectiveRad > 0.1 then { s with health := s.health - simdt * 0.001 * effectiveRad }
  else s

/-- The value of `effectiveTox` in the block `// Toxicity with shield` of
`EVA::ApplyEnvironmentEffects`. -/
def envEffectiveTox (s : EVA) : ℚ :=
  let shieldFactor : ℚ := 0.0
  let shieldFactor :=
    if s.toxicShieldOnline ∧ s.toxicShieldCharge > 0.0 then
      let frac := s.toxicShieldCharge / s.toxicShieldCapacity
      s.toxicShieldEfficiency * frac
    else shieldFactor
  let totalToxProtection := s.baseToxicProtection + shieldFactor
  let totalToxProtection := if totalToxProtection > 0.95 then 0.95 else totalToxProtection
  let toxBase := s.envToxicity
  let toxBase := if s.currentProfile.corrosive ∧ s.inAtmosphere then 1.0 else toxBase
  toxBase * (1.0 - totalToxProtection)

/-- The block `// Toxicity with shield` of `EVA::ApplyEnvironmentEffects`, up to the
gas-giant test. -/
def envToxicityDamage (s : EVA) (simdt : ℚ) : EVA :=
  let effectiveTox := envEffectiveTox s
  if effectiveTox > 0.05 then
    { s with health := s.health - simdt * 0.002 * effectiveTox,
             suitIntegrity := s.suitIntegrity - simdt * 0.0015 * effectiveTox }
  else s

/-- The gas-giant test of `EVA::ApplyEnvironmentEffects`
(`if (currentProfile.gasGiant && inAtmosphere)`). -/
def envGasGiantDamage (s : EVA) (simdt : ℚ) : EVA :=
  if s.currentProfile.gasGiant ∧ s.inAtmosphere then
    { s with suitIntegrity := s.suitIntegrity - simdt * 1.0,
             health := s.health - simdt * 1.0 }
  else s

/-- The value of `delta` in the block `// Temperature` of
`EVA::ApplyEnvironmentEffects` after the cooling / heating adjustment. -/
def envTempDelta (s : EVA) : ℚ :=
  let delta := s.envTemperature - s.suitInternalTemp
  if delta > 0.0 then delta - s.suitCoolingPower
  else if delta < 0.0 then delta + s.suitHeatingPower
  else delta

/-- The block `// Temperature` of `EVA::ApplyEnvironmentEffects`. -/
def envTemperatureDamage (s : EVA) (simdt : ℚ) : EVA :=
  let delta := envTempDelta s
  let s : EVA :=
    if delta > s.maxSafeTempHigh then
      let heatStress := (delta - s.maxSafeTempHigh) * 0.001
      { s with health := s.health - heatStress * simdt,
               suitIntegrity := s.suitIntegrity - heatStress * 0.5 * simdt }
    else s
  if delta < s.maxSafeTempLow then
    let coldStress := (s.maxSafeTempLow - delta) * 0.001
    { s with health := s.health - coldStress * simdt,
             suitIntegrity := s.suitIntegrity - coldStress * 0.5 * simdt }
  else s

/-- `EVA::ApplyEnvironmentEffects`: the early return for a dead astronaut, then the
blocks of the body in source order, the nested `ApplyGravityEffects` (which reads the
gravity magnitude `h.g`) and the two final clamps. -/
def ApplyEnvironmentEffects (s : EVA) (h : EVAHost) (simdt : ℚ) : EVA :=
  if s.health ≤ 0.0 ∨ s.suitIntegrity ≤ 0.0 then s
  else
    let s : EVA := envOxygen s simdt
    let s : EVA := envPressureDamage s simdt
    let s : EVA := envRadiationDamage s simdt
    let s : EVA := envToxicityDamage s simdt
    let s : EVA := envGasGiantDamage s simdt
    let s : EVA := envTemperatureDamage s simdt
    let s : EVA := ApplyGravityEffects s h.g simdt
    let s : EVA := { s with suitIntegrity := Clamp s.suitIntegrity 0.0 1.0 }
    { s with health := Clamp s.health 0.0 1.0 }

/-- The search loop of `EVA::TryReenterShip` from index `i` on: the running best
ship (an index into the vessel list) and best distance. -/
def reenterLoop : List VesselInfo → Nat → Option Nat → ℚ → Option Nat
  | [], _, bestShip, _ => bestShip
  | v :: vs, i, bestShip, bestDist =>
    if v.isSelf then reenterLoop vs (i + 1) bestShip bestDist
    else if v.hasInterface = false then reenterLoop vs (i + 1) bestShip bestDist
    else if v.className ≠ "SurvivalShip" then reenterLoop vs (i + 1) bestShip bestDist
    else if v.dist < bestDist then reenterLoop vs (i + 1) (some i) v.dist
    else reenterLoop vs (i + 1) bestShip bestDist

/-- `EVA::TryReenterShip`: the index of the ship the host is told to focus on (after
which the host deletes the EVA vessel), or `none` when no ship is within 10 m.  The
members of the EVA object are not touched. -/
def TryReenterShip (vessels : List VesselInfo) : Option Nat :=
  reenterLoop vessels 0 none 10.0

/-- `EVA::clbkPreStep`. -/
def clbkPreStep (s : EVA) (h : EVAHost) (simdt : ℚ) : EVA :=
  let s : EVA := UpdateEnvironment s h simdt
  let s : EVA := UpdateToxicShield s simdt
  let s : EVA := ApplyIonBatteryEffects s simdt
  let s : EVA := ApplyEnvironmentEffects s h simdt
  let s : EVA := ApplyRandomMicrometeorites s h simdt
  { s with inMiningRange := CheckProximity h.pos s.resourcePos s.miningRange }

/-- Result of a key callback of the EVA: the returned `int`, the state afterwards and
the ship handed to the host for re-entry, if any. -/
structure KeyResult where
  ret : Int
  state : EVA
  reenter : Option Nat

/-- `EVA::clbkConsumeBufferedKey`. -/
def clbkConsumeBufferedKey (k : KeyCodes) (s : EVA) (vessels : List VesselInfo)
    (key : Nat) (down : Bool) : KeyResult :=
  if down = false then ⟨0, s, none⟩
  else if s.health ≤ 0.0 ∨ s.suitIntegrity ≤ 0.0 then ⟨0, s, none⟩
  else if key = k.keyM then ⟨1, MineResource s, none⟩
  else if key = k.keyE then ⟨1, s, TryReenterShip vessels⟩
  else if key = k.keyC then ⟨1, CraftIonCell s, none⟩
  else if key = k.keyR then ⟨1, RechargeToxicShieldFromIon s, none⟩
  else ⟨0, s, none⟩

end EVA

/-! ## SurvivalShip -/

/-- The data members of `class SurvivalShip` (`SurvivalShip.h`).  A thruster or
propellant handle is modelled by whether it is non-null.  `mainLevel` and
`pulseLevel` are the levels of the main and pulse thrusters kept by the host, read
with `GetThrusterLevel` and written with `SetThrusterLevel`. -/
structure SurvivalShip where
  hullIntegrity : ℚ
  internalPressure : ℚ
  internalOxygen : ℚ
  powerLevel : ℚ
  radiationShield : ℚ
  thermalInsulation : ℚ
  envPressure : ℚ
  envRadiation : ℚ
  envTemperature : ℚ
  inAtmosphere : Bool
  inVacuum : Bool
  currentProfile : PlanetHazardProfile
  airlockOpen : Bool
  ph_main : Bool
  th_main : Bool
  th_pulse : Bool
  maxFuelMass : ℚ
  baseIsp_main : ℚ
  baseIsp_rcs : ℚ
  baseIsp_pulse : ℚ
  mainMaxThrust : ℚ
  pulseMaxThrust : ℚ
  hoverMode : Bool
  pulseActive : Bool
  hullTemp : ℚ
  overheatThreshold : ℚ
  meltThreshold : ℚ
  computerHealth : ℚ
  computerShield : ℚ
  computerRepairProgress : ℚ
  repairMaterials : CInt
  repairingComputer : Bool
  mainLevel : ℚ
  pulseLevel : ℚ

/-- What the host simulator reports to the ship during one `clbkPreStep`. -/
structure ShipHost where
  /-- `GetSurfaceRef()`: the name of the reference body, `none` for a null handle. -/
  surfaceRef : Option String
  /-- `oapiGetSize(hRef)`. -/
  radius : ℚ
  /-- `length(gpos - cpos)`. -/
  rDist : ℚ
  /-- `GetAtmosphericParams(atm) != 0`. -/
  atmParams : Bool
  /-- `GetAtmPressure()`. -/
  atmPressure : ℚ
  /-- `GetAtmTemperature()` in kelvin. -/
  atmTemperature : ℚ
  /-- The draw `rand() / RAND_MAX` of `ApplyRandomMicrometeorites`. -/
  randMeteor : ℚ
  /-- `length(gvec)`: magnitude of the local gravity vector. -/
  g : ℚ
  /-- `length(myPos - sunPos)`, or `none` when there is no object named "Sun". -/
  sunDist : Option ℚ
  /-- `GetDynPressure()`. -/
  dynPressure : ℚ
  /-- `GetAirspeed()`. -/
  airspeed : ℚ
  /-- The draw `rand() / RAND_MAX` of `UpdateHoverMode`. -/
  randHover : ℚ
  /-- `GetMass()`. -/
  mass : ℚ
  /-- The value `-dotp(dirGlobal, gDir)` of `UpdateHoverMode`. -/
  cosAngle : ℚ
  /-- `GetPropellantMass(ph_main)`. -/
  fuel : ℚ
  /-- The draw `rand()` of `ApplyGravityManeuverPenalties`. -/
  randJitter : Nat
  deriving Repr

namespace SurvivalShip

/-- The constructor `SurvivalShip::SurvivalShip`; the thruster and propellant handles
are null and the host-side thruster levels are zero until `clbkSetClassCaps`. -/
def construct : SurvivalShip :=
  { hullIntegrity := 1.0
    internalPressure := 1.0e5
    internalOxygen := 3600.0
    powerLevel := 1.0
    radiationShield := 0.8
    thermalInsulation := 0.8
    envPressure := 0.0
    envRadiation := 0.0
    envTemperature := 0.0
    inAtmosphere := false
    inVacuum := true
    airlockOpen := false
    currentProfile := PlanetHazardProfile.zeroInit
    ph_main := false
    th_main := false
    th_pulse := false
    maxFuelMass := 20000.0
    baseIsp_main := 450.0
    baseIsp_rcs := 280.0
    baseIsp_pulse := 200.0
    mainMaxThrust := 6.0e5
    pulseMaxThrust := 2.0e6
    hoverMode := false
    pulseActive := false
    hullTemp := 20.0
    overheatThreshold := 900.0
    meltThreshold := 1500.0
    computerHealth := 1.0
    computerShield := 0.9
    computerRepairProgress := 0.0
    repairMaterials := 0
    repairingComputer := false
    mainLevel := 0
    pulseLevel := 0 }

/-- `SurvivalShip::clbkSetClassCaps` with `SetupThrustersAndFuel`: the propellant
resource and the main and pulse thrusters are created, so their handles are
non-null.  Mass, size and the RCS thrusters live in the host only. -/
def clbkSetClassCaps (s : SurvivalShip) : SurvivalShip :=
  { s with ph_main := true, th_main := true, th_pulse := true }

/-- The atmosphere test of `SurvivalShip::UpdateEnvironment` (`bool hasAtm = ...` and
the `if (hasAtm)` statement). -/
def sampleAtmosphere (s : SurvivalShip) (h : ShipHost) : SurvivalShip :=
  let hasAtm := h.atmParams && s.currentProfile.hasAtmosphere
  if hasAtm then
    let s : SurvivalShip := { s with envPressure := h.atmPressure }
    if s.envPressure > 0.0 then { s with inAtmosphere := true }
    else { s with inVacuum := true }
  else { s with envPressure := 0.0, inVacuum := true }

/-- The temperature blend at the end of `SurvivalShip::UpdateEnvironment`. -/
def sampleTemperature (s : SurvivalShip) (h : ShipHost) : SurvivalShip :=
  if s.inAtmosphere ∧ s.currentProfile.hasAtmosphere then
    let T := h.atmTemperature
    let tempC := T - 273.15
    { s with envTemperature := 0.5 * tempC + 0.5 * s.currentProfile.baseTemp }
  else { s with envTemperature := s.currentProfile.baseTemp }

/-- `SurvivalShip::UpdateEnvironment`. -/
def UpdateEnvironment (s : SurvivalShip) (h : ShipHost) (_simdt : ℚ) : SurvivalShip :=
  let s : SurvivalShip := { s with inAtmosphere := false, inVacuum := false }
  match h.surfaceRef with
  | none =>
    { s with envPressure := 0.0, envRadiation := 0.7, envTemperature := -150.0,
             inVacuum := true, currentProfile := PlanetHazardProfile.zeroInit }
  | some name =>
    let s : SurvivalShip := { s with currentProfile := GetPlanetHazardProfile name }
    let alt := h.rDist - h.radius
    let s : SurvivalShip := sampleAtmosphere s h
    let s : SurvivalShip := { s with envRadiation := sampleRadiation s.currentProfile alt }
    sampleTemperature s h

/-- The body of the hit branch (`if (r < p)`) of
`SurvivalShip::ApplyRandomMicrometeorites`. -/
def meteorHit (s : SurvivalShip) : SurvivalShip :=
  let dmg : ℚ := 0.05
  let s : SurvivalShip := { s with hullIntegrity := s.hullIntegrity - dmg }
  let s : SurvivalShip := if s.hullIntegrity < 0.0 then { s with hullIntegrity := 0.0 } else s
  { s with internalPressure := s.internalPressure * 0.9 }

/-- `SurvivalShip::ApplyRandomMicrometeorites`. -/
def ApplyRandomMicrometeorites (s : SurvivalShip) (h : ShipHost) (simdt : ℚ) : SurvivalShip :=
  if s.inVacuum = false then s
  else if s.hullIntegrity ≤ 0.0 then s
  else
    let hitsPerHour : ℚ := 0.05
    let p := hitsPerHour / 3600.0 * simdt
    let r := h.randMeteor
    if r < p then meteorHit s else s

/-- `SurvivalShip::ComputeSolarFlux`. -/
def ComputeSolarFlux (h : ShipHost) : ℚ :=
  match h.sunDist with
  | none => 0.0
  | some dist =>
    let AU : ℚ := 1.496e11
    let flux := 1361.0 * (AU * AU) / (dist * dist)
    flux

/-- The temperature change `dTemp` computed by `SurvivalShip::UpdateThermalModel`. -/
def thermalDTemp (s : SurvivalShip) (h : ShipHost) (simdt g : ℚ) : ℚ :=
  let solarFlux := ComputeSolarFlux h
  let solarHeating := solarFlux * 0.0001
  let convectiveHeating : ℚ := 0.0
  let convectiveHeating :=
    if s.inAtmosphere then
      let q := h.dynPressure
      let v := h.airspeed
      q * v * 1e-4
    else convectiveHeating
  let ambientEffect := (s.envTemperature - s.hullTemp) * 0.01
  let mainLevel := if s.th_main then s.mainLevel else 0.0
  let pulseLevel := if s.th_pulse then s.pulseLevel else 0.0
  let gravityFactor := g / 9.81
  let mainHeat := mainLevel * gravityFactor * 5.0
  let pulseHeat := pulseLevel * gravityFactor * 15.0
  let cooling : ℚ := 8.0
  (solarHeating + convectiveHeating + ambientEffect + mainHeat + pulseHeat - cooling) * simdt

/-- The block `// Overheat damage` of `SurvivalShip::UpdateThermalModel`. -/
def thermalOverheat (s : SurvivalShip) (simdt : ℚ) : SurvivalShip :=
  if s.hullTemp > s.overheatThreshold then
    let excess := s.hullTemp - s.overheatThreshold
    let dmg := excess * 1e-5
    { s with hullIntegrity := s.hullIntegrity - dmg * simdt }
  else s

/-- The block `// Extreme melting regime` of `SurvivalShip::UpdateThermalModel`. -/
def thermalMelt (s : SurvivalShip) (simdt : ℚ) : SurvivalShip :=
  if s.hullTemp > s.meltThreshold then
    let s : SurvivalShip :=
      { s with hullIntegrity := s.hullIntegrity - 0.1 * simdt,
               internalPressure := s.internalPressure * (1.0 - 0.5 * simdt) }
    if s.internalPressure < 0.0 then { s with internalPressure := 0.0 } else s
  else s

/-- `SurvivalShip::UpdateThermalModel`. -/
def UpdateThermalModel (s : SurvivalShip) (h : ShipHost) (simdt g : ℚ) : SurvivalShip :=
  let dTemp := thermalDTemp s h simdt g
  let s : SurvivalShip := { s with hullTemp := s.hullTemp + dTemp }
  let s : SurvivalShip := thermalOverheat s simdt
  let s : SurvivalShip := thermalMelt s simdt
  if s.hullIntegrity < 0.0 then { s with hullIntegrity := 0.0 } else s

/-- The three updates of `SurvivalShip::ApplyGravityBuckling` (hull, cabin pressure,
computer) before its two floors; `std::pow(x, 2.0)` is the square. -/
def bucklingLoad (s : SurvivalShip) (simdt g : ℚ) : SurvivalShip :=
  let bucklingFactor := ((g - 18.0) / 10.0) ^ 2
  let bucklingDamage := bucklingFactor * 0.002
  { s with hullIntegrity := s.hullIntegrity - bucklingDamage * simdt,
           internalPressure := s.internalPressure * (1.0 - bucklingFactor * 0.01 * simdt),
           computerHealth := s.computerHealth - bucklingFactor * 0.0005 * simdt }

/-- `SurvivalShip::ApplyGravityBuckling`. -/
def ApplyGravityBuckling (s : SurvivalShip) (simdt g : ℚ) : SurvivalShip :=
  if g ≤ 18.0 then s
  else
    let s : SurvivalShip := bucklingLoad s simdt g
    let s : SurvivalShip := if s.internalPressure < 0.0 then { s with internalPressure := 0.0 }
                            else s
    if s.computerHealth < 0.0 then { s with computerHealth := 0.0 } else s

/-- The first block of `SurvivalShip::ApplyGravityStress`: mild stress for
`12 < g <= 25`. -/
def stressMild (s : SurvivalShip) (simdt g : ℚ) : SurvivalShip :=
  if g > 12.0 ∧ g ≤ 25.0 then
    let excess := g - 12.0
    let s : SurvivalShip :=
      { s with hullIntegrity := s.hullIntegrity - simdt * 0.0005 * excess,
               internalOxygen := s.internalOxygen - simdt * 0.1 * excess }
    if s.internalOxygen < 0.0 then { s with internalOxygen := 0.0 } else s
  else s

/-- The second block of `SurvivalShip::ApplyGravityStress`: extreme gravity,
`g > 25`. -/
def stressExtreme (s : SurvivalShip) (simdt g : ℚ) : SurvivalShip :=
  if g > 25.0 then
    let factor := (g - 25.0) * 0.005
    let s : SurvivalShip :=
      { s with hullIntegrity := s.hullIntegrity - factor * simdt,
               internalPressure := s.internalPressure * (1.0 - 0.1 * simdt) }
    if s.internalPressure < 0.0 then { s with internalPressure := 0.0 } else s
  else s

/-- `SurvivalShip::ApplyGravityStress`: the two stress blocks, the clamp of the hull
integrity, then the call of `ApplyGravityBuckling`. -/
def ApplyGravityStress (s : SurvivalShip) (simdt g : ℚ) : SurvivalShip :=
  let s : SurvivalShip := stressMild s simdt g
  let s : SurvivalShip := stressExtreme s simdt g
  let s : SurvivalShip := { s with hullIntegrity := Clamp s.hullIntegrity 0.0 1.0 }
  ApplyGravityBuckling s simdt g

/-- `SurvivalShip::ApplyElectronicsDamage`. -/
def ApplyElectronicsDamage (s : SurvivalShip) (simdt : ℚ) : SurvivalShip :=
  let effectiveRad := s.envRadiation * (1.0 - s.computerShield)
  let effectiveRad := if s.hullTemp > s.overheatThreshold then effectiveRad + 0.1 else effectiveRad
  let effectiveRad := if s.hullTemp < -150.0 then effectiveRad + 0.05 else effectiveRad
  let s : SurvivalShip :=
    if effectiveRad > 0.05 then
      let dmg := effectiveRad * 0.0005
      { s with computerHealth := s.computerHealth - dmg * simdt }
    else s
  if s.computerHealth < 0.0 then { s with computerHealth := 0.0 } else s

/-- `SurvivalShip::StartComputerRepair`. -/
def StartComputerRepair (s : SurvivalShip) : SurvivalShip :=
  if s.repairingComputer then s
  else if s.repairMaterials ≤ 0 then s
  else { s with repairingComputer := true, computerRepairProgress := 0.0,
                repairMaterials := s.repairMaterials - 1 }

/-- The progress update of `SurvivalShip::UpdateComputerRepair`: the increment of
`computerRepairProgress` and its cap at 1. -/
def repairAdvance (s : SurvivalShip) (simdt : ℚ) : SurvivalShip :=
  let repairRate : ℚ := 1.0 / 120.0
  let s : SurvivalShip :=
    { s with computerRepairProgress := s.computerRepairProgress + repairRate * simdt }
  if s.computerRepairProgress > 1.0 then { s with computerRepairProgress := 1.0 } else s

/-- `SurvivalShip::UpdateComputerRepair`. -/
def UpdateComputerRepair (s : SurvivalShip) (simdt : ℚ) : SurvivalShip :=
  if s.repairingComputer = false then s
  else if s.computerHealth ≥ 1.0 then
    { s with repairingComputer := false, computerRepairProgress := 0.0 }
  else
    let repairRate : ℚ := 1.0 / 120.0
    let s : SurvivalShip := repairAdvance s simdt
    let s : SurvivalShip :=
      { s with computerHealth := Clamp (s.computerHealth + repairRate * simdt) 0.0 1.0 }
    if s.computerRepairProgress ≥ 1.0 then { s with repairingComputer := false } else s

/-- The block `// Hull breach -> depressurization` of
`SurvivalShip::ApplyEnvironmentToShip`. -/
def envBreach (s : SurvivalShip) (simdt : ℚ) : SurvivalShip :=
  if s.hullIntegrity ≤ 0.0 then
    let s : SurvivalShip := { s with internalPressure := s.internalPressure * (1.0 - 0.5 * simdt) }
    if s.internalPressure < 0.0 then { s with internalPressure := 0.0 } else s
  else s

/-- The block `// Airlock equalization` of `SurvivalShip::ApplyEnvironmentToShip`. -/
def envAirlock (s : SurvivalShip) (simdt : ℚ) : SurvivalShip :=
  if s.airlockOpen then
    let rate : ℚ := 0.5
    let diff := s.envPressure - s.internalPressure
    let s : SurvivalShip := { s with internalPressure := s.internalPressure + diff * rate * simdt }
    if s.internalPressure < 0.0 then { s with internalPressure := 0.0 } else s
  else s

/-- The block `// Oxygen consumption` of `SurvivalShip::ApplyEnvironmentToShip`. -/
def envOxygen (s : SurvivalShip) (simdt : ℚ) : SurvivalShip :=
  let s : SurvivalShip := { s with internalOxygen := s.internalOxygen - simdt * 1.0 }
  if s.internalOxygen < 0.0 then { s with internalOxygen := 0.0 } else s

/-- The block `// Radiation vs hull` of `SurvivalShip::ApplyEnvironmentToShip`. -/
def envRadiationHull (s : SurvivalShip) (simdt : ℚ) : SurvivalShip :=
  let effectiveRad := s.envRadiation * (1.0 - s.radiationShield)
  if effectiveRad > 0.1 then
    { s with hullIntegrity := s.hullIntegrity - simdt * 0.0005 * effectiveRad }
  else s

/-- The block `// Corrosive atmospheres` of `SurvivalShip::ApplyEnvironmentToShip`. -/
def envCorrosion (s : SurvivalShip) (simdt : ℚ) : SurvivalShip :=
  if s.currentProfile.corrosive ∧ s.inAtmosphere then
    { s with hullIntegrity := s.hullIntegrity - simdt * 0.0005 }
  else s

/-- The block `// Gas giants in atmosphere` of `SurvivalShip::ApplyEnvironmentToShip`. -/
def envGasGiant (s : SurvivalShip) (simdt : ℚ) : SurvivalShip :=
  if s.currentProfile.gasGiant ∧ s.inAtmosphere then
    { s with hullIntegrity := s.hullIntegrity - simdt * 0.01 }
  else s

/-- `SurvivalShip::ApplyEnvironmentToShip`: its six blocks in source order and the
final clamp of the hull integrity. -/
def ApplyEnvironmentToShip (s : SurvivalShip) (simdt : ℚ) : SurvivalShip :=
  let s : SurvivalShip := envBreach s simdt
  let s : SurvivalShip := envAirlock s simdt
  let s : SurvivalShip := envOxygen s simdt
  let s : SurvivalShip := envRadiationHull s simdt
  let s : SurvivalShip := envCorrosion s simdt
  let s : SurvivalShip := envGasGiant s simdt
  { s with hullIntegrity := Clamp s.hullIntegrity 0.0 1.0 }

/-- `SurvivalShip::UpdateHoverMode`.  `SetThrusterLevel(th_main, x)` stores `x` in
`mainLevel`.  The glitch test `computerHealth < 0.3` with its nested draw `r < p`
(`p = 0.3 * simdt`) is one condition: when either part fails the code falls through. -/
def UpdateHoverMode (s : SurvivalShip) (h : ShipHost) (simdt g : ℚ) : SurvivalShip :=
  if s.hoverMode = false then s
  else if s.th_main = false ∨ s.ph_main = false then s
  else if s.computerHealth < 0.3 ∧ h.randHover < 0.3 * simdt then
    { s with hoverMode := false, mainLevel := 0.0 }
  else if g < 0.1 then { s with mainLevel := 0.0 }
  else
    let mass := h.mass
    let weight := mass * g
    let cosAngle := h.cosAngle
    if cosAngle < 0.1 then { s with mainLevel := 0.0 }
    else
      let effectiveThrust := s.mainMaxThrust * cosAngle
      let requiredLevel := weight / effectiveThrust
      let requiredLevel := Clamp requiredLevel 0.0 1.0
      { s with mainLevel := requiredLevel }

/-- `SurvivalShip::UpdatePulseEngine`.  `SetThrusterLevel(th_pulse, x)` stores `x` in
`pulseLevel`. -/
def UpdatePulseEngine (s : SurvivalShip) (h : ShipHost) (simdt _g : ℚ) : SurvivalShip :=
  if s.th_pulse = false then s
  else if s.pulseActive = false then { s with pulseLevel := 0.0 }
  else
    let s : SurvivalShip := if s.inVacuum = false ∧ s.envPressure > 100.0 then
               { s with hullTemp := s.hullTemp + 100.0 * simdt }
             else s
    let controlFactor := s.computerHealth
    let controlFactor := if controlFactor < 0.2 then 0.2 else controlFactor
    let s : SurvivalShip := { s with pulseLevel := controlFactor }
    let fuel := h.fuel
    if fuel ≤ 0.0 then { s with pulseLevel := 0.0, pulseActive := false } else s

/-- `SurvivalShip::ApplyGravityManeuverPenalties`, restricted to what it writes to the
main thruster level; the RCS thrust limits and the angular velocity it also sets are
kept by the host and never read back into the members. -/
def ApplyGravityManeuverPenalties (s : SurvivalShip) (h : ShipHost) (_simdt g : ℚ) :
    SurvivalShip :=
  let maneuverPenalty := Clamp (g / 20.0) 0.0 1.0
  if s.hoverMode ∧ s.th_main then
    let instability := maneuverPenalty * 0.1
    let jitter : ℚ := (((h.randJitter % 200 : Nat) : ℚ) - 100) / 1000.0
    let level := s.mainLevel
    { s with mainLevel := Clamp (level + jitter * instability) 0.0 1.0 }
  else s

/-- `SurvivalShip::SpawnEVA`: of its effects only the opened airlock is a member of
the ship; the new EVA vessel belongs to the host. -/
def SpawnEVA (s : SurvivalShip) : SurvivalShip :=
  if s.internalPressure < 5.0e4 then s
  else { s with airlockOpen := true }

/-- `SurvivalShip::clbkPreStep`; `g` is `h.g`.  `UpdateGravityDependentISP`,
`ApplyGravityCockpitShake` and `ApplyGravitySoundEffects` write only host-side thruster
parameters, the angular velocity and the log, and do not appear. -/
def clbkPreStep (s : SurvivalShip) (h : ShipHost) (simdt : ℚ) : SurvivalShip :=
  let s : SurvivalShip := UpdateEnvironment s h simdt
  let s : SurvivalShip := ApplyEnvironmentToShip s simdt
  let s : SurvivalShip := ApplyRandomMicrometeorites s h simdt
  let g := h.g
  let s : SurvivalShip := UpdateThermalModel s h simdt g
  let s : SurvivalShip := ApplyGravityStress s simdt g
  let s : SurvivalShip := ApplyElectronicsDamage s simdt
  let s : SurvivalShip := UpdateComputerRepair s simdt
  let s : SurvivalShip := UpdateHoverMode s h simdt g
  let s : SurvivalShip := UpdatePulseEngine s h simdt g
  ApplyGravityManeuverPenalties s h simdt g

/-- `SurvivalShip::clbkConsumeBufferedKey`: the returned `int` and the state
afterwards. -/
def clbkConsumeBufferedKey (k : KeyCodes) (s : SurvivalShip) (key : Nat) (down : Bool) :
    Int × SurvivalShip :=
  if down = false then (0, s)
  else if key = k.keyA then (1, { s with airlockOpen := !s.airlockOpen })
  else if key = k.keyE then (1, SpawnEVA s)
  else if key = k.keyH then
    let s : SurvivalShip := { s with hoverMode := !s.hoverMode }
    (1, if s.hoverMode = false ∧ s.th_main then { s with mainLevel := 0.0 } else s)
  else if key = k.keyP then
    let s : SurvivalShip := { s with pulseActive := !s.pulseActive }
    (1, if s.pulseActive = false ∧ s.th_pulse then { s with pulseLevel := 0.0 } else s)
  else if key = k.keyR then (1, StartComputerRepair s)
  else if key = k.keyM then (1, { s with repairMaterials := s.repairMaterials + 1 })
  else (0, s)

end SurvivalShip

/-! ## Concrete inputs -/

/-- An EVA frame far from any body: no surface reference, the Sun at a distance that
gives a vacuum temperature of 20 °C, gravity 1 m/s², and random draws that hit
nothing. -/
def calmHost : EVAHost :=
  { surfaceRef := none, radius := 0, rDist := 0, atmParams := false, atmPressure := 0,
    atmTemperature := 0, sun := true, sunTempK := 293.15, sunDot := 0, g := 1,
    rand1 := 1, rand2 := 1, pos := ⟨0, 0, 0⟩ }

/-- The frame of `calmHost` with the astronaut standing on the resource node at
(10, 0, 10). -/
def atResource : EVAHost :=
  { calmHost with pos := ⟨10, 0, 10⟩ }

/-- A ship frame in deep space under a gravity of 28 m/s²: no surface reference, no
Sun, all thrusters idle, and random draws that hit nothing. -/
def highGravity : ShipHost :=
  { surfaceRef := none, radius := 0, rDist := 0, atmParams := false, atmPressure := 0,
    atmTemperature := 0, randMeteor := 1, g := 28, sunDist := none, dynPressure := 0,
    airspeed := 0, randHover := 1, mass := 40000, cosAngle := 1, fuel := 20000,
    randJitter := 100 }

/-- The ship after `clbkSetClassCaps`, with its hull integrity worn down to 0. -/
def wreck : SurvivalShip :=
  { SurvivalShip.clbkSetClassCaps SurvivalShip.construct with hullIntegrity := 0 }

/-- A ship frame 1 km below the reference radius of Jupiter, the host reporting an
atmosphere of 100 kPa at 165 K and a gravity of 24 m/s². -/
def jupiterDive : ShipHost :=
  { surfaceRef := some "Jupiter", radius := 71492000, rDist := 71491000, atmParams := true,
    atmPressure := 100000, atmTemperature := 165, randMeteor := 1, g := 24, sunDist := none,
    dynPressure := 0, airspeed := 0, randHover := 1, mass := 40000, cosAngle := 1,
    fuel := 20000, randJitter := 100 }

/-- The EVA frame at the same place as `jupiterDive`. -/
def jupiterDiveEVA : EVAHost :=
  { surfaceRef := some "Jupiter", radius := 71492000, rDist := 71491000, atmParams := true,
    atmPressure := 100000, atmTemperature := 165, sun := true, sunTempK := 293.15,
    sunDot := 0, g := 24, rand1 := 1, rand2 := 1, pos := ⟨0, 0, 0⟩ }

/-- The constructed suit with 30 units of ION charge and a toxic shield at 90 of
100. -/
def chargedSuit : EVA :=
  { EVA.construct with
    ion := { capacity := 200.0, charge := 30.0, damaged := false },
    toxicShieldCharge := 90.0 }

/-- The constructed suit with a half-full toxic shield in an environment of
toxicity 0.7. -/
def shieldedSuit : EVA :=
  { EVA.construct with toxicShieldCharge := 50.0, envToxicity := 0.7 }

/-- The constructed suit standing in an environment of -40 °C. -/
def coldSuit : EVA :=
  { EVA.construct with envTemperature := -40.0 }

/-- The frame of `calmHost` with the Sun farther away: a vacuum temperature of
-40 °C. -/
def coldFrame : EVAHost :=
  { calmHost with sunTempK := 233.15 }

/-- The ship after `clbkSetClassCaps` with hover mode switched on. -/
def hoveringShip : SurvivalShip :=
  { SurvivalShip.clbkSetClassCaps SurvivalShip.construct with hoverMode := true }

/-- A ship frame under Earth gravity, thrust axis along the vertical, total mass
40 t. -/
def earthHover : ShipHost :=
  { highGravity with g := 9.81 }

/-- The ship after `clbkSetClassCaps` carrying two repair materials. -/
def suppliedShip : SurvivalShip :=
  { SurvivalShip.clbkSetClassCaps SurvivalShip.construct with repairMaterials := 2 }

/-! ## Runs: sequences of callbacks -/

/-- One call made on the EVA object: one of the three key actions called directly,
a key event delivered to `clbkConsumeBufferedKey`, or a frame delivered to
`clbkPreStep`. -/
inductive EVA.Event where
  | mine
  | craft
  | recharge
  | key (key : Nat) (down : Bool) (vessels : List VesselInfo)
  | frame (h : EVAHost) (simdt : ℚ)

/-- The time step of a frame event is not negative (other events carry none). -/
def EVA.Event.TimeForward : EVA.Event → Prop
  | EVA.Event.frame _ simdt => 0 ≤ simdt
  | _ => True

/-- The state of the EVA object after one event. -/
def EVA.step (k : KeyCodes) (s : EVA) : EVA.Event → EVA
  | EVA.Event.mine => EVA.MineResource s
  | EVA.Event.craft => EVA.CraftIonCell s
  | EVA.Event.recharge => EVA.RechargeToxicShieldFromIon s
  | EVA.Event.key key down vessels => (EVA.clbkConsumeBufferedKey k s vessels key down).state
  | EVA.Event.frame h simdt => EVA.clbkPreStep s h simdt

/-- The state of the EVA object after a sequence of events, first event first. -/
def EVA.run (k : KeyCodes) (s : EVA) (events : List EVA.Event) : EVA :=
  events.foldl (EVA.step k) s

/-- The ranges of the suit's stores: ION charge between 0 and the capacity, both
inventory counts not negative, shield charge between 0 and its capacity. -/
def EVA.StoresInRange (s : EVA) : Prop :=
  (0 ≤ s.ion.charge ∧ s.ion.charge ≤ s.ion.capacity) ∧
  (0 ≤ s.inventory.Crystal ∧ 0 ≤ s.inventory.ION_CORE) ∧
  (0 ≤ s.toxicShieldCharge ∧ s.toxicShieldCharge ≤ s.toxicShieldCapacity)

/-- The state `t` has the same stores as `s`: ION battery, inventory, shield charge,
shield capacity and shield drain rate. -/
def EVA.SameStores (s t : EVA) : Prop :=
  t.ion = s.ion ∧ t.inventory = s.inventory ∧
  t.toxicShieldCharge = s.toxicShieldCharge ∧
  t.toxicShieldCapacity = s.toxicShieldCapacity ∧
  t.toxicShieldDrainRate = s.toxicShieldDrainRate

/-- The stores are in range and the shield drain rate is not negative. -/
def EVA.StoresSafe (s : EVA) : Prop :=
  EVA.StoresInRange s ∧ 0 ≤ s.toxicShieldDrainRate

/-- A mining trip: a frame on the resource node, five presses of M, one of C (craft),
one of R (recharge the toxic shield) and a frame in deep space. -/
def miningTrip : List EVA.Event :=
  [EVA.Event.frame atResource 1, EVA.Event.key 0x32 true [], EVA.Event.key 0x32 true [],
    EVA.Event.key 0x32 true [], EVA.Event.key 0x32 true [], EVA.Event.key 0x32 true [],
    EVA.Event.key 0x2E true [], EVA.Event.key 0x13 true [], EVA.Event.frame calmHost 1]

/-- A frame on the resource node followed by 2^31 direct calls of `MineResource`. -/
def miningOverflow : List EVA.Event :=
  EVA.Event.frame atResource 1 :: List.replicate 2147483648 EVA.Event.mine

/-- The state in which `EVA::ApplyEnvironmentEffects` enters its block
`// Temperature`: the blocks before it applied in source order. -/
def EVA.beforeTemperature (s : EVA) (simdt : ℚ) : EVA :=
  EVA.envGasGiantDamage (EVA.envToxicityDamage (EVA.envRadiationDamage
    (EVA.envPressureDamage (EVA.envOxygen s simdt) simdt) simdt) simdt) simdt

/-- The state `t` has the environment temperature and the thermal constants of the
suit that `s` has. -/
def EVA.SameThermal (s t : EVA) : Prop :=
  t.envTemperature = s.envTemperature ∧ t.suitInternalTemp = s.suitInternalTemp ∧
  t.suitCoolingPower = s.suitCoolingPower ∧ t.suitHeatingPower = s.suitHeatingPower ∧
  t.maxSafeTempLow = s.maxSafeTempLow ∧ t.maxSafeTempHigh = s.maxSafeTempHigh

/-- An event that can reach `MineResource`: the direct call, or a key event that
carries the M key. -/
def EVA.Event.isMining (k : KeyCodes) : EVA.Event → Bool
  | EVA.Event.mine => true
  | EVA.Event.key code _ _ => decide (code = k.keyM)
  | _ => false

/-- The number of events of a sequence that can reach `MineResource`. -/
def EVA.miningCount (k : KeyCodes) (events : List EVA.Event) : Nat :=
  List.countP (EVA.Event.isMining k) events

/-- The stores are safe and the inventory has room for `n` more crystals: every
`ION_CORE` took 5 crystals, so `Crystal + 5 * ION_CORE` is the number of crystals mined
so far, and with `n` more it stays within the largest `int`. -/
def EVA.StoresWithin (n : Nat) (s : EVA) : Prop :=
  EVA.StoresSafe s ∧
  s.inventory.Crystal.val + 5 * s.inventory.ION_CORE.val + n ≤ 2147483647

/-- The states the EVA object can be in: the constructed state, and every state that a
key action, a key event or a frame (with any host input and any time step) produces
from one of them. -/
inductive EVA.Reachable : EVA → Prop where
  | construct : EVA.Reachable EVA.construct
  | step (k : KeyCodes) (s : EVA) (e : EVA.Event) :
      EVA.Reachable s → EVA.Reachable (EVA.step k s e)

/-- What every state the EVA object can be in has in common: the members written by
the constructor alone keep its values (among them the three divisors `ion.capacity`,
`maxSafePressure` and `toxicShieldCapacity`), and `suitOxygen`, floored at 0 by each
of its updates, is not negative. -/
def EVA.Sound (s : EVA) : Prop :=
  s.ion.capacity = 200.0 ∧ s.ionLeakFactor = 0.02 ∧ s.maxSafePressure = 5.0e5 ∧
  s.toxicShieldCapacity = 100.0 ∧ 0 ≤ s.suitOxygen

/-- A step of the ship that leaves the count of repair materials alone. -/
def SurvivalShip.KeepsMaterials (f : SurvivalShip → SurvivalShip) : Prop :=
  ∀ s : SurvivalShip, (f s).repairMaterials = s.repairMaterials

/-- One call made on the ship object: a key event delivered to
`clbkConsumeBufferedKey` or a frame delivered to `clbkPreStep`. -/
inductive SurvivalShip.Event where
  | key (key : Nat) (down : Bool)
  | frame (h : ShipHost) (simdt : ℚ)

/-- The state of the ship object after one event. -/
def SurvivalShip.step (k : KeyCodes) (s : SurvivalShip) : SurvivalShip.Event → SurvivalShip
  | SurvivalShip.Event.key key down => (SurvivalShip.clbkConsumeBufferedKey k s key down).2
  | SurvivalShip.Event.frame h simdt => SurvivalShip.clbkPreStep s h simdt

/-- The state of the ship object after a sequence of events, first event first. -/
def SurvivalShip.run (k : KeyCodes) (s : SurvivalShip) (events : List SurvivalShip.Event) :
    SurvivalShip :=
  events.foldl (SurvivalShip.step k) s

/-- The time step of a frame event is not negative (key events carry none). -/
def SurvivalShip.Event.TimeForward : SurvivalShip.Event → Prop
  | SurvivalShip.Event.frame _ simdt => 0 ≤ simdt
  | _ => True

/-- A key event that carries the M key, the only one that can add a repair
material. -/
def SurvivalShip.Event.isSupply (k : KeyCodes) : SurvivalShip.Event → Bool
  | SurvivalShip.Event.key code _ => decide (code = k.keyM)
  | _ => false

/-- The number of M key events of a sequence. -/
def SurvivalShip.supplyCount (k : KeyCodes) (events : List SurvivalShip.Event) : Nat :=
  List.countP (SurvivalShip.Event.isSupply k) events

/-- The count of repair materials is not negative and has room for `n` more within
the largest `int`. -/
def SurvivalShip.MaterialsWithin (n : Nat) (s : SurvivalShip) : Prop :=
  0 ≤ s.repairMaterials.val ∧ s.repairMaterials.val + n ≤ 2147483647

/-- A supply run: M, M, R (a repair starts and takes one material), a frame under
28 m/s², R again (refused, a repair is running) and M. -/
def supplyRun : List SurvivalShip.Event :=
  [SurvivalShip.Event.key 0x32 true, SurvivalShip.Event.key 0x32 true,
    SurvivalShip.Event.key 0x13 true, SurvivalShip.Event.frame highGravity 1,
    SurvivalShip.Event.key 0x13 true, SurvivalShip.Event.key 0x32 true]

/-- 2^31 presses of the M key. -/
def supplyOverflow : List SurvivalShip.Event :=
  List.replicate 2147483648 (SurvivalShip.Event.key 0x32 true)

/-- The states the ship object can be in: the constructed state, and every state that
`clbkSetClassCaps`, a key event or a frame with a time step that is not negative
produces from one of them. -/
inductive SurvivalShip.Reachable : SurvivalShip → Prop where
  | construct : SurvivalShip.Reachable SurvivalShip.construct
  | caps (s : SurvivalShip) :
      SurvivalShip.Reachable s → SurvivalShip.Reachable (SurvivalShip.clbkSetClassCaps s)
  | step (k : KeyCodes) (s : SurvivalShip) (e : SurvivalShip.Event) :
      SurvivalShip.Reachable s → e.TimeForward →
      SurvivalShip.Reachable (SurvivalShip.step k s e)

/-- What every state the ship object can be in has in common: `mainMaxThrust`, written
by the constructor alone, is 600 kN; cabin pressure and cabin oxygen are not negative;
`computerHealth` is in [0,1]. -/
def SurvivalShip.Sound (s : SurvivalShip) : Prop :=
  s.mainMaxThrust = 6.0e5 ∧ 0 ≤ s.internalPressure ∧ 0 ≤ s.internalOxygen ∧
  0 ≤ s.computerHealth ∧ s.computerHealth ≤ 1

/-- A step of the ship that leaves `mainMaxThrust` alone. -/
def SurvivalShip.KeepsThrust (f : SurvivalShip → SurvivalShip) : Prop :=
  ∀ s : SurvivalShip, (f s).mainMaxThrust = s.mainMaxThrust

/-! ## Range predicates of the ship -/

/-- The four ranges of the ship state followed through a frame: cabin pressure and
oxygen not negative, `computerHealth` and `computerRepairProgress` in [0,1].  A step
`f` keeps the ranges when each of the four, holding before the step, holds after it. -/
def SurvivalShip.KeepsRanges (f : SurvivalShip → SurvivalShip) : Prop :=
  ∀ s : SurvivalShip,
    (0 ≤ s.internalPressure → 0 ≤ (f s).internalPressure) ∧
    (0 ≤ s.internalOxygen → 0 ≤ (f s).internalOxygen) ∧
    (0 ≤ s.computerHealth ∧ s.computerHealth ≤ 1 →
      0 ≤ (f s).computerHealth ∧ (f s).computerHealth ≤ 1) ∧
    (0 ≤ s.computerRepairProgress ∧ s.computerRepairProgress ≤ 1 →
      0 ≤ (f s).computerRepairProgress ∧ (f s).computerRepairProgress ≤ 1)


/-! ## Theorems -/

/-! ### Clamp -/

theorem Clamp_mem (v lo hi : ℚ) (h : lo ≤ hi) : lo ≤ Clamp v lo hi ∧ Clamp v lo hi ≤ hi := by
  unfold Clamp
  split_ifs with h1 h2
  · exact ⟨le_refl _, h⟩
  · exact ⟨h, le_refl _⟩
  · exact ⟨not_lt.mp h1, not_lt.mp h2⟩

theorem Clamp_unit (v : ℚ) : 0 ≤ Clamp v 0.0 1.0 ∧ Clamp v 0.0 1.0 ≤ 1 := by
  have h := Clamp_mem v 0.0 1.0 (by norm_num)
  norm_num at h ⊢
  exact h

theorem Clamp_unit_le (v a : ℚ) (hv : v ≤ a) (ha : 0 ≤ a) : Clamp v 0.0 1.0 ≤ a := by
  unfold Clamp
  split_ifs with h1 h2
  · norm_num; exact ha
  · norm_num at h2 ⊢; linarith
  · exact hv

theorem Clamp_unit_id (v : ℚ) (h0 : 0 ≤ v) (h1 : v ≤ 1) : Clamp v 0.0 1.0 = v := by
  unfold Clamp
  split_ifs with h2 h3
  · norm_num at h2; linarith
  · norm_num at h3; linarith
  · rfl

/-! ### The machine integers -/

theorem wrapInt32_of_range (x : Int) (h1 : -2147483648 ≤ x) (h2 : x ≤ 2147483647) :
    wrapInt32 x = x := by
  unfold wrapInt32
  omega

theorem wrapInt32_add_left (a b : Int) :
    wrapInt32 (wrapInt32 a + b) = wrapInt32 (a + b) := by
  unfold wrapInt32
  omega

theorem CInt.val_add (a b : CInt) : (a + b).val = wrapInt32 (a.val + b.val) := rfl

theorem CInt.val_sub (a b : CInt) : (a - b).val = wrapInt32 (a.val - b.val) := rfl

theorem CInt.val_zero : (0 : CInt).val = 0 := rfl

theorem CInt.val_one : (1 : CInt).val = 1 := rfl

theorem CInt.val_five : (5 : CInt).val = 5 := rfl

theorem CInt.le_iff_val (a b : CInt) : a ≤ b ↔ a.val ≤ b.val := Iff.rfl

theorem CInt.lt_iff_val (a b : CInt) : a < b ↔ a.val < b.val := Iff.rfl

/-- Adding 1 to an `int` below the largest one is exact. -/
theorem CInt.add_one_exact (a : CInt) (h : a.val < 2147483647) :
    (a + 1).val = a.val + 1 := by
  have ha := a.property
  rw [CInt.val_add, CInt.val_one]
  exact wrapInt32_of_range _ (by omega) (by omega)

/-- Adding 1 to the largest `int` gives the smallest one. -/
theorem CInt.add_one_overflow (a : CInt) (h : a.val = 2147483647) :
    (a + 1).val = -2147483648 := by
  rw [CInt.val_add, CInt.val_one, h]
  rfl

/-- Taking 1 from a positive `int` is exact. -/
theorem CInt.sub_one_exact (a : CInt) (h : 0 < a.val) : (a - 1).val = a.val - 1 := by
  have ha := a.property
  rw [CInt.val_sub, CInt.val_one]
  exact wrapInt32_of_range _ (by omega) (by omega)

/-- Taking 5 from an `int` that is at least 5 is exact. -/
theorem CInt.sub_five_exact (a : CInt) (h : 5 ≤ a.val) : (a - 5).val = a.val - 5 := by
  have ha := a.property
  rw [CInt.val_sub, CInt.val_five]
  exact wrapInt32_of_range _ (by omega) (by omega)

/-! ### PlanetHazards -/

theorem GetPlanetHazardProfile_other (n : String) (hn : n ∉ tableNames) :
    GetPlanetHazardProfile n = ⟨-100, 50, 0, 1 / 2, 0, false, false, false, false⟩ := by
  simp only [tableNames, List.mem_cons, List.mem_singleton, not_or, List.not_mem_nil,
    not_false_eq_true, and_true] at hn
  obtain ⟨h1, h2, h3, h4, h5, h6, h7, h8, h9, h10, h11, h12, h13, h14, h15, h16, h17⟩ := hn
  simp [GetPlanetHazardProfile, InitProfiles, ProfileMap.assign, ProfileMap.find,
    ProfileMap.index, *]
  norm_num

/-- C3. `GetPlanetHazardProfile` returns, for each of the seventeen names entered by
`InitProfiles`, the entry written in the source (the entry of Deimos being that of
Phobos), and for every other name, the empty name and names in another letter case
among them, one and the same default: a cold vacuum with base temperature -100,
variance 50, no pressure, radiation 0.5, no toxicity and all four flags false. -/
theorem GetPlanetHazardProfile_table :
    GetPlanetHazardProfile "Mercury" = ⟨170, 250, 0, 3 / 5, 0, false, false, false, false⟩ ∧
    GetPlanetHazardProfile "Venus" = ⟨460, 5, 9200000, 1 / 2, 1, true, true, false, false⟩ ∧
    GetPlanetHazardProfile "Earth" = ⟨15, 20, 101000, 1 / 10, 0, true, false, false, false⟩ ∧
    GetPlanetHazardProfile "Moon" = ⟨-20, 130, 0, 3 / 10, 0, false, false, false, false⟩ ∧
    GetPlanetHazardProfile "Mars" = ⟨-60, 40, 600, 3 / 5, 7 / 10, true, false, false, false⟩ ∧
    GetPlanetHazardProfile "Phobos" = ⟨-60, 40, 0, 3 / 5, 0, false, false, false, false⟩ ∧
    GetPlanetHazardProfile "Deimos" = GetPlanetHazardProfile "Phobos" ∧
    GetPlanetHazardProfile "Jupiter" = ⟨-150, 20, 0, 1, 1, false, false, false, true⟩ ∧
    GetPlanetHazardProfile "Io" = ⟨-130, 40, 0, 9 / 10, 7 / 10, true, false, false, false⟩ ∧
    GetPlanetHazardProfile "Europa" = ⟨-160, 30, 0, 9 / 10, 0, false, false, true, false⟩ ∧
    GetPlanetHazardProfile "Ganymede" = ⟨-150, 30, 0, 3 / 5, 0, false, false, false, false⟩ ∧
    GetPlanetHazardProfile "Callisto" = ⟨-140, 30, 0, 2 / 5, 0, false, false, false, false⟩ ∧
    GetPlanetHazardProfile "Saturn" = ⟨-170, 20, 0, 7 / 10, 1, false, false, false, true⟩ ∧
    GetPlanetHazardProfile "Titan" = ⟨-180, 10, 150000, 3 / 10, 9 / 10, true, false, false, false⟩ ∧
    GetPlanetHazardProfile "Uranus" = ⟨-200, 10, 0, 1 / 2, 1, false, false, false, true⟩ ∧
    GetPlanetHazardProfile "Neptune" = ⟨-210, 10, 0, 1 / 2, 1, false, false, false, true⟩ ∧
    GetPlanetHazardProfile "Pluto" = ⟨-230, 10, 1, 3 / 10, 1 / 2, true, false, false, false⟩ ∧
    (∀ n : String, n ∉ tableNames →
      GetPlanetHazardProfile n = ⟨-100, 50, 0, 1 / 2, 0, false, false, false, false⟩) ∧
    GetPlanetHazardProfile "" = ⟨-100, 50, 0, 1 / 2, 0, false, false, false, false⟩ ∧
    GetPlanetHazardProfile "earth" = ⟨-100, 50, 0, 1 / 2, 0, false, false, false, false⟩ := by
  refine ⟨?_, ?_, ?_, ?_, ?_, ?_, ?_, ?_, ?_, ?_, ?_, ?_, ?_, ?_, ?_, ?_, ?_, ?_, ?_, ?_⟩
  case refine_18 => exact GetPlanetHazardProfile_other
  all_goals
    simp [GetPlanetHazardProfile, InitProfiles, ProfileMap.assign, ProfileMap.find,
      ProfileMap.index] <;> norm_num

/-- Witness for C3: the default branch taken at the name "MARS", which is not in the table. -/
theorem GetPlanetHazardProfile_table_witness :
    "MARS" ∉ tableNames ∧
    GetPlanetHazardProfile "MARS" = ⟨-100, 50, 0, 1 / 2, 0, false, false, false, false⟩ :=
  ⟨by decide, GetPlanetHazardProfile_table.2.2.2.2.2.2.2.2.2.2.2.2.2.2.2.2.2.1 "MARS" (by decide)⟩

theorem GetPlanetHazardProfile_wf (n : String) : (GetPlanetHazardProfile n).WellFormed := by
  by_cases hn : n ∈ tableNames
  · simp only [tableNames, List.mem_cons, List.mem_singleton, List.not_mem_nil, or_false] at hn
    rcases hn with h | h | h | h | h | h | h | h | h | h | h | h | h | h | h | h | h <;>
    subst h <;>
    simp [GetPlanetHazardProfile, InitProfiles, ProfileMap.assign, ProfileMap.find,
      ProfileMap.index, PlanetHazardProfile.WellFormed] <;> norm_num
  · rw [GetPlanetHazardProfile_other n hn]
    norm_num [PlanetHazardProfile.WellFormed]

/-- C4. Every profile `GetPlanetHazardProfile` can return, a table entry or the
default, is well formed: radiation and toxicity in [0,1], pressure and temperature
swing not negative, and no surface pressure without an atmosphere. -/
theorem GetPlanetHazardProfile_wellFormed (n : String) :
    0 ≤ (GetPlanetHazardProfile n).surfaceRadiation ∧
    (GetPlanetHazardProfile n).surfaceRadiation ≤ 1 ∧
    0 ≤ (GetPlanetHazardProfile n).atmToxicity ∧
    (GetPlanetHazardProfile n).atmToxicity ≤ 1 ∧
    0 ≤ (GetPlanetHazardProfile n).surfacePressure ∧
    0 ≤ (GetPlanetHazardProfile n).tempVariance ∧
    ((GetPlanetHazardProfile n).hasAtmosphere = false →
      (GetPlanetHazardProfile n).surfacePressure = 0) :=
  GetPlanetHazardProfile_wf n

/-- Witness for C4: Mercury has no atmosphere and no surface pressure. -/
theorem GetPlanetHazardProfile_wellFormed_witness :
    (GetPlanetHazardProfile "Mercury").hasAtmosphere = false ∧
    (GetPlanetHazardProfile "Mercury").surfacePressure = 0 :=
  have h : (GetPlanetHazardProfile "Mercury").hasAtmosphere = false := by
    simp [GetPlanetHazardProfile, InitProfiles, ProfileMap.assign, ProfileMap.find]
  ⟨h, (GetPlanetHazardProfile_wellFormed "Mercury").2.2.2.2.2.2 h⟩

/-! ### Environment sampling -/

theorem sampleRadiation_unit (p : PlanetHazardProfile) (alt : ℚ) :
    0 ≤ sampleRadiation p alt ∧ sampleRadiation p alt ≤ 1 := by
  unfold sampleRadiation
  exact Clamp_unit _

@[simp] theorem EVA.sampleAtmosphere_frame (s : EVA) (h : EVAHost) (alt : ℚ) :
    (EVA.sampleAtmosphere s h alt).health = s.health ∧
    (EVA.sampleAtmosphere s h alt).suitIntegrity = s.suitIntegrity ∧
    (EVA.sampleAtmosphere s h alt).suitOxygen = s.suitOxygen ∧
    (EVA.sampleAtmosphere s h alt).ion = s.ion ∧
    (EVA.sampleAtmosphere s h alt).ionLeakFactor = s.ionLeakFactor ∧
    (EVA.sampleAtmosphere s h alt).maxSafePressure = s.maxSafePressure ∧
    (EVA.sampleAtmosphere s h alt).currentProfile = s.currentProfile := by
  simp only [EVA.sampleAtmosphere]
  split_ifs <;> exact ⟨rfl, rfl, rfl, rfl, rfl, rfl, rfl⟩

@[simp] theorem EVA.sampleToxicity_frame (s : EVA) :
    (EVA.sampleToxicity s).health = s.health ∧
    (EVA.sampleToxicity s).suitIntegrity = s.suitIntegrity ∧
    (EVA.sampleToxicity s).suitOxygen = s.suitOxygen ∧
    (EVA.sampleToxicity s).ion = s.ion ∧
    (EVA.sampleToxicity s).ionLeakFactor = s.ionLeakFactor ∧
    (EVA.sampleToxicity s).maxSafePressure = s.maxSafePressure ∧
    (EVA.sampleToxicity s).currentProfile = s.currentProfile ∧
    (EVA.sampleToxicity s).envRadiation = s.envRadiation ∧
    (EVA.sampleToxicity s).inAtmosphere = s.inAtmosphere := by
  simp only [EVA.sampleToxicity]
  split_ifs <;> exact ⟨rfl, rfl, rfl, rfl, rfl, rfl, rfl, rfl, rfl⟩

@[simp] theorem EVA.sampleTemperature_frame (s : EVA) (h : EVAHost) (alt : ℚ) :
    (EVA.sampleTemperature s h alt).health = s.health ∧
    (EVA.sampleTemperature s h alt).suitIntegrity = s.suitIntegrity ∧
    (EVA.sampleTemperature s h alt).suitOxygen = s.suitOxygen ∧
    (EVA.sampleTemperature s h alt).ion = s.ion ∧
    (EVA.sampleTemperature s h alt).ionLeakFactor = s.ionLeakFactor ∧
    (EVA.sampleTemperature s h alt).maxSafePressure = s.maxSafePressure ∧
    (EVA.sampleTemperature s h alt).currentProfile = s.currentProfile ∧
    (EVA.sampleTemperature s h alt).envRadiation = s.envRadiation ∧
    (EVA.sampleTemperature s h alt).envToxicity = s.envToxicity ∧
    (EVA.sampleTemperature s h alt).inAtmosphere = s.inAtmosphere := by
  simp only [EVA.sampleTemperature]
  split_ifs <;> exact ⟨rfl, rfl, rfl, rfl, rfl, rfl, rfl, rfl, rfl, rfl⟩

theorem EVA.sampleToxicity_unit (s : EVA) (h0 : 0 ≤ s.currentProfile.atmToxicity)
    (h1 : s.currentProfile.atmToxicity ≤ 1) :
    0 ≤ (EVA.sampleToxicity s).envToxicity ∧ (EVA.sampleToxicity s).envToxicity ≤ 1 := by
  simp only [EVA.sampleToxicity]
  split_ifs
  · norm_num
  · exact ⟨h0, h1⟩
  · norm_num

@[simp] theorem EVA.UpdateEnvironment_frame (s : EVA) (h : EVAHost) (simdt : ℚ) :
    (EVA.UpdateEnvironment s h simdt).health = s.health ∧
    (EVA.UpdateEnvironment s h simdt).suitIntegrity = s.suitIntegrity ∧
    (EVA.UpdateEnvironment s h simdt).suitOxygen = s.suitOxygen ∧
    (EVA.UpdateEnvironment s h simdt).ion = s.ion ∧
    (EVA.UpdateEnvironment s h simdt).ionLeakFactor = s.ionLeakFactor ∧
    (EVA.UpdateEnvironment s h simdt).maxSafePressure = s.maxSafePressure := by
  rcases hs : h.surfaceRef with _ | name <;> simp [EVA.UpdateEnvironment, hs]

theorem EVA.UpdateEnvironment_env (s : EVA) (h : EVAHost) (simdt : ℚ) :
    (0 ≤ (EVA.UpdateEnvironment s h simdt).envRadiation ∧
      (EVA.UpdateEnvironment s h simdt).envRadiation ≤ 1) ∧
    (0 ≤ (EVA.UpdateEnvironment s h simdt).envToxicity ∧
      (EVA.UpdateEnvironment s h simdt).envToxicity ≤ 1) := by
  rcases hs : h.surfaceRef with _ | name
  · simp only [EVA.UpdateEnvironment, hs]
    norm_num
  · obtain ⟨-, -, ht0, ht1, -⟩ := GetPlanetHazardProfile_wf name
    simp only [EVA.UpdateEnvironment, hs]
    refine ⟨?_, ?_⟩
    · simp only [EVA.sampleTemperature_frame, EVA.sampleToxicity_frame]
      exact sampleRadiation_unit _ _
    · simp only [EVA.sampleTemperature_frame]
      apply EVA.sampleToxicity_unit <;> simpa using (by assumption)

theorem EVA.UpdateEnvironment_none (s : EVA) (h : EVAHost) (simdt : ℚ)
    (hs : h.surfaceRef = none) :
    (EVA.UpdateEnvironment s h simdt).envRadiation = 0.7 ∧
    (EVA.UpdateEnvironment s h simdt).envPressure = 0 := by
  simp only [EVA.UpdateEnvironment, hs]
  norm_num

@[simp] theorem SurvivalShip.sampleAtmosphere_shipFrame (s : SurvivalShip) (h : ShipHost) :
    (SurvivalShip.sampleAtmosphere s h).hullIntegrity = s.hullIntegrity ∧
    (SurvivalShip.sampleAtmosphere s h).internalPressure = s.internalPressure ∧
    (SurvivalShip.sampleAtmosphere s h).internalOxygen = s.internalOxygen ∧
    (SurvivalShip.sampleAtmosphere s h).computerHealth = s.computerHealth ∧
    (SurvivalShip.sampleAtmosphere s h).computerRepairProgress = s.computerRepairProgress ∧
    (SurvivalShip.sampleAtmosphere s h).repairingComputer = s.repairingComputer ∧
    (SurvivalShip.sampleAtmosphere s h).currentProfile = s.currentProfile := by
  simp only [SurvivalShip.sampleAtmosphere]
  split_ifs <;> exact ⟨rfl, rfl, rfl, rfl, rfl, rfl, rfl⟩

@[simp] theorem SurvivalShip.sampleTemperature_shipFrame (s : SurvivalShip) (h : ShipHost) :
    (SurvivalShip.sampleTemperature s h).hullIntegrity = s.hullIntegrity ∧
    (SurvivalShip.sampleTemperature s h).internalPressure = s.internalPressure ∧
    (SurvivalShip.sampleTemperature s h).internalOxygen = s.internalOxygen ∧
    (SurvivalShip.sampleTemperature s h).computerHealth = s.computerHealth ∧
    (SurvivalShip.sampleTemperature s h).computerRepairProgress = s.computerRepairProgress ∧
    (SurvivalShip.sampleTemperature s h).repairingComputer = s.repairingComputer ∧
    (SurvivalShip.sampleTemperature s h).envRadiation = s.envRadiation := by
  simp only [SurvivalShip.sampleTemperature]
  split_ifs <;> exact ⟨rfl, rfl, rfl, rfl, rfl, rfl, rfl⟩

@[simp] theorem SurvivalShip.UpdateEnvironment_shipFrame (s : SurvivalShip) (h : ShipHost)
    (simdt : ℚ) :
    (SurvivalShip.UpdateEnvironment s h simdt).hullIntegrity = s.hullIntegrity ∧
    (SurvivalShip.UpdateEnvironment s h simdt).internalPressure = s.internalPressure ∧
    (SurvivalShip.UpdateEnvironment s h simdt).internalOxygen = s.internalOxygen ∧
    (SurvivalShip.UpdateEnvironment s h simdt).computerHealth = s.computerHealth ∧
    (SurvivalShip.UpdateEnvironment s h simdt).computerRepairProgress
      = s.computerRepairProgress ∧
    (SurvivalShip.UpdateEnvironment s h simdt).repairingComputer = s.repairingComputer := by
  rcases hs : h.surfaceRef with _ | name <;> simp [SurvivalShip.UpdateEnvironment, hs]

theorem SurvivalShip.UpdateEnvironment_shipEnv (s : SurvivalShip) (h : ShipHost) (simdt : ℚ) :
    0 ≤ (SurvivalShip.UpdateEnvironment s h simdt).envRadiation ∧
    (SurvivalShip.UpdateEnvironment s h simdt).envRadiation ≤ 1 := by
  rcases hs : h.surfaceRef with _ | name
  · simp only [SurvivalShip.UpdateEnvironment, hs]
    norm_num
  · simp only [SurvivalShip.UpdateEnvironment, hs, SurvivalShip.sampleTemperature_shipFrame]
    exact sampleRadiation_unit _ _

theorem SurvivalShip.UpdateEnvironment_shipNone (s : SurvivalShip) (h : ShipHost) (simdt : ℚ)
    (hs : h.surfaceRef = none) :
    (SurvivalShip.UpdateEnvironment s h simdt).envRadiation = 0.7 ∧
    (SurvivalShip.UpdateEnvironment s h simdt).envPressure = 0 := by
  simp only [SurvivalShip.UpdateEnvironment, hs]
  norm_num

/-- C5. After `EVA::UpdateEnvironment` the environment radiation and toxicity lie in
[0,1], and after `SurvivalShip::UpdateEnvironment` the environment radiation lies in
[0,1], for every reference body (or none), altitude and reported atmosphere; with no
reference body the radiation is 0.7 and the pressure 0, for both vessels. -/
theorem UpdateEnvironment_ranges (s : EVA) (h : EVAHost) (t : SurvivalShip) (k : ShipHost)
    (simdt : ℚ) :
    (0 ≤ (EVA.UpdateEnvironment s h simdt).envRadiation ∧
      (EVA.UpdateEnvironment s h simdt).envRadiation ≤ 1) ∧
    (0 ≤ (EVA.UpdateEnvironment s h simdt).envToxicity ∧
      (EVA.UpdateEnvironment s h simdt).envToxicity ≤ 1) ∧
    (0 ≤ (SurvivalShip.UpdateEnvironment t k simdt).envRadiation ∧
      (SurvivalShip.UpdateEnvironment t k simdt).envRadiation ≤ 1) ∧
    (h.surfaceRef = none →
      (EVA.UpdateEnvironment s h simdt).envRadiation = 0.7 ∧
      (EVA.UpdateEnvironment s h simdt).envPressure = 0) ∧
    (k.surfaceRef = none →
      (SurvivalShip.UpdateEnvironment t k simdt).envRadiation = 0.7 ∧
      (SurvivalShip.UpdateEnvironment t k simdt).envPressure = 0) :=
  ⟨(EVA.UpdateEnvironment_env s h simdt).1, (EVA.UpdateEnvironment_env s h simdt).2,
    SurvivalShip.UpdateEnvironment_shipEnv t k simdt, EVA.UpdateEnvironment_none s h simdt,
    SurvivalShip.UpdateEnvironment_shipNone t k simdt⟩

/-! ### EVA: per-frame damage -/

@[simp] theorem EVA.UpdateToxicShield_frame (s : EVA) (simdt : ℚ) :
    (EVA.UpdateToxicShield s simdt).health = s.health ∧
    (EVA.UpdateToxicShield s simdt).suitIntegrity = s.suitIntegrity ∧
    (EVA.UpdateToxicShield s simdt).suitOxygen = s.suitOxygen ∧
    (EVA.UpdateToxicShield s simdt).ion = s.ion ∧
    (EVA.UpdateToxicShield s simdt).ionLeakFactor = s.ionLeakFactor ∧
    (EVA.UpdateToxicShield s simdt).maxSafePressure = s.maxSafePressure := by
  simp only [EVA.UpdateToxicShield]
  split_ifs <;> exact ⟨rfl, rfl, rfl, rfl, rfl, rfl⟩

theorem EVA.ApplyIonBatteryEffects_unit (s : EVA) (simdt : ℚ) :
    (0 ≤ (EVA.ApplyIonBatteryEffects s simdt).health ∧
      (EVA.ApplyIonBatteryEffects s simdt).health ≤ 1) ∧
    (0 ≤ (EVA.ApplyIonBatteryEffects s simdt).suitIntegrity ∧
      (EVA.ApplyIonBatteryEffects s simdt).suitIntegrity ≤ 1) := by
  simp only [EVA.ApplyIonBatteryEffects]
  exact ⟨Clamp_unit _, Clamp_unit _⟩

@[simp] theorem EVA.ApplyIonBatteryEffects_frame (s : EVA) (simdt : ℚ) :
    (EVA.ApplyIonBatteryEffects s simdt).maxSafePressure = s.maxSafePressure := by
  simp only [EVA.ApplyIonBatteryEffects]
  split_ifs <;> rfl

theorem EVA.ApplyIonBatteryEffects_le (s : EVA) (simdt : ℚ) (hdt : 0 ≤ simdt)
    (hleak : 0 ≤ s.ionLeakFactor) (hc0 : 0 ≤ s.ion.charge) (hc1 : s.ion.charge ≤ s.ion.capacity)
    (hh : 0 ≤ s.health) (hs : 0 ≤ s.suitIntegrity) :
    (EVA.ApplyIonBatteryEffects s simdt).health ≤ s.health ∧
    (EVA.ApplyIonBatteryEffects s simdt).suitIntegrity ≤ s.suitIntegrity := by
  have hcap : 0 ≤ s.ion.capacity := le_trans hc0 hc1
  have hq : 0 ≤ s.ion.charge / s.ion.capacity := div_nonneg hc0 hcap
  have hr : 0 ≤ s.ionLeakFactor * (s.ion.charge / s.ion.capacity) * simdt :=
    mul_nonneg (mul_nonneg hleak hq) hdt
  simp only [EVA.ApplyIonBatteryEffects]
  split_ifs <;> refine ⟨Clamp_unit_le _ _ ?_ hh, Clamp_unit_le _ _ ?_ hs⟩ <;>
    norm_num <;> linarith

theorem EVA.envOxygen_le (s : EVA) (simdt : ℚ) (hdt : 0 ≤ simdt) :
    (EVA.envOxygen s simdt).health ≤ s.health ∧
    (EVA.envOxygen s simdt).suitIntegrity = s.suitIntegrity ∧
    (EVA.envOxygen s simdt).maxSafePressure = s.maxSafePressure := by
  simp only [EVA.envOxygen]
  split_ifs <;> refine ⟨?_, rfl, rfl⟩ <;> norm_num <;> linarith

theorem EVA.envPressureDamage_le (s : EVA) (simdt : ℚ) (hdt : 0 ≤ simdt)
    (hp : 0 ≤ s.maxSafePressure) :
    (EVA.envPressureDamage s simdt).health ≤ s.health ∧
    (EVA.envPressureDamage s simdt).suitIntegrity ≤ s.suitIntegrity := by
  simp only [EVA.envPressureDamage]
  split_ifs with h1
  · have hq : 0 ≤ (s.envPressure - s.maxSafePressure) / s.maxSafePressure :=
      div_nonneg (by linarith) hp
    have hm : 0 ≤ simdt * 0.01 * ((s.envPressure - s.maxSafePressure) / s.maxSafePressure) :=
      mul_nonneg (mul_nonneg hdt (by norm_num)) hq
    constructor <;> simp only [] <;> linarith
  · exact ⟨le_refl _, le_refl _⟩

theorem EVA.envRadiationDamage_le (s : EVA) (simdt : ℚ) (hdt : 0 ≤ simdt) :
    (EVA.envRadiationDamage s simdt).health ≤ s.health ∧
    (EVA.envRadiationDamage s simdt).suitIntegrity = s.suitIntegrity := by
  simp only [EVA.envRadiationDamage]
  split_ifs with h1
  · refine ⟨?_, rfl⟩
    have hm : 0 ≤ simdt * 0.001 * (s.envRadiation * (1.0 - s.baseRadiationShield)) :=
      mul_nonneg (mul_nonneg hdt (by norm_num)) (le_trans (by norm_num) (le_of_lt h1))
    simp only []
    linarith
  · exact ⟨le_refl _, rfl⟩

theorem EVA.envToxicityDamage_le (s : EVA) (simdt : ℚ) (hdt : 0 ≤ simdt) :
    (EVA.envToxicityDamage s simdt).health ≤ s.health ∧
    (EVA.envToxicityDamage s simdt).suitIntegrity ≤ s.suitIntegrity := by
  unfold EVA.envToxicityDamage
  generalize EVA.envEffectiveTox s = effectiveTox
  simp only []
  split_ifs with h1
  · have he : 0 ≤ effectiveTox := le_trans (by norm_num) (le_of_lt h1)
    have hm1 : 0 ≤ simdt * 0.002 * effectiveTox := mul_nonneg (mul_nonneg hdt (by norm_num)) he
    have hm2 : 0 ≤ simdt * 0.0015 * effectiveTox := mul_nonneg (mul_nonneg hdt (by norm_num)) he
    constructor <;> simp only [] <;> linarith
  · exact ⟨le_refl _, le_refl _⟩

theorem EVA.envGasGiantDamage_le (s : EVA) (simdt : ℚ) (hdt : 0 ≤ simdt) :
    (EVA.envGasGiantDamage s simdt).health ≤ s.health ∧
    (EVA.envGasGiantDamage s simdt).suitIntegrity ≤ s.suitIntegrity := by
  simp only [EVA.envGasGiantDamage]
  split_ifs
  · constructor <;> simp only [] <;> norm_num <;> linarith
  · exact ⟨le_refl _, le_refl _⟩

theorem EVA.envTemperatureDamage_le (s : EVA) (simdt : ℚ) (hdt : 0 ≤ simdt) :
    (EVA.envTemperatureDamage s simdt).health ≤ s.health ∧
    (EVA.envTemperatureDamage s simdt).suitIntegrity ≤ s.suitIntegrity := by
  unfold EVA.envTemperatureDamage
  generalize EVA.envTempDelta s = delta
  simp only []
  split_ifs with h1 h2 h2
  · have a1 : 0 ≤ (delta - s.maxSafeTempHigh) * 0.001 * simdt :=
      mul_nonneg (mul_nonneg (by linarith) (by norm_num)) hdt
    have a2 : 0 ≤ (s.maxSafeTempLow - delta) * 0.001 * simdt :=
      mul_nonneg (mul_nonneg (by linarith) (by norm_num)) hdt
    constructor <;> simp only [] <;> linarith
  · have a1 : 0 ≤ (delta - s.maxSafeTempHigh) * 0.001 * simdt :=
      mul_nonneg (mul_nonneg (by linarith) (by norm_num)) hdt
    constructor <;> simp only [] <;> linarith
  · have a2 : 0 ≤ (s.maxSafeTempLow - delta) * 0.001 * simdt :=
      mul_nonneg (mul_nonneg (by linarith) (by norm_num)) hdt
    constructor <;> simp only [] <;> linarith
  · exact ⟨le_refl _, le_refl _⟩

theorem EVA.ApplyGravityEffects_unit (s : EVA) (g simdt : ℚ) :
    (0 ≤ (EVA.ApplyGravityEffects s g simdt).health ∧
      (EVA.ApplyGravityEffects s g simdt).health ≤ 1) ∧
    (0 ≤ (EVA.ApplyGravityEffects s g simdt).suitIntegrity ∧
      (EVA.ApplyGravityEffects s g simdt).suitIntegrity ≤ 1) := by
  simp only [EVA.ApplyGravityEffects]
  exact ⟨Clamp_unit _, Clamp_unit _⟩

theorem EVA.ApplyGravityEffects_le (s : EVA) (g simdt a b : ℚ) (hdt : 0 ≤ simdt)
    (ha : 0 ≤ a) (hb : 0 ≤ b) (hh : s.health ≤ a) (hs : s.suitIntegrity ≤ b) :
    (EVA.ApplyGravityEffects s g simdt).health ≤ a ∧
    (EVA.ApplyGravityEffects s g simdt).suitIntegrity ≤ b := by
  simp only [EVA.ApplyGravityEffects]
  refine ⟨Clamp_unit_le _ _ ?_ ha, Clamp_unit_le _ _ ?_ hb⟩
  · split_ifs <;> (try simp only []) <;> norm_num at * <;>
      first | assumption | nlinarith
  · split_ifs <;> (try simp only []) <;> norm_num at * <;>
      first | assumption | nlinarith

theorem EVA.ApplyEnvironmentEffects_unit (s : EVA) (h : EVAHost) (simdt : ℚ)
    (hh : 0 ≤ s.health ∧ s.health ≤ 1) (hs : 0 ≤ s.suitIntegrity ∧ s.suitIntegrity ≤ 1) :
    (0 ≤ (EVA.ApplyEnvironmentEffects s h simdt).health ∧
      (EVA.ApplyEnvironmentEffects s h simdt).health ≤ 1) ∧
    (0 ≤ (EVA.ApplyEnvironmentEffects s h simdt).suitIntegrity ∧
      (EVA.ApplyEnvironmentEffects s h simdt).suitIntegrity ≤ 1) := by
  simp only [EVA.ApplyEnvironmentEffects]
  split_ifs
  · exact ⟨hh, hs⟩
  · exact ⟨Clamp_unit _, Clamp_unit _⟩

theorem EVA.ApplyEnvironmentEffects_le (s : EVA) (h : EVAHost) (simdt : ℚ) (hdt : 0 ≤ simdt)
    (hp : 0 ≤ s.maxSafePressure) (hh : 0 ≤ s.health) (hs : 0 ≤ s.suitIntegrity) :
    (EVA.ApplyEnvironmentEffects s h simdt).health ≤ s.health ∧
    (EVA.ApplyEnvironmentEffects s h simdt).suitIntegrity ≤ s.suitIntegrity := by
  simp only [EVA.ApplyEnvironmentEffects]
  split_ifs
  · exact ⟨le_refl _, le_refl _⟩
  · have h1 := EVA.envOxygen_le s simdt hdt
    have h2 := EVA.envPressureDamage_le (EVA.envOxygen s simdt) simdt hdt (by rw [h1.2.2]; exact hp)
    have h3 := EVA.envRadiationDamage_le
      (EVA.envPressureDamage (EVA.envOxygen s simdt) simdt) simdt hdt
    have h4 := EVA.envToxicityDamage_le
      (EVA.envRadiationDamage (EVA.envPressureDamage (EVA.envOxygen s simdt) simdt) simdt)
      simdt hdt
    have h5 := EVA.envGasGiantDamage_le
      (EVA.envToxicityDamage
        (EVA.envRadiationDamage (EVA.envPressureDamage (EVA.envOxygen s simdt) simdt) simdt)
        simdt) simdt hdt
    have h6 := EVA.envTemperatureDamage_le
      (EVA.envGasGiantDamage (EVA.envToxicityDamage
        (EVA.envRadiationDamage (EVA.envPressureDamage (EVA.envOxygen s simdt) simdt) simdt)
        simdt) simdt) simdt hdt
    have h7 := EVA.ApplyGravityEffects_le
      (EVA.envTemperatureDamage (EVA.envGasGiantDamage (EVA.envToxicityDamage
        (EVA.envRadiationDamage (EVA.envPressureDamage (EVA.envOxygen s simdt) simdt) simdt)
        simdt) simdt) simdt) h.g simdt s.health s.suitIntegrity hdt hh hs
      (by linarith [h1.1, h2.1, h3.1, h4.1, h5.1, h6.1])
      (by linarith [h1.2.1, h2.2, h3.2, h4.2, h5.2, h6.2])
    exact ⟨Clamp_unit_le _ _ h7.1 hh, Clamp_unit_le _ _ h7.2 hs⟩

theorem EVA.ApplyRandomMicrometeorites_le (s : EVA) (h : EVAHost) (simdt : ℚ)
    (hs : 0 ≤ s.suitIntegrity) :
    (EVA.ApplyRandomMicrometeorites s h simdt).health = s.health ∧
    (EVA.ApplyRandomMicrometeorites s h simdt).suitIntegrity ≤ s.suitIntegrity ∧
    0 ≤ (EVA.ApplyRandomMicrometeorites s h simdt).suitIntegrity := by
  simp only [EVA.ApplyRandomMicrometeorites]
  split_ifs <;> refine ⟨rfl, ?_, ?_⟩ <;> (try simp only []) <;> norm_num at * <;>
    assumption

theorem EVA.clbkPreStep_unit (s : EVA) (h : EVAHost) (simdt : ℚ) :
    (0 ≤ (EVA.clbkPreStep s h simdt).health ∧ (EVA.clbkPreStep s h simdt).health ≤ 1) ∧
    (0 ≤ (EVA.clbkPreStep s h simdt).suitIntegrity ∧
      (EVA.clbkPreStep s h simdt).suitIntegrity ≤ 1) := by
  simp only [EVA.clbkPreStep]
  have h3 := EVA.ApplyIonBatteryEffects_unit
    (EVA.UpdateToxicShield (EVA.UpdateEnvironment s h simdt) simdt) simdt
  have h4 := EVA.ApplyEnvironmentEffects_unit _ h simdt h3.1 h3.2
  have h5 := EVA.ApplyRandomMicrometeorites_le
    (EVA.ApplyEnvironmentEffects (EVA.ApplyIonBatteryEffects
      (EVA.UpdateToxicShield (EVA.UpdateEnvironment s h simdt) simdt) simdt) h simdt) h simdt
    h4.2.1
  refine ⟨⟨?_, ?_⟩, ⟨h5.2.2, le_trans h5.2.1 h4.2.2⟩⟩
  · rw [h5.1]; exact h4.1.1
  · rw [h5.1]; exact h4.1.2

theorem EVA.clbkPreStep_le (s : EVA) (h : EVAHost) (simdt : ℚ) (hdt : 0 ≤ simdt)
    (hh : 0 ≤ s.health) (hs : 0 ≤ s.suitIntegrity)
    (hc0 : 0 ≤ s.ion.charge) (hc1 : s.ion.charge ≤ s.ion.capacity)
    (hleak : 0 ≤ s.ionLeakFactor) (hp : 0 ≤ s.maxSafePressure) :
    (EVA.clbkPreStep s h simdt).health ≤ s.health ∧
    (EVA.clbkPreStep s h simdt).suitIntegrity ≤ s.suitIntegrity := by
  simp only [EVA.clbkPreStep]
  have h3 := EVA.ApplyIonBatteryEffects_le
    (EVA.UpdateToxicShield (EVA.UpdateEnvironment s h simdt) simdt) simdt hdt
    (by simpa using hleak) (by simpa using hc0) (by simpa using hc1) (by simpa using hh)
    (by simpa using hs)
  have h3u := EVA.ApplyIonBatteryEffects_unit
    (EVA.UpdateToxicShield (EVA.UpdateEnvironment s h simdt) simdt) simdt
  have h4 := EVA.ApplyEnvironmentEffects_le
    (EVA.ApplyIonBatteryEffects
      (EVA.UpdateToxicShield (EVA.UpdateEnvironment s h simdt) simdt) simdt) h simdt hdt
    (by simpa using hp) h3u.1.1 h3u.2.1
  have h5 := EVA.ApplyRandomMicrometeorites_le
    (EVA.ApplyEnvironmentEffects (EVA.ApplyIonBatteryEffects
      (EVA.UpdateToxicShield (EVA.UpdateEnvironment s h simdt) simdt) simdt) h simdt) h simdt
    (EVA.ApplyEnvironmentEffects_unit _ h simdt h3u.1 h3u.2).2.1
  simp only [EVA.UpdateToxicShield_frame, EVA.UpdateEnvironment_frame] at h3
  refine ⟨?_, ?_⟩
  · rw [h5.1]; exact le_trans h4.1 h3.1
  · exact le_trans h5.2.1 (le_trans h4.2 h3.2)

/-! ### EVA: key actions -/

@[simp] theorem EVA.MineResource_frame (s : EVA) :
    (EVA.MineResource s).health = s.health ∧
    (EVA.MineResource s).suitIntegrity = s.suitIntegrity := by
  simp only [EVA.MineResource]
  split_ifs <;> exact ⟨rfl, rfl⟩

@[simp] theorem EVA.CraftIonCell_frame (s : EVA) :
    (EVA.CraftIonCell s).health = s.health ∧
    (EVA.CraftIonCell s).suitIntegrity = s.suitIntegrity := by
  simp only [EVA.CraftIonCell]
  split_ifs <;> exact ⟨rfl, rfl⟩

@[simp] theorem EVA.RechargeToxicShieldFromIon_frame (s : EVA) :
    (EVA.RechargeToxicShieldFromIon s).health = s.health ∧
    (EVA.RechargeToxicShieldFromIon s).suitIntegrity = s.suitIntegrity := by
  simp only [EVA.RechargeToxicShieldFromIon, EVA.ConsumeIonCharge]
  split_ifs <;> exact ⟨rfl, rfl⟩

theorem EVA.clbkConsumeBufferedKey_frame (k : KeyCodes) (s : EVA) (vessels : List VesselInfo)
    (key : Nat) (down : Bool) :
    (EVA.clbkConsumeBufferedKey k s vessels key down).state.health = s.health ∧
    (EVA.clbkConsumeBufferedKey k s vessels key down).state.suitIntegrity = s.suitIntegrity := by
  simp only [EVA.clbkConsumeBufferedKey]
  split_ifs <;> simp

/-- C10. `EVA::clbkConsumeBufferedKey` returns 0 and changes nothing (no re-entry
either) when the key is not down, or `health <= 0`, or `suitIntegrity <= 0`.
Otherwise it returns 1 exactly when the key is M, E, C or R, and for every other key
it returns 0 and changes nothing. -/
theorem EVA_clbkConsumeBufferedKey_gate (k : KeyCodes) (s : EVA) (vessels : List VesselInfo)
    (key : Nat) (down : Bool) :
    ((down = false ∨ s.health ≤ 0 ∨ s.suitIntegrity ≤ 0) →
      (EVA.clbkConsumeBufferedKey k s vessels key down).ret = 0 ∧
      (EVA.clbkConsumeBufferedKey k s vessels key down).state = s ∧
      (EVA.clbkConsumeBufferedKey k s vessels key down).reenter = none) ∧
    (down = true → 0 < s.health → 0 < s.suitIntegrity →
      ((EVA.clbkConsumeBufferedKey k s vessels key down).ret = 1 ↔
        (key = k.keyM ∨ key = k.keyE ∨ key = k.keyC ∨ key = k.keyR)) ∧
      (¬(key = k.keyM ∨ key = k.keyE ∨ key = k.keyC ∨ key = k.keyR) →
        (EVA.clbkConsumeBufferedKey k s vessels key down).ret = 0 ∧
        (EVA.clbkConsumeBufferedKey k s vessels key down).state = s ∧
        (EVA.clbkConsumeBufferedKey k s vessels key down).reenter = none)) := by
  constructor
  · intro hgate
    simp only [EVA.clbkConsumeBufferedKey]
    rcases hgate with hd | hh | hs
    · simp [hd]
    · have : s.health ≤ 0.0 := by norm_num; exact hh
      split_ifs <;> first | exact ⟨rfl, rfl, rfl⟩ | simp_all
    · have : s.suitIntegrity ≤ 0.0 := by norm_num; exact hs
      split_ifs <;> first | exact ⟨rfl, rfl, rfl⟩ | simp_all
  · intro hd hh hs
    have hdead : ¬ (s.health ≤ 0.0 ∨ s.suitIntegrity ≤ 0.0) := by
      norm_num
      exact ⟨hh, hs⟩
    have hdown : ¬ down = false := by simp [hd]
    simp only [EVA.clbkConsumeBufferedKey, if_neg hdead, if_neg hdown]
    split_ifs <;> simp_all

/-- Witness for C10: a living astronaut pressing M (scan code 0x32). -/
theorem EVA_clbkConsumeBufferedKey_gate_witness :
    (EVA.clbkConsumeBufferedKey orbiterKeys EVA.construct [] 0x32 true).ret = 1 :=
  ((EVA_clbkConsumeBufferedKey_gate orbiterKeys EVA.construct [] 0x32 true).2 rfl
    (by norm_num [EVA.construct]) (by norm_num [EVA.construct])).1.2 (Or.inl rfl)

/-! ### EVA: the states the object can be in -/

theorem EVA.construct_sound : EVA.Sound EVA.construct := by
  norm_num [EVA.Sound, EVA.construct]

theorem EVA.sampleAtmosphere_sound (s : EVA) (h : EVAHost) (alt : ℚ) (hs : EVA.Sound s) :
    EVA.Sound (EVA.sampleAtmosphere s h alt) := by
  simp only [EVA.sampleAtmosphere]
  split_ifs <;> exact hs

theorem EVA.sampleToxicity_sound (s : EVA) (hs : EVA.Sound s) :
    EVA.Sound (EVA.sampleToxicity s) := by
  simp only [EVA.sampleToxicity]
  split_ifs <;> exact hs

theorem EVA.sampleTemperature_sound (s : EVA) (h : EVAHost) (alt : ℚ) (hs : EVA.Sound s) :
    EVA.Sound (EVA.sampleTemperature s h alt) := by
  simp only [EVA.sampleTemperature]
  split_ifs <;> exact hs

theorem EVA.UpdateEnvironment_sound (s : EVA) (h : EVAHost) (simdt : ℚ) (hs : EVA.Sound s) :
    EVA.Sound (EVA.UpdateEnvironment s h simdt) := by
  rcases hr : h.surfaceRef with _ | name
  · simp only [EVA.UpdateEnvironment, hr]
    exact hs
  · simp only [EVA.UpdateEnvironment, hr]
    refine EVA.sampleTemperature_sound _ h _ (EVA.sampleToxicity_sound _ ?_)
    have h1 := EVA.sampleAtmosphere_sound
      { s with underwater := false, inAtmosphere := false, inVacuum := false,
               currentProfile := GetPlanetHazardProfile name } h (h.rDist - h.radius) hs
    exact h1

theorem EVA.UpdateToxicShield_sound (s : EVA) (simdt : ℚ) (hs : EVA.Sound s) :
    EVA.Sound (EVA.UpdateToxicShield s simdt) := by
  simp only [EVA.UpdateToxicShield]
  split_ifs <;> exact hs

theorem EVA.ApplyIonBatteryEffects_sound (s : EVA) (simdt : ℚ) (hs : EVA.Sound s) :
    EVA.Sound (EVA.ApplyIonBatteryEffects s simdt) := by
  simp only [EVA.ApplyIonBatteryEffects]
  split_ifs <;> exact hs

theorem EVA.envOxygen_sound (s : EVA) (simdt : ℚ) (hs : EVA.Sound s) :
    EVA.Sound (EVA.envOxygen s simdt) := by
  obtain ⟨h1, h2, h3, h4, _⟩ := hs
  simp only [EVA.envOxygen]
  split_ifs <;> refine ⟨h1, h2, h3, h4, ?_⟩ <;> simp only [] at * <;>
    first | (norm_num; done) | (norm_num at *; linarith)

theorem EVA.envPressureDamage_sound (s : EVA) (simdt : ℚ) (hs : EVA.Sound s) :
    EVA.Sound (EVA.envPressureDamage s simdt) := by
  simp only [EVA.envPressureDamage]
  split_ifs <;> exact hs

theorem EVA.envRadiationDamage_sound (s : EVA) (simdt : ℚ) (hs : EVA.Sound s) :
    EVA.Sound (EVA.envRadiationDamage s simdt) := by
  simp only [EVA.envRadiationDamage]
  split_ifs <;> exact hs

theorem EVA.envToxicityDamage_sound (s : EVA) (simdt : ℚ) (hs : EVA.Sound s) :
    EVA.Sound (EVA.envToxicityDamage s simdt) := by
  simp only [EVA.envToxicityDamage]
  split_ifs <;> exact hs

theorem EVA.envGasGiantDamage_sound (s : EVA) (simdt : ℚ) (hs : EVA.Sound s) :
    EVA.Sound (EVA.envGasGiantDamage s simdt) := by
  simp only [EVA.envGasGiantDamage]
  split_ifs <;> exact hs

theorem EVA.envTemperatureDamage_sound (s : EVA) (simdt : ℚ) (hs : EVA.Sound s) :
    EVA.Sound (EVA.envTemperatureDamage s simdt) := by
  simp only [EVA.envTemperatureDamage]
  split_ifs <;> exact hs

theorem EVA.ApplyGravityEffects_sound (s : EVA) (g simdt : ℚ) (hs : EVA.Sound s) :
    EVA.Sound (EVA.ApplyGravityEffects s g simdt) := by
  obtain ⟨h1, h2, h3, h4, h5⟩ := hs
  simp only [EVA.ApplyGravityEffects]
  split_ifs <;> refine ⟨h1, h2, h3, h4, ?_⟩ <;> simp only [] at * <;>
    first | exact h5 | (norm_num; done) | (norm_num at *; linarith)

theorem EVA.ApplyEnvironmentEffects_sound (s : EVA) (h : EVAHost) (simdt : ℚ)
    (hs : EVA.Sound s) : EVA.Sound (EVA.ApplyEnvironmentEffects s h simdt) := by
  simp only [EVA.ApplyEnvironmentEffects]
  split_ifs
  · exact hs
  · have h7 := EVA.ApplyGravityEffects_sound _ h.g simdt
      (EVA.envTemperatureDamage_sound _ simdt
        (EVA.envGasGiantDamage_sound _ simdt
          (EVA.envToxicityDamage_sound _ simdt
            (EVA.envRadiationDamage_sound _ simdt
              (EVA.envPressureDamage_sound _ simdt (EVA.envOxygen_sound s simdt hs))))))
    exact h7

theorem EVA.ApplyRandomMicrometeorites_sound (s : EVA) (h : EVAHost) (simdt : ℚ)
    (hs : EVA.Sound s) : EVA.Sound (EVA.ApplyRandomMicrometeorites s h simdt) := by
  simp only [EVA.ApplyRandomMicrometeorites]
  split_ifs <;> exact hs

theorem EVA.clbkPreStep_sound (s : EVA) (h : EVAHost) (simdt : ℚ) (hs : EVA.Sound s) :
    EVA.Sound (EVA.clbkPreStep s h simdt) := by
  have h5 := EVA.ApplyRandomMicrometeorites_sound _ h simdt
    (EVA.ApplyEnvironmentEffects_sound _ h simdt
      (EVA.ApplyIonBatteryEffects_sound _ simdt
        (EVA.UpdateToxicShield_sound _ simdt (EVA.UpdateEnvironment_sound s h simdt hs))))
  simp only [EVA.clbkPreStep]
  exact h5

theorem EVA.MineResource_sound (s : EVA) (hs : EVA.Sound s) :
    EVA.Sound (EVA.MineResource s) := by
  simp only [EVA.MineResource]
  split_ifs <;> exact hs

theorem EVA.CraftIonCell_sound (s : EVA) (hs : EVA.Sound s) :
    EVA.Sound (EVA.CraftIonCell s) := by
  simp only [EVA.CraftIonCell]
  split_ifs <;> exact hs

theorem EVA.RechargeToxicShieldFromIon_sound (s : EVA) (hs : EVA.Sound s) :
    EVA.Sound (EVA.RechargeToxicShieldFromIon s) := by
  simp only [EVA.RechargeToxicShieldFromIon, EVA.ConsumeIonCharge]
  split_ifs <;> first | exact hs | simp_all

theorem EVA.clbkConsumeBufferedKey_sound (k : KeyCodes) (s : EVA) (vessels : List VesselInfo)
    (key : Nat) (down : Bool) (hs : EVA.Sound s) :
    EVA.Sound (EVA.clbkConsumeBufferedKey k s vessels key down).state := by
  simp only [EVA.clbkConsumeBufferedKey]
  split_ifs
  · exact hs
  · exact hs
  · exact EVA.MineResource_sound s hs
  · exact hs
  · exact EVA.CraftIonCell_sound s hs
  · exact EVA.RechargeToxicShieldFromIon_sound s hs
  · exact hs

theorem EVA.step_sound (k : KeyCodes) (s : EVA) (e : EVA.Event) (hs : EVA.Sound s) :
    EVA.Sound (EVA.step k s e) := by
  cases e with
  | mine => exact EVA.MineResource_sound s hs
  | craft => exact EVA.CraftIonCell_sound s hs
  | recharge => exact EVA.RechargeToxicShieldFromIon_sound s hs
  | key key down vessels => exact EVA.clbkConsumeBufferedKey_sound k s vessels key down hs
  | frame h simdt => exact EVA.clbkPreStep_sound s h simdt hs

/-- Every state the EVA object can be in is sound: the constructor's constants are in
place and `suitOxygen` is not negative. -/
theorem EVA.Reachable.sound {s : EVA} (hr : EVA.Reachable s) : EVA.Sound s := by
  induction hr with
  | construct => exact EVA.construct_sound
  | step k s e _ ih => exact EVA.step_sound k s e ih

/-- The state after a run from a state the object can be in is again such a state. -/
theorem EVA.Reachable.run (k : KeyCodes) (events : List EVA.Event) :
    ∀ s : EVA, EVA.Reachable s → EVA.Reachable (EVA.run k s events) := by
  induction events with
  | nil => intro s hs; exact hs
  | cons e es ih =>
    intro s hs
    exact ih _ (EVA.Reachable.step k s e hs)

/-- C1. For every state the EVA object can be in, every host input and every `simdt`,
after `EVA::clbkPreStep` both `health` and `suitIntegrity` lie in [0,1].  On these
states the three divisors of the frame (`ion.capacity`, `maxSafePressure`,
`toxicShieldCapacity`) are not zero, so no division of the frame is a division by
zero. -/
theorem EVA_clbkPreStep_health_suit_unit (s : EVA) (hr : EVA.Reachable s) (h : EVAHost)
    (simdt : ℚ) :
    (s.ion.capacity ≠ 0 ∧ s.maxSafePressure ≠ 0 ∧ s.toxicShieldCapacity ≠ 0) ∧
    (0 ≤ (EVA.clbkPreStep s h simdt).health ∧ (EVA.clbkPreStep s h simdt).health ≤ 1) ∧
    (0 ≤ (EVA.clbkPreStep s h simdt).suitIntegrity ∧
      (EVA.clbkPreStep s h simdt).suitIntegrity ≤ 1) := by
  obtain ⟨h1, _, h3, h4, _⟩ := hr.sound
  refine ⟨⟨?_, ?_, ?_⟩, EVA.clbkPreStep_unit s h simdt⟩
  · rw [h1]; norm_num
  · rw [h3]; norm_num
  · rw [h4]; norm_num

/-- Witness for C1: the suit one frame after construction, in a second frame 1 km
below the reference radius of Jupiter. -/
theorem EVA_clbkPreStep_health_suit_unit_witness :
    (0 ≤ (EVA.clbkPreStep (EVA.step orbiterKeys EVA.construct
        (EVA.Event.frame calmHost 1)) jupiterDiveEVA 1).health ∧
      (EVA.clbkPreStep (EVA.step orbiterKeys EVA.construct
        (EVA.Event.frame calmHost 1)) jupiterDiveEVA 1).health ≤ 1) ∧
    (0 ≤ (EVA.clbkPreStep (EVA.step orbiterKeys EVA.construct
        (EVA.Event.frame calmHost 1)) jupiterDiveEVA 1).suitIntegrity ∧
      (EVA.clbkPreStep (EVA.step orbiterKeys EVA.construct
        (EVA.Event.frame calmHost 1)) jupiterDiveEVA 1).suitIntegrity ≤ 1) :=
  (EVA_clbkPreStep_health_suit_unit _
    (EVA.Reachable.step orbiterKeys EVA.construct (EVA.Event.frame calmHost 1)
      EVA.Reachable.construct)
    jupiterDiveEVA 1).2

/-- C6. The EVA suit has no recovery: for every state the EVA object can be in, with
`health` and `suitIntegrity` in [0,1] and `0 <= ion.charge <= ion.capacity`, every host
input and every `simdt >= 0`, `EVA::clbkPreStep` does not increase `health` or
`suitIntegrity`, the three key actions and the key handler leave both unchanged, and a
`health` of 0 stays 0. -/
theorem EVA_no_recovery (k : KeyCodes) (s : EVA) (h : EVAHost) (vessels : List VesselInfo)
    (key : Nat) (down : Bool) (simdt : ℚ) (hr : EVA.Reachable s)
    (hh : 0 ≤ s.health ∧ s.health ≤ 1) (hs : 0 ≤ s.suitIntegrity ∧ s.suitIntegrity ≤ 1)
    (hc : 0 ≤ s.ion.charge ∧ s.ion.charge ≤ s.ion.capacity) (hdt : 0 ≤ simdt) :
    (EVA.clbkPreStep s h simdt).health ≤ s.health ∧
    (EVA.clbkPreStep s h simdt).suitIntegrity ≤ s.suitIntegrity ∧
    ((EVA.MineResource s).health = s.health ∧
      (EVA.MineResource s).suitIntegrity = s.suitIntegrity) ∧
    ((EVA.CraftIonCell s).health = s.health ∧
      (EVA.CraftIonCell s).suitIntegrity = s.suitIntegrity) ∧
    ((EVA.RechargeToxicShieldFromIon s).health = s.health ∧
      (EVA.RechargeToxicShieldFromIon s).suitIntegrity = s.suitIntegrity) ∧
    ((EVA.clbkConsumeBufferedKey k s vessels key down).state.health = s.health ∧
      (EVA.clbkConsumeBufferedKey k s vessels key down).state.suitIntegrity
        = s.suitIntegrity) ∧
    (s.health = 0 → (EVA.clbkPreStep s h simdt).health = 0) := by
  obtain ⟨_, h2, h3, _, _⟩ := hr.sound
  have hleak : 0 ≤ s.ionLeakFactor := by rw [h2]; norm_num
  have hp : 0 ≤ s.maxSafePressure := by rw [h3]; norm_num
  have hle := EVA.clbkPreStep_le s h simdt hdt hh.1 hs.1 hc.1 hc.2 hleak hp
  refine ⟨hle.1, hle.2, EVA.MineResource_frame s, EVA.CraftIonCell_frame s,
    EVA.RechargeToxicShieldFromIon_frame s, EVA.clbkConsumeBufferedKey_frame k s vessels key down,
    ?_⟩
  intro h0
  exact le_antisymm (by rw [← h0]; exact hle.1) (EVA.clbkPreStep_unit s h simdt).1.1

/-- Witness for C6: the constructed suit over a one-second frame 1 km below the
reference radius of Jupiter, in which radiation and low temperature wear it down. -/
theorem EVA_no_recovery_witness :
    (EVA.clbkPreStep EVA.construct jupiterDiveEVA 1).health ≤ EVA.construct.health ∧
    (EVA.clbkPreStep EVA.construct jupiterDiveEVA 1).suitIntegrity
      ≤ EVA.construct.suitIntegrity :=
  ⟨(EVA_no_recovery orbiterKeys EVA.construct jupiterDiveEVA [] 0 false 1
      EVA.Reachable.construct
      (by norm_num [EVA.construct]) (by norm_num [EVA.construct])
      (by norm_num [EVA.construct]) (by norm_num)).1,
   (EVA_no_recovery orbiterKeys EVA.construct jupiterDiveEVA [] 0 false 1
      EVA.Reachable.construct
      (by norm_num [EVA.construct]) (by norm_num [EVA.construct])
      (by norm_num [EVA.construct]) (by norm_num)).2.1⟩

/-! ### SurvivalShip: ranges kept by each step of the frame -/

theorem SurvivalShip.KeepsRanges.comp {f g : SurvivalShip → SurvivalShip}
    (hf : SurvivalShip.KeepsRanges f) (hg : SurvivalShip.KeepsRanges g) :
    SurvivalShip.KeepsRanges (fun s => g (f s)) := by
  intro s
  obtain ⟨f1, f2, f3, f4⟩ := hf s
  obtain ⟨g1, g2, g3, g4⟩ := hg (f s)
  exact ⟨fun h => g1 (f1 h), fun h => g2 (f2 h), fun h => g3 (f3 h), fun h => g4 (f4 h)⟩

theorem SurvivalShip.UpdateEnvironment_keeps (h : ShipHost) (simdt : ℚ) :
    SurvivalShip.KeepsRanges (fun s => SurvivalShip.UpdateEnvironment s h simdt) := by
  intro s
  simp only [SurvivalShip.UpdateEnvironment_shipFrame]
  exact ⟨id, id, id, id⟩

theorem SurvivalShip.envBreach_keeps (simdt : ℚ) :
    SurvivalShip.KeepsRanges (fun s => SurvivalShip.envBreach s simdt) := by
  intro s
  simp only [SurvivalShip.envBreach]
  refine ⟨?_, ?_, ?_, ?_⟩
  · intro hp
    split_ifs <;> (try simp only []) <;> norm_num at * <;> assumption
  · intro ho
    split_ifs <;> (try simp only []) <;> norm_num at * <;> assumption
  · split_ifs <;> exact id
  · split_ifs <;> exact id

theorem SurvivalShip.envAirlock_keeps (simdt : ℚ) :
    SurvivalShip.KeepsRanges (fun s => SurvivalShip.envAirlock s simdt) := by
  intro s
  simp only [SurvivalShip.envAirlock]
  refine ⟨?_, ?_, ?_, ?_⟩
  · intro hp
    split_ifs <;> (try simp only []) <;> norm_num at * <;> assumption
  · intro ho
    split_ifs <;> (try simp only []) <;> norm_num at * <;> assumption
  · split_ifs <;> exact id
  · split_ifs <;> exact id

theorem SurvivalShip.envOxygen_keeps (simdt : ℚ) :
    SurvivalShip.KeepsRanges (fun s => SurvivalShip.envOxygen s simdt) := by
  intro s
  simp only [SurvivalShip.envOxygen]
  refine ⟨?_, ?_, ?_, ?_⟩
  · intro hp
    split_ifs <;> (try simp only []) <;> norm_num at * <;> assumption
  · intro ho
    split_ifs <;> (try simp only []) <;> norm_num at * <;> assumption
  · split_ifs <;> exact id
  · split_ifs <;> exact id

theorem SurvivalShip.envRadiationHull_keeps (simdt : ℚ) :
    SurvivalShip.KeepsRanges (fun s => SurvivalShip.envRadiationHull s simdt) := by
  intro s
  simp only [SurvivalShip.envRadiationHull]
  split_ifs <;> exact ⟨id, id, id, id⟩

theorem SurvivalShip.envCorrosion_keeps (simdt : ℚ) :
    SurvivalShip.KeepsRanges (fun s => SurvivalShip.envCorrosion s simdt) := by
  intro s
  simp only [SurvivalShip.envCorrosion]
  split_ifs <;> exact ⟨id, id, id, id⟩

theorem SurvivalShip.envGasGiant_keeps (simdt : ℚ) :
    SurvivalShip.KeepsRanges (fun s => SurvivalShip.envGasGiant s simdt) := by
  intro s
  simp only [SurvivalShip.envGasGiant]
  split_ifs <;> exact ⟨id, id, id, id⟩

theorem SurvivalShip.ApplyEnvironmentToShip_keeps (simdt : ℚ) :
    SurvivalShip.KeepsRanges (fun s => SurvivalShip.ApplyEnvironmentToShip s simdt) := by
  have hc := (((((SurvivalShip.envBreach_keeps simdt).comp
    (SurvivalShip.envAirlock_keeps simdt)).comp (SurvivalShip.envOxygen_keeps simdt)).comp
    (SurvivalShip.envRadiationHull_keeps simdt)).comp
    (SurvivalShip.envCorrosion_keeps simdt)).comp (SurvivalShip.envGasGiant_keeps simdt)
  intro s
  exact hc s

theorem SurvivalShip.meteorHit_keeps  :
    SurvivalShip.KeepsRanges (fun s => SurvivalShip.meteorHit s ) := by
  intro s
  simp only [SurvivalShip.meteorHit]
  refine ⟨?_, ?_, ?_, ?_⟩
  · intro hp
    split_ifs <;> (try simp only []) <;> norm_num at * <;> assumption
  · intro ho
    split_ifs <;> (try simp only []) <;> norm_num at * <;> assumption
  · split_ifs <;> exact id
  · split_ifs <;> exact id

theorem SurvivalShip.ApplyRandomMicrometeorites_keeps (h : ShipHost) (simdt : ℚ) :
    SurvivalShip.KeepsRanges (fun s => SurvivalShip.ApplyRandomMicrometeorites s h simdt) := by
  intro s
  simp only [SurvivalShip.ApplyRandomMicrometeorites]
  split_ifs
  · exact ⟨id, id, id, id⟩
  · exact ⟨id, id, id, id⟩
  · exact SurvivalShip.meteorHit_keeps s
  · exact ⟨id, id, id, id⟩

theorem SurvivalShip.thermalOverheat_keeps (simdt : ℚ) :
    SurvivalShip.KeepsRanges (fun s => SurvivalShip.thermalOverheat s simdt) := by
  intro s
  simp only [SurvivalShip.thermalOverheat]
  split_ifs <;> exact ⟨id, id, id, id⟩

theorem SurvivalShip.thermalMelt_keeps (simdt : ℚ) :
    SurvivalShip.KeepsRanges (fun s => SurvivalShip.thermalMelt s simdt) := by
  intro s
  simp only [SurvivalShip.thermalMelt]
  refine ⟨?_, ?_, ?_, ?_⟩
  · intro hp
    split_ifs <;> (try simp only []) <;> norm_num at * <;> assumption
  · intro ho
    split_ifs <;> (try simp only []) <;> norm_num at * <;> assumption
  · split_ifs <;> exact id
  · split_ifs <;> exact id

theorem SurvivalShip.UpdateThermalModel_keeps (h : ShipHost) (simdt g : ℚ) :
    SurvivalShip.KeepsRanges (fun s => SurvivalShip.UpdateThermalModel s h simdt g) := by
  intro s
  simp only [SurvivalShip.UpdateThermalModel]
  generalize SurvivalShip.thermalDTemp s h simdt g = dTemp
  have hc := ((SurvivalShip.thermalOverheat_keeps simdt).comp
    (SurvivalShip.thermalMelt_keeps simdt))
    { s with hullTemp := s.hullTemp + dTemp }
  split_ifs
  · exact hc
  · exact hc

theorem SurvivalShip.stressMild_keeps (simdt g : ℚ) :
    SurvivalShip.KeepsRanges (fun s => SurvivalShip.stressMild s simdt g) := by
  intro s
  simp only [SurvivalShip.stressMild]
  refine ⟨?_, ?_, ?_, ?_⟩
  · intro hp
    split_ifs <;> (try simp only []) <;> norm_num at * <;> assumption
  · intro ho
    split_ifs <;> (try simp only []) <;> norm_num at * <;> assumption
  · split_ifs <;> exact id
  · split_ifs <;> exact id

theorem SurvivalShip.stressExtreme_keeps (simdt g : ℚ) :
    SurvivalShip.KeepsRanges (fun s => SurvivalShip.stressExtreme s simdt g) := by
  intro s
  simp only [SurvivalShip.stressExtreme]
  refine ⟨?_, ?_, ?_, ?_⟩
  · intro hp
    split_ifs <;> (try simp only []) <;> norm_num at * <;> assumption
  · intro ho
    split_ifs <;> (try simp only []) <;> norm_num at * <;> assumption
  · split_ifs <;> exact id
  · split_ifs <;> exact id

theorem SurvivalShip.bucklingLoad_computer (s : SurvivalShip) (simdt g : ℚ) (hdt : 0 ≤ simdt) :
    (SurvivalShip.bucklingLoad s simdt g).computerHealth ≤ s.computerHealth ∧
    (SurvivalShip.bucklingLoad s simdt g).computerRepairProgress = s.computerRepairProgress ∧
    (SurvivalShip.bucklingLoad s simdt g).internalOxygen = s.internalOxygen := by
  have hb : 0 ≤ ((g - 18.0) / 10.0) ^ 2 * 0.0005 * simdt :=
    mul_nonneg (mul_nonneg (sq_nonneg _) (by norm_num)) hdt
  simp only [SurvivalShip.bucklingLoad, and_true]
  linarith

theorem SurvivalShip.ApplyGravityBuckling_keeps (simdt g : ℚ) (hdt : 0 ≤ simdt) :
    SurvivalShip.KeepsRanges (fun s => SurvivalShip.ApplyGravityBuckling s simdt g) := by
  intro s
  obtain ⟨hb1, hb2, hb3⟩ := SurvivalShip.bucklingLoad_computer s simdt g hdt
  simp only [SurvivalShip.ApplyGravityBuckling]
  generalize SurvivalShip.bucklingLoad s simdt g = t at hb1 hb2 hb3
  refine ⟨?_, ?_, ?_, ?_⟩
  · intro hp
    split_ifs <;> (try simp only []) <;> norm_num at * <;> assumption
  · intro ho
    split_ifs <;> (try simp only []) <;> first | assumption | (rw [hb3]; exact ho)
  · intro hc
    split_ifs <;> (try simp only []) <;> norm_num at * <;>
      first | assumption | (constructor <;> linarith)
  · intro hr
    split_ifs <;> (try simp only []) <;> first | assumption | (rw [hb2]; exact hr)

theorem SurvivalShip.ApplyGravityStress_keeps (simdt g : ℚ) (hdt : 0 ≤ simdt) :
    SurvivalShip.KeepsRanges (fun s => SurvivalShip.ApplyGravityStress s simdt g) := by
  have hclamp : SurvivalShip.KeepsRanges
      (fun s => { s with hullIntegrity := Clamp s.hullIntegrity 0.0 1.0 }) :=
    fun _ => ⟨id, id, id, id⟩
  have hc := (((SurvivalShip.stressMild_keeps simdt g).comp
    (SurvivalShip.stressExtreme_keeps simdt g)).comp hclamp).comp
    (SurvivalShip.ApplyGravityBuckling_keeps simdt g hdt)
  intro s
  exact hc s

theorem SurvivalShip.ApplyElectronicsDamage_keeps (simdt : ℚ) (hdt : 0 ≤ simdt) :
    SurvivalShip.KeepsRanges (fun s => SurvivalShip.ApplyElectronicsDamage s simdt) := by
  intro s
  unfold SurvivalShip.ApplyElectronicsDamage
  simp only []
  generalize (if s.hullTemp < -150.0 then
      (if s.hullTemp > s.overheatThreshold then
        s.envRadiation * (1.0 - s.computerShield) + 0.1
       else s.envRadiation * (1.0 - s.computerShield)) + 0.05
    else
      (if s.hullTemp > s.overheatThreshold then
        s.envRadiation * (1.0 - s.computerShield) + 0.1
       else s.envRadiation * (1.0 - s.computerShield))) = eff
  refine ⟨?_, ?_, ?_, ?_⟩
  · split_ifs <;> exact id
  · split_ifs <;> exact id
  · intro hc
    split_ifs with h1 h2 h2
    · norm_num
    · have hm : 0 ≤ eff * 0.0005 * simdt :=
        mul_nonneg (mul_nonneg (le_trans (by norm_num) (le_of_lt h1)) (by norm_num)) hdt
      simp only [] at h2 ⊢
      norm_num at h2
      constructor <;> linarith
    · norm_num
    · exact hc
  · split_ifs <;> exact id

theorem SurvivalShip.repairAdvance_progress (s : SurvivalShip) (simdt : ℚ) (hdt : 0 ≤ simdt) :
    (0 ≤ s.computerRepairProgress →
      0 ≤ (SurvivalShip.repairAdvance s simdt).computerRepairProgress ∧
      (SurvivalShip.repairAdvance s simdt).computerRepairProgress ≤ 1) ∧
    (SurvivalShip.repairAdvance s simdt).internalPressure = s.internalPressure ∧
    (SurvivalShip.repairAdvance s simdt).internalOxygen = s.internalOxygen ∧
    (SurvivalShip.repairAdvance s simdt).computerHealth = s.computerHealth := by
  have hm : 0 ≤ (1.0 / 120.0 : ℚ) * simdt := mul_nonneg (by norm_num) hdt
  simp only [SurvivalShip.repairAdvance]
  split_ifs with h1
  · exact ⟨fun _ => by norm_num, rfl, rfl, rfl⟩
  · refine ⟨fun h0 => ?_, rfl, rfl, rfl⟩
    simp only [] at h1 ⊢
    norm_num at h1
    constructor <;> linarith

theorem SurvivalShip.UpdateComputerRepair_keeps (simdt : ℚ) (hdt : 0 ≤ simdt) :
    SurvivalShip.KeepsRanges (fun s => SurvivalShip.UpdateComputerRepair s simdt) := by
  intro s
  obtain ⟨ha1, ha2, ha3, ha4⟩ := SurvivalShip.repairAdvance_progress s simdt hdt
  simp only [SurvivalShip.UpdateComputerRepair]
  generalize SurvivalShip.repairAdvance s simdt = t at ha1 ha2 ha3 ha4
  refine ⟨?_, ?_, ?_, ?_⟩
  · intro hp
    split_ifs <;> (try simp only []) <;> first | assumption | (rw [ha2]; exact hp)
  · intro ho
    split_ifs <;> (try simp only []) <;> first | assumption | (rw [ha3]; exact ho)
  · intro hc
    split_ifs <;> (try simp only []) <;> first | assumption | exact Clamp_unit _
  · intro hr
    split_ifs <;> (try simp only []) <;>
      first | assumption | exact ha1 hr.1 | norm_num

theorem SurvivalShip.UpdateHoverMode_keeps (h : ShipHost) (simdt g : ℚ) :
    SurvivalShip.KeepsRanges (fun s => SurvivalShip.UpdateHoverMode s h simdt g) := by
  intro s
  simp only [SurvivalShip.UpdateHoverMode]
  split_ifs <;> exact ⟨id, id, id, id⟩

theorem SurvivalShip.UpdatePulseEngine_keeps (h : ShipHost) (simdt g : ℚ) :
    SurvivalShip.KeepsRanges (fun s => SurvivalShip.UpdatePulseEngine s h simdt g) := by
  intro s
  simp only [SurvivalShip.UpdatePulseEngine]
  split_ifs <;> exact ⟨id, id, id, id⟩

theorem SurvivalShip.ApplyGravityManeuverPenalties_keeps (h : ShipHost) (simdt g : ℚ) :
    SurvivalShip.KeepsRanges
      (fun s => SurvivalShip.ApplyGravityManeuverPenalties s h simdt g) := by
  intro s
  simp only [SurvivalShip.ApplyGravityManeuverPenalties]
  split_ifs <;> exact ⟨id, id, id, id⟩

theorem SurvivalShip.clbkPreStep_keeps (h : ShipHost) (simdt : ℚ) (hdt : 0 ≤ simdt) :
    SurvivalShip.KeepsRanges (fun s => SurvivalShip.clbkPreStep s h simdt) := by
  have hc := (((((((((SurvivalShip.UpdateEnvironment_keeps h simdt).comp
    (SurvivalShip.ApplyEnvironmentToShip_keeps simdt)).comp
    (SurvivalShip.ApplyRandomMicrometeorites_keeps h simdt)).comp
    (SurvivalShip.UpdateThermalModel_keeps h simdt h.g)).comp
    (SurvivalShip.ApplyGravityStress_keeps simdt h.g hdt)).comp
    (SurvivalShip.ApplyElectronicsDamage_keeps simdt hdt)).comp
    (SurvivalShip.UpdateComputerRepair_keeps simdt hdt)).comp
    (SurvivalShip.UpdateHoverMode_keeps h simdt h.g)).comp
    (SurvivalShip.UpdatePulseEngine_keeps h simdt h.g)).comp
    (SurvivalShip.ApplyGravityManeuverPenalties_keeps h simdt h.g)
  intro s
  exact hc s

/-- C7. For a ship with `computerHealth` in [0,1] and `simdt >= 0`, after
`SurvivalShip::clbkPreStep` (buckling, electronics damage and repair included)
`computerHealth` lies in [0,1]; and `computerRepairProgress` lies in [0,1] whenever it
started there. -/
theorem SurvivalShip_clbkPreStep_computer_unit (s : SurvivalShip) (h : ShipHost) (simdt : ℚ)
    (hc : 0 ≤ s.computerHealth ∧ s.computerHealth ≤ 1) (hdt : 0 ≤ simdt) :
    (0 ≤ (SurvivalShip.clbkPreStep s h simdt).computerHealth ∧
      (SurvivalShip.clbkPreStep s h simdt).computerHealth ≤ 1) ∧
    (0 ≤ s.computerRepairProgress ∧ s.computerRepairProgress ≤ 1 →
      0 ≤ (SurvivalShip.clbkPreStep s h simdt).computerRepairProgress ∧
      (SurvivalShip.clbkPreStep s h simdt).computerRepairProgress ≤ 1) :=
  ⟨(SurvivalShip.clbkPreStep_keeps h simdt hdt s).2.2.1 hc,
    (SurvivalShip.clbkPreStep_keeps h simdt hdt s).2.2.2⟩

/-- C8. For a ship with `internalPressure >= 0` and `internalOxygen >= 0` and every
`simdt >= 0`, steps with `simdt > 2` (where the factor `1 - 0.5 * simdt` is negative)
included, after `SurvivalShip::clbkPreStep` both are still not negative. -/
theorem SurvivalShip_clbkPreStep_cabin_nonneg (s : SurvivalShip) (h : ShipHost) (simdt : ℚ)
    (hp : 0 ≤ s.internalPressure) (ho : 0 ≤ s.internalOxygen) (hdt : 0 ≤ simdt) :
    0 ≤ (SurvivalShip.clbkPreStep s h simdt).internalPressure ∧
    0 ≤ (SurvivalShip.clbkPreStep s h simdt).internalOxygen :=
  ⟨(SurvivalShip.clbkPreStep_keeps h simdt hdt s).1 hp,
    (SurvivalShip.clbkPreStep_keeps h simdt hdt s).2.1 ho⟩


/-! ### SurvivalShip: the states the object can be in -/

theorem SurvivalShip.KeepsThrust.chain {f g : SurvivalShip → SurvivalShip}
    (hf : SurvivalShip.KeepsThrust f) (hg : SurvivalShip.KeepsThrust g) :
    SurvivalShip.KeepsThrust (fun s => g (f s)) :=
  fun s => (hg (f s)).trans (hf s)

theorem SurvivalShip.sampleAtmosphere_thrust (h : ShipHost) :
    SurvivalShip.KeepsThrust (fun s => SurvivalShip.sampleAtmosphere s h) := by
  intro s
  simp only [SurvivalShip.sampleAtmosphere]
  split_ifs <;> rfl

theorem SurvivalShip.sampleTemperature_thrust (h : ShipHost) :
    SurvivalShip.KeepsThrust (fun s => SurvivalShip.sampleTemperature s h) := by
  intro s
  simp only [SurvivalShip.sampleTemperature]
  split_ifs <;> rfl

theorem SurvivalShip.UpdateEnvironment_thrust (h : ShipHost) (simdt : ℚ) :
    SurvivalShip.KeepsThrust (fun s => SurvivalShip.UpdateEnvironment s h simdt) := by
  intro s
  rcases hs : h.surfaceRef with _ | name
  · simp only [SurvivalShip.UpdateEnvironment, hs]
  · simp only [SurvivalShip.UpdateEnvironment, hs]
    rw [SurvivalShip.sampleTemperature_thrust h _]
    simp only []
    rw [SurvivalShip.sampleAtmosphere_thrust h _]

theorem SurvivalShip.envBreach_thrust (simdt : ℚ) :
    SurvivalShip.KeepsThrust (fun s => SurvivalShip.envBreach s simdt) := by
  intro s
  simp only [SurvivalShip.envBreach]
  split_ifs <;> rfl

theorem SurvivalShip.envAirlock_thrust (simdt : ℚ) :
    SurvivalShip.KeepsThrust (fun s => SurvivalShip.envAirlock s simdt) := by
  intro s
  simp only [SurvivalShip.envAirlock]
  split_ifs <;> rfl

theorem SurvivalShip.envOxygen_thrust (simdt : ℚ) :
    SurvivalShip.KeepsThrust (fun s => SurvivalShip.envOxygen s simdt) := by
  intro s
  simp only [SurvivalShip.envOxygen]
  split_ifs <;> rfl

theorem SurvivalShip.envRadiationHull_thrust (simdt : ℚ) :
    SurvivalShip.KeepsThrust (fun s => SurvivalShip.envRadiationHull s simdt) := by
  intro s
  simp only [SurvivalShip.envRadiationHull]
  split_ifs <;> rfl

theorem SurvivalShip.envCorrosion_thrust (simdt : ℚ) :
    SurvivalShip.KeepsThrust (fun s => SurvivalShip.envCorrosion s simdt) := by
  intro s
  simp only [SurvivalShip.envCorrosion]
  split_ifs <;> rfl

theorem SurvivalShip.envGasGiant_thrust (simdt : ℚ) :
    SurvivalShip.KeepsThrust (fun s => SurvivalShip.envGasGiant s simdt) := by
  intro s
  simp only [SurvivalShip.envGasGiant]
  split_ifs <;> rfl

theorem SurvivalShip.ApplyEnvironmentToShip_thrust (simdt : ℚ) :
    SurvivalShip.KeepsThrust (fun s => SurvivalShip.ApplyEnvironmentToShip s simdt) := by
  have hc := (((((SurvivalShip.envBreach_thrust simdt).chain
    (SurvivalShip.envAirlock_thrust simdt)).chain
    (SurvivalShip.envOxygen_thrust simdt)).chain
    (SurvivalShip.envRadiationHull_thrust simdt)).chain
    (SurvivalShip.envCorrosion_thrust simdt)).chain
    (SurvivalShip.envGasGiant_thrust simdt)
  intro s
  exact hc s

theorem SurvivalShip.meteorHit_thrust :
    SurvivalShip.KeepsThrust (fun s => SurvivalShip.meteorHit s) := by
  intro s
  simp only [SurvivalShip.meteorHit]
  split_ifs <;> rfl

theorem SurvivalShip.ApplyRandomMicrometeorites_thrust (h : ShipHost) (simdt : ℚ) :
    SurvivalShip.KeepsThrust
      (fun s => SurvivalShip.ApplyRandomMicrometeorites s h simdt) := by
  intro s
  simp only [SurvivalShip.ApplyRandomMicrometeorites]
  split_ifs
  · rfl
  · rfl
  · exact SurvivalShip.meteorHit_thrust s
  · rfl

theorem SurvivalShip.thermalOverheat_thrust (simdt : ℚ) :
    SurvivalShip.KeepsThrust (fun s => SurvivalShip.thermalOverheat s simdt) := by
  intro s
  simp only [SurvivalShip.thermalOverheat]
  split_ifs <;> rfl

theorem SurvivalShip.thermalMelt_thrust (simdt : ℚ) :
    SurvivalShip.KeepsThrust (fun s => SurvivalShip.thermalMelt s simdt) := by
  intro s
  simp only [SurvivalShip.thermalMelt]
  split_ifs <;> rfl

theorem SurvivalShip.UpdateThermalModel_thrust (h : ShipHost) (simdt g : ℚ) :
    SurvivalShip.KeepsThrust (fun s => SurvivalShip.UpdateThermalModel s h simdt g) := by
  intro s
  simp only [SurvivalShip.UpdateThermalModel]
  generalize SurvivalShip.thermalDTemp s h simdt g = dTemp
  have hc := ((SurvivalShip.thermalOverheat_thrust simdt).chain
    (SurvivalShip.thermalMelt_thrust simdt))
    { s with hullTemp := s.hullTemp + dTemp }
  split_ifs
  · exact hc
  · exact hc

theorem SurvivalShip.stressMild_thrust (simdt g : ℚ) :
    SurvivalShip.KeepsThrust (fun s => SurvivalShip.stressMild s simdt g) := by
  intro s
  simp only [SurvivalShip.stressMild]
  split_ifs <;> rfl

theorem SurvivalShip.stressExtreme_thrust (simdt g : ℚ) :
    SurvivalShip.KeepsThrust (fun s => SurvivalShip.stressExtreme s simdt g) := by
  intro s
  simp only [SurvivalShip.stressExtreme]
  split_ifs <;> rfl

theorem SurvivalShip.ApplyGravityBuckling_thrust (simdt g : ℚ) :
    SurvivalShip.KeepsThrust (fun s => SurvivalShip.ApplyGravityBuckling s simdt g) := by
  intro s
  have hb : (SurvivalShip.bucklingLoad s simdt g).mainMaxThrust = s.mainMaxThrust := by
    simp only [SurvivalShip.bucklingLoad]
  simp only [SurvivalShip.ApplyGravityBuckling]
  generalize SurvivalShip.bucklingLoad s simdt g = t at hb
  split_ifs <;> first | rfl | exact hb

theorem SurvivalShip.ApplyGravityStress_thrust (simdt g : ℚ) :
    SurvivalShip.KeepsThrust (fun s => SurvivalShip.ApplyGravityStress s simdt g) := by
  have hclamp : SurvivalShip.KeepsThrust
      (fun s => { s with hullIntegrity := Clamp s.hullIntegrity 0.0 1.0 }) :=
    fun _ => rfl
  have hc := (((SurvivalShip.stressMild_thrust simdt g).chain
    (SurvivalShip.stressExtreme_thrust simdt g)).chain hclamp).chain
    (SurvivalShip.ApplyGravityBuckling_thrust simdt g)
  intro s
  exact hc s

theorem SurvivalShip.ApplyElectronicsDamage_thrust (simdt : ℚ) :
    SurvivalShip.KeepsThrust (fun s => SurvivalShip.ApplyElectronicsDamage s simdt) := by
  intro s
  unfold SurvivalShip.ApplyElectronicsDamage
  simp only []
  split_ifs <;> rfl

theorem SurvivalShip.UpdateComputerRepair_thrust (simdt : ℚ) :
    SurvivalShip.KeepsThrust (fun s => SurvivalShip.UpdateComputerRepair s simdt) := by
  intro s
  have ha : (SurvivalShip.repairAdvance s simdt).mainMaxThrust = s.mainMaxThrust := by
    simp only [SurvivalShip.repairAdvance]
    split_ifs <;> rfl
  simp only [SurvivalShip.UpdateComputerRepair]
  generalize SurvivalShip.repairAdvance s simdt = t at ha
  split_ifs <;> first | rfl | exact ha

theorem SurvivalShip.UpdateHoverMode_thrust (h : ShipHost) (simdt g : ℚ) :
    SurvivalShip.KeepsThrust (fun s => SurvivalShip.UpdateHoverMode s h simdt g) := by
  intro s
  simp only [SurvivalShip.UpdateHoverMode]
  split_ifs <;> rfl

theorem SurvivalShip.UpdatePulseEngine_thrust (h : ShipHost) (simdt g : ℚ) :
    SurvivalShip.KeepsThrust (fun s => SurvivalShip.UpdatePulseEngine s h simdt g) := by
  intro s
  simp only [SurvivalShip.UpdatePulseEngine]
  split_ifs <;> rfl

theorem SurvivalShip.ApplyGravityManeuverPenalties_thrust (h : ShipHost) (simdt g : ℚ) :
    SurvivalShip.KeepsThrust (fun s => SurvivalShip.ApplyGravityManeuverPenalties s h simdt g) := by
  intro s
  simp only [SurvivalShip.ApplyGravityManeuverPenalties]
  split_ifs <;> rfl

theorem SurvivalShip.clbkPreStep_thrust (h : ShipHost) (simdt : ℚ) :
    SurvivalShip.KeepsThrust (fun s => SurvivalShip.clbkPreStep s h simdt) := by
  have hc := (((((((((SurvivalShip.UpdateEnvironment_thrust h simdt).chain
    (SurvivalShip.ApplyEnvironmentToShip_thrust simdt)).chain
    (SurvivalShip.ApplyRandomMicrometeorites_thrust h simdt)).chain
    (SurvivalShip.UpdateThermalModel_thrust h simdt h.g)).chain
    (SurvivalShip.ApplyGravityStress_thrust simdt h.g)).chain
    (SurvivalShip.ApplyElectronicsDamage_thrust simdt)).chain
    (SurvivalShip.UpdateComputerRepair_thrust simdt)).chain
    (SurvivalShip.UpdateHoverMode_thrust h simdt h.g)).chain
    (SurvivalShip.UpdatePulseEngine_thrust h simdt h.g)).chain
    (SurvivalShip.ApplyGravityManeuverPenalties_thrust h simdt h.g)
  intro s
  exact hc s

theorem SurvivalShip.clbkConsumeBufferedKey_thrust (k : KeyCodes) (key : Nat) (down : Bool) :
    SurvivalShip.KeepsThrust (fun s => (SurvivalShip.clbkConsumeBufferedKey k s key down).2) := by
  intro s
  simp only [SurvivalShip.clbkConsumeBufferedKey, SurvivalShip.SpawnEVA,
    SurvivalShip.StartComputerRepair]
  split_ifs <;> rfl

theorem SurvivalShip.clbkConsumeBufferedKey_keeps (k : KeyCodes) (key : Nat) (down : Bool) :
    SurvivalShip.KeepsRanges (fun s => (SurvivalShip.clbkConsumeBufferedKey k s key down).2) := by
  intro s
  simp only [SurvivalShip.clbkConsumeBufferedKey, SurvivalShip.SpawnEVA,
    SurvivalShip.StartComputerRepair]
  split_ifs <;> refine ⟨id, id, id, ?_⟩ <;> first | exact id | (intro _; norm_num)

theorem SurvivalShip.construct_shipSound : SurvivalShip.Sound SurvivalShip.construct := by
  norm_num [SurvivalShip.Sound, SurvivalShip.construct]

theorem SurvivalShip.step_shipSound (k : KeyCodes) (s : SurvivalShip) (e : SurvivalShip.Event)
    (he : e.TimeForward) (hs : SurvivalShip.Sound s) :
    SurvivalShip.Sound (SurvivalShip.step k s e) := by
  obtain ⟨ht, hp, ho, hc0, hc1⟩ := hs
  cases e with
  | key key down =>
    have hk := SurvivalShip.clbkConsumeBufferedKey_keeps k key down s
    have hc := hk.2.2.1 ⟨hc0, hc1⟩
    exact ⟨(SurvivalShip.clbkConsumeBufferedKey_thrust k key down s).trans ht,
      hk.1 hp, hk.2.1 ho, hc.1, hc.2⟩
  | frame h simdt =>
    have hk := SurvivalShip.clbkPreStep_keeps h simdt he s
    have hc := hk.2.2.1 ⟨hc0, hc1⟩
    exact ⟨(SurvivalShip.clbkPreStep_thrust h simdt s).trans ht,
      hk.1 hp, hk.2.1 ho, hc.1, hc.2⟩

/-- Every state the ship object can be in is sound: `mainMaxThrust` is the
constructor's 600 kN, cabin pressure and cabin oxygen are not negative, and
`computerHealth` is in [0,1]. -/
theorem SurvivalShip.Reachable.shipSound {s : SurvivalShip} (hr : SurvivalShip.Reachable s) :
    SurvivalShip.Sound s := by
  induction hr with
  | construct => exact SurvivalShip.construct_shipSound
  | caps s _ ih => exact ih
  | step k s e _ he ih => exact SurvivalShip.step_shipSound k s e he ih

/-! ### Gas giants: the atmosphere flag -/

theorem gasGiant_profiles (name : String)
    (hn : name = "Jupiter" ∨ name = "Saturn" ∨ name = "Uranus" ∨ name = "Neptune") :
    (GetPlanetHazardProfile name).gasGiant = true ∧
    (GetPlanetHazardProfile name).hasAtmosphere = false := by
  rcases hn with h | h | h | h <;> subst h <;>
    simp [GetPlanetHazardProfile, InitProfiles, ProfileMap.assign, ProfileMap.find]

theorem SurvivalShip.UpdateEnvironment_shipGasGiant (s : SurvivalShip) (h : ShipHost) (simdt : ℚ)
    (name : String) (hs : h.surfaceRef = some name)
    (hn : name = "Jupiter" ∨ name = "Saturn" ∨ name = "Uranus" ∨ name = "Neptune") :
    (SurvivalShip.UpdateEnvironment s h simdt).inAtmosphere = false := by
  have hp := (gasGiant_profiles name hn).2
  simp [SurvivalShip.UpdateEnvironment, hs, SurvivalShip.sampleAtmosphere,
    SurvivalShip.sampleTemperature, hp]

theorem EVA.UpdateEnvironment_gasGiant (s : EVA) (h : EVAHost) (simdt : ℚ)
    (name : String) (hs : h.surfaceRef = some name)
    (hn : name = "Jupiter" ∨ name = "Saturn" ∨ name = "Uranus" ∨ name = "Neptune") :
    (EVA.UpdateEnvironment s h simdt).inAtmosphere = false := by
  have hp := (gasGiant_profiles name hn).2
  simp [EVA.UpdateEnvironment, hs, EVA.sampleAtmosphere, EVA.sampleToxicity,
    EVA.sampleTemperature, hp]

/-! ### Witnesses and evaluations at concrete frames -/

/-- Witness for C5: the constructed suit with no reference body. -/
theorem UpdateEnvironment_ranges_witness :
    (EVA.UpdateEnvironment EVA.construct calmHost 1).envRadiation = 0.7 ∧
    (EVA.UpdateEnvironment EVA.construct calmHost 1).envPressure = 0 :=
  (UpdateEnvironment_ranges EVA.construct calmHost wreck highGravity 1).2.2.2.1 rfl

/-- Witness for C7: the worn ship under 28 m/s² over a three-second frame. -/
theorem SurvivalShip_clbkPreStep_computer_unit_witness :
    0 ≤ (SurvivalShip.clbkPreStep wreck highGravity 3).computerHealth ∧
    (SurvivalShip.clbkPreStep wreck highGravity 3).computerHealth ≤ 1 :=
  (SurvivalShip_clbkPreStep_computer_unit wreck highGravity 3
    (by norm_num [wreck, SurvivalShip.construct, SurvivalShip.clbkSetClassCaps])
    (by norm_num)).1

/-- Witness for C8: the worn ship (hull breached) over a three-second frame, where
`1 - 0.5 * simdt` is negative. -/
theorem SurvivalShip_clbkPreStep_cabin_nonneg_witness :
    0 ≤ (SurvivalShip.clbkPreStep wreck highGravity 3).internalPressure ∧
    0 ≤ (SurvivalShip.clbkPreStep wreck highGravity 3).internalOxygen :=
  SurvivalShip_clbkPreStep_cabin_nonneg wreck highGravity 3
    (by norm_num [wreck, SurvivalShip.construct, SurvivalShip.clbkSetClassCaps])
    (by norm_num [wreck, SurvivalShip.construct, SurvivalShip.clbkSetClassCaps])
    (by norm_num)

/-- C2, the code at the failing input. The ship `wreck` has `hullIntegrity = 0`, inside
[0,1]; after one `SurvivalShip::clbkPreStep` of one second under 28 m/s² its
`hullIntegrity` is -1/500: `ApplyGravityBuckling` subtracts its damage after the clamp
of `ApplyGravityStress` and floors only the cabin pressure and the computer health. -/
theorem SurvivalShip_clbkPreStep_hull_negative :
    (0 ≤ wreck.hullIntegrity ∧ wreck.hullIntegrity ≤ 1) ∧
    (SurvivalShip.clbkPreStep wreck highGravity 1).hullIntegrity = -1 / 500 := by
  norm_num [SurvivalShip.clbkPreStep, SurvivalShip.UpdateEnvironment,
    SurvivalShip.ApplyEnvironmentToShip, SurvivalShip.envBreach, SurvivalShip.envAirlock,
    SurvivalShip.envOxygen, SurvivalShip.envRadiationHull, SurvivalShip.envCorrosion,
    SurvivalShip.envGasGiant, SurvivalShip.ApplyRandomMicrometeorites, SurvivalShip.meteorHit,
    SurvivalShip.UpdateThermalModel, SurvivalShip.thermalDTemp, SurvivalShip.ComputeSolarFlux,
    SurvivalShip.thermalOverheat, SurvivalShip.thermalMelt, SurvivalShip.ApplyGravityStress,
    SurvivalShip.stressMild, SurvivalShip.stressExtreme, SurvivalShip.ApplyGravityBuckling,
    SurvivalShip.bucklingLoad, SurvivalShip.ApplyElectronicsDamage,
    SurvivalShip.UpdateComputerRepair, SurvivalShip.repairAdvance, SurvivalShip.UpdateHoverMode,
    SurvivalShip.UpdatePulseEngine, SurvivalShip.ApplyGravityManeuverPenalties, wreck,
    highGravity, SurvivalShip.construct, SurvivalShip.clbkSetClassCaps, Clamp,
    PlanetHazardProfile.zeroInit]

/-- C9, the code at the failing input. Below the reference radius of Jupiter, with the
host reporting an atmosphere of 100 kPa, `UpdateEnvironment` leaves both vessels out
of the atmosphere (in vacuum, pressure 0), since the table entry of Jupiter has
`hasAtmosphere = false`; the gas-giant damage is not applied: the hull of the ship
loses 0.0001 to radiation where 0.01 more is claimed, and the suit keeps 0.994 of
integrity and 0.9877 of health where a loss of 1.0 is claimed. -/
theorem gasGiant_damage_not_applied :
    (GetPlanetHazardProfile "Jupiter").gasGiant = true ∧
    (GetPlanetHazardProfile "Jupiter").hasAtmosphere = false ∧
    (SurvivalShip.UpdateEnvironment SurvivalShip.construct jupiterDive 1).inAtmosphere = false ∧
    (SurvivalShip.UpdateEnvironment SurvivalShip.construct jupiterDive 1).inVacuum = true ∧
    (SurvivalShip.UpdateEnvironment SurvivalShip.construct jupiterDive 1).envPressure = 0 ∧
    (SurvivalShip.ApplyEnvironmentToShip
      (SurvivalShip.UpdateEnvironment SurvivalShip.construct jupiterDive 1) 1).hullIntegrity
      = 9999 / 10000 ∧
    (EVA.UpdateEnvironment EVA.construct jupiterDiveEVA 1).inAtmosphere = false ∧
    (EVA.UpdateEnvironment EVA.construct jupiterDiveEVA 1).inVacuum = true ∧
    (EVA.ApplyEnvironmentEffects (EVA.UpdateEnvironment EVA.construct jupiterDiveEVA 1)
      jupiterDiveEVA 1).suitIntegrity = 497 / 500 ∧
    (EVA.ApplyEnvironmentEffects (EVA.UpdateEnvironment EVA.construct jupiterDiveEVA 1)
      jupiterDiveEVA 1).health = 9877 / 10000 := by
  have hJ : GetPlanetHazardProfile "Jupiter"
      = ⟨-150, 20, 0, 1, 1, false, false, false, true⟩ := by
    simp [GetPlanetHazardProfile, InitProfiles, ProfileMap.assign, ProfileMap.find,
      ProfileMap.index] <;> norm_num
  refine ⟨by rw [hJ], by rw [hJ], ?_, ?_, ?_, ?_, ?_, ?_, ?_, ?_⟩ <;>
  norm_num [hJ, SurvivalShip.UpdateEnvironment, SurvivalShip.sampleAtmosphere,
    SurvivalShip.sampleTemperature, sampleRadiation, SurvivalShip.ApplyEnvironmentToShip,
    SurvivalShip.envBreach, SurvivalShip.envAirlock, SurvivalShip.envOxygen,
    SurvivalShip.envRadiationHull, SurvivalShip.envCorrosion, SurvivalShip.envGasGiant,
    SurvivalShip.construct, jupiterDive, jupiterDiveEVA, EVA.UpdateEnvironment,
    EVA.sampleAtmosphere, EVA.sampleToxicity, EVA.sampleTemperature,
    EVA.ComputeVacuumTemperature, EVA.ApplyEnvironmentEffects, EVA.envOxygen,
    EVA.envPressureDamage, EVA.envRadiationDamage, EVA.envToxicityDamage, EVA.envEffectiveTox,
    EVA.envGasGiantDamage, EVA.envTemperatureDamage, EVA.envTempDelta, EVA.ApplyGravityEffects,
    EVA.construct, Clamp, PlanetHazardProfile.zeroInit]

/-! ### EVA: crafting, recharging and the toxic shield -/

theorem EVA.CraftIonCell_cases (s : EVA) :
    (s.inventory.Crystal < 5 → EVA.CraftIonCell s = s) ∧
    (5 ≤ s.inventory.Crystal →
      EVA.CraftIonCell s =
        { s with
          inventory := { Crystal := s.inventory.Crystal - 5,
                         ION_CORE := s.inventory.ION_CORE + 1 },
          ion := { s.ion with charge := min (s.ion.charge + 20) s.ion.capacity } }) := by
  constructor
  · intro hlt
    simp only [EVA.CraftIonCell, if_pos hlt]
  · intro hge
    have hnot : ¬ s.inventory.Crystal < 5 := not_lt.mpr hge
    simp only [EVA.CraftIonCell, if_neg hnot]
    split_ifs with hcap
    · have hmin : min (s.ion.charge + 20) s.ion.capacity = s.ion.capacity :=
        min_eq_right (by norm_num at hcap; linarith)
      rw [hmin]
    · have hmin : min (s.ion.charge + 20) s.ion.capacity = s.ion.charge + 20 :=
        min_eq_left (by norm_num at hcap; linarith)
      rw [hmin]
      norm_num

theorem EVA.RechargeToxicShieldFromIon_cases (s : EVA) :
    ((s.toxicShieldCharge ≥ s.toxicShieldCapacity ∨ s.ion.charge < 10) →
      EVA.RechargeToxicShieldFromIon s = s) ∧
    (s.ion.charge < 10 → EVA.ConsumeIonCharge s 10 = (false, s)) ∧
    (s.toxicShieldCharge < s.toxicShieldCapacity → 10 ≤ s.ion.charge →
      EVA.RechargeToxicShieldFromIon s =
        { s with
          ion := { s.ion with charge := s.ion.charge - 10 },
          toxicShieldCharge := min (s.toxicShieldCharge + 25) s.toxicShieldCapacity }) := by
  refine ⟨?_, ?_, ?_⟩
  · intro hgate
    simp only [EVA.RechargeToxicShieldFromIon, EVA.ConsumeIonCharge]
    rcases hgate with hfull | hlow
    · rw [if_pos hfull]
    · have hlow' : s.ion.charge < 10.0 := by norm_num; exact hlow
      split_ifs <;> first | rfl | (exfalso; simp_all)
  · intro hlow
    have hlow' : s.ion.charge < 10 := hlow
    simp only [EVA.ConsumeIonCharge, if_pos hlow']
  · intro hroom hcharge
    have h1 : ¬ s.toxicShieldCharge ≥ s.toxicShieldCapacity := not_le.mpr hroom
    have h2 : ¬ s.ion.charge < 10.0 := by norm_num; exact hcharge
    have h3 : ¬ s.ion.charge - 10.0 < 0.0 := by norm_num; exact hcharge
    simp only [EVA.RechargeToxicShieldFromIon, EVA.ConsumeIonCharge, if_neg h1, if_neg h2,
      if_neg h3]
    by_cases hb : s.toxicShieldCharge + 25.0 > s.toxicShieldCapacity
    · have hmin : min (s.toxicShieldCharge + 25) s.toxicShieldCapacity
          = s.toxicShieldCapacity := min_eq_right (by norm_num at hb; linarith)
      rw [hmin]
      simp only [if_pos hb]
      norm_num
    · have hmin : min (s.toxicShieldCharge + 25) s.toxicShieldCapacity
          = s.toxicShieldCharge + 25 := min_eq_left (by norm_num at hb; linarith)
      rw [hmin]
      simp only [if_neg hb]
      norm_num

/-- C13. `EVA::RechargeToxicShieldFromIon`: with a full shield, or with less than 10
units of ION charge, the state is unchanged (`ConsumeIonCharge` returns false and
leaves the state alone); otherwise `ion.charge` goes down by exactly 10 and the shield
charge becomes `min (toxicShieldCharge + 25) toxicShieldCapacity`, and no other member
changes. -/
theorem EVA_RechargeToxicShieldFromIon_exact (s : EVA) :
    ((s.toxicShieldCharge ≥ s.toxicShieldCapacity ∨ s.ion.charge < 10) →
      EVA.RechargeToxicShieldFromIon s = s) ∧
    (s.ion.charge < 10 → EVA.ConsumeIonCharge s 10 = (false, s)) ∧
    (s.toxicShieldCharge < s.toxicShieldCapacity → 10 ≤ s.ion.charge →
      EVA.RechargeToxicShieldFromIon s =
        { s with
          ion := { s.ion with charge := s.ion.charge - 10 },
          toxicShieldCharge := min (s.toxicShieldCharge + 25) s.toxicShieldCapacity }) :=
  EVA.RechargeToxicShieldFromIon_cases s

/-- Witness for C13: 30 units of ION charge and a shield at 90 of 100 give 20 units
and a full shield. -/
theorem EVA_RechargeToxicShieldFromIon_exact_witness :
    (EVA.RechargeToxicShieldFromIon chargedSuit).ion.charge = 20 ∧
    (EVA.RechargeToxicShieldFromIon chargedSuit).toxicShieldCharge = 100 := by
  rw [(EVA_RechargeToxicShieldFromIon_exact chargedSuit).2.2
    (by norm_num [chargedSuit, EVA.construct]) (by norm_num [chargedSuit, EVA.construct])]
  norm_num [chargedSuit, EVA.construct]

/-- C20. `EVA::UpdateToxicShield`, for every `simdt`: with the shield online, a
positive charge and `envToxicity > 0.05` the charge becomes
`max 0 (charge - toxicShieldDrainRate * envToxicity * simdt)`; with the shield offline
or `envToxicity <= 0.05` a positive charge is unchanged; a charge that is not positive,
the shield being online, is set to 0. No other member changes. -/
theorem EVA_UpdateToxicShield_exact (s : EVA) (simdt : ℚ) :
    (s.toxicShieldOnline = true → 0 < s.toxicShieldCharge → 0.05 < s.envToxicity →
      EVA.UpdateToxicShield s simdt =
        { s with
          toxicShieldCharge := max 0
            (s.toxicShieldCharge - s.toxicShieldDrainRate * s.envToxicity * simdt) }) ∧
    ((s.toxicShieldOnline = false ∨ s.envToxicity ≤ 0.05) → 0 < s.toxicShieldCharge →
      EVA.UpdateToxicShield s simdt = s) ∧
    (s.toxicShieldOnline = true → s.toxicShieldCharge ≤ 0 →
      EVA.UpdateToxicShield s simdt = { s with toxicShieldCharge := 0 }) := by
  refine ⟨?_, ?_, ?_⟩
  · intro hon hpos htox
    have h1 : ¬ s.toxicShieldOnline = false := by simp [hon]
    have h2 : ¬ s.toxicShieldCharge ≤ 0.0 := by norm_num; exact hpos
    have h3 : s.envToxicity > 0.05 := htox
    simp only [EVA.UpdateToxicShield, if_neg h1, if_neg h2, if_pos h3]
    by_cases hneg :
        s.toxicShieldCharge - s.toxicShieldDrainRate * s.envToxicity * simdt < 0.0
    · have hmax : max 0 (s.toxicShieldCharge - s.toxicShieldDrainRate * s.envToxicity * simdt)
          = 0 := max_eq_left (by norm_num at hneg; linarith)
      rw [hmax]
      simp only [if_pos hneg]
      norm_num
    · have hmax : max 0 (s.toxicShieldCharge - s.toxicShieldDrainRate * s.envToxicity * simdt)
          = s.toxicShieldCharge - s.toxicShieldDrainRate * s.envToxicity * simdt :=
        max_eq_right (by norm_num at hneg; linarith)
      rw [hmax]
      simp only [if_neg hneg]
  · intro hgate hpos
    have h2 : ¬ s.toxicShieldCharge ≤ 0.0 := by norm_num; exact hpos
    rcases hgate with hoff | hlow
    · simp only [EVA.UpdateToxicShield, if_pos hoff]
    · have h3 : ¬ s.envToxicity > 0.05 := not_lt.mpr hlow
      simp only [EVA.UpdateToxicShield, if_neg h2, if_neg h3]
      split_ifs <;> rfl
  · intro hon hle
    have h1 : ¬ s.toxicShieldOnline = false := by simp [hon]
    have h2 : s.toxicShieldCharge ≤ 0.0 := by norm_num; exact hle
    simp only [EVA.UpdateToxicShield, if_neg h1, if_pos h2]
    norm_num

/-- Witness for C20: a shield at 50 draining for one second at toxicity 0.7 (drain
rate 2) is left at 48.6. -/
theorem EVA_UpdateToxicShield_exact_witness :
    (EVA.UpdateToxicShield shieldedSuit 1).toxicShieldCharge = 48.6 := by
  rw [(EVA_UpdateToxicShield_exact shieldedSuit 1).1
    (by simp [shieldedSuit, EVA.construct]) (by norm_num [shieldedSuit, EVA.construct])
    (by norm_num [shieldedSuit, EVA.construct])]
  norm_num [shieldedSuit, EVA.construct]

/-! ### Gravity on the suit and on the ship -/

theorem EVA.ApplyGravityEffects_cases (s : EVA) (g simdt : ℚ) :
    (g > 25 →
      (EVA.ApplyGravityEffects s g simdt).health = 0 ∧
      (EVA.ApplyGravityEffects s g simdt).suitIntegrity = 0) ∧
    (g ≤ 25 → (0 ≤ s.health ∧ s.health ≤ 1) → (0 ≤ s.suitIntegrity ∧ s.suitIntegrity ≤ 1) →
      0 ≤ s.suitOxygen →
      (EVA.ApplyGravityEffects s g 0).health = s.health ∧
      (EVA.ApplyGravityEffects s g 0).suitIntegrity = s.suitIntegrity ∧
      (EVA.ApplyGravityEffects s g 0).suitOxygen = s.suitOxygen) := by
  constructor
  · intro hg
    have h3 : g > 25.0 := by norm_num; exact hg
    simp only [EVA.ApplyGravityEffects, if_pos h3]
    norm_num [Clamp]
  · intro hg hh hs ho
    have h3 : ¬ g > 25.0 := by norm_num; exact hg
    simp only [EVA.ApplyGravityEffects, if_neg h3]
    refine ⟨?_, ?_, ?_⟩
    · split_ifs <;> (try simp only [mul_zero, zero_mul, sub_zero]) <;>
        exact Clamp_unit_id _ hh.1 hh.2
    · split_ifs <;> (try simp only [mul_zero, zero_mul, sub_zero]) <;>
        exact Clamp_unit_id _ hs.1 hs.2
    · split_ifs <;> simp only [mul_zero, zero_mul, sub_zero] at * <;>
        first | rfl | (exfalso; norm_num at *; linarith)


/-- C17. EVA extreme gravity is an instant failure and only extreme gravity is: for
every EVA state and every `simdt`, `g > 25` leaves `health = 0` and `suitIntegrity = 0`
after `ApplyGravityEffects`; and for every state the EVA object can be in with `health`
and `suitIntegrity` in [0,1], every `g <= 25` and `simdt = 0`, `ApplyGravityEffects`
leaves `health`, `suitIntegrity` and `suitOxygen` unchanged. -/
theorem EVA_ApplyGravityEffects_extreme (s : EVA) (g simdt : ℚ) :
    (g > 25 →
      (EVA.ApplyGravityEffects s g simdt).health = 0 ∧
      (EVA.ApplyGravityEffects s g simdt).suitIntegrity = 0) ∧
    (EVA.Reachable s → g ≤ 25 → (0 ≤ s.health ∧ s.health ≤ 1) →
      (0 ≤ s.suitIntegrity ∧ s.suitIntegrity ≤ 1) →
      (EVA.ApplyGravityEffects s g 0).health = s.health ∧
      (EVA.ApplyGravityEffects s g 0).suitIntegrity = s.suitIntegrity ∧
      (EVA.ApplyGravityEffects s g 0).suitOxygen = s.suitOxygen) :=
  ⟨(EVA.ApplyGravityEffects_cases s g simdt).1,
    fun hr hg hh hs =>
      (EVA.ApplyGravityEffects_cases s g simdt).2 hg hh hs hr.sound.2.2.2.2⟩

/-- Witness for C17: the suit one frame after construction, 1 km below the reference
radius of Jupiter (health 0.9877, suit integrity 0.994, oxygen 596.6), at the boundary
`g = 25` with `simdt = 0`. -/
theorem EVA_ApplyGravityEffects_extreme_witness :
    (EVA.ApplyGravityEffects (EVA.clbkPreStep EVA.construct jupiterDiveEVA 1) 25 0).health
      = (EVA.clbkPreStep EVA.construct jupiterDiveEVA 1).health ∧
    (EVA.ApplyGravityEffects (EVA.clbkPreStep EVA.construct jupiterDiveEVA 1) 25
      0).suitIntegrity = (EVA.clbkPreStep EVA.construct jupiterDiveEVA 1).suitIntegrity ∧
    (EVA.ApplyGravityEffects (EVA.clbkPreStep EVA.construct jupiterDiveEVA 1) 25
      0).suitOxygen = (EVA.clbkPreStep EVA.construct jupiterDiveEVA 1).suitOxygen :=
  (EVA_ApplyGravityEffects_extreme (EVA.clbkPreStep EVA.construct jupiterDiveEVA 1) 25 0).2
    (EVA.Reachable.step orbiterKeys EVA.construct (EVA.Event.frame jupiterDiveEVA 1)
      EVA.Reachable.construct)
    (by norm_num) (EVA.clbkPreStep_unit EVA.construct jupiterDiveEVA 1).1
    (EVA.clbkPreStep_unit EVA.construct jupiterDiveEVA 1).2

theorem SurvivalShip.stressMild_hull (s : SurvivalShip) (simdt g : ℚ) (hdt : 0 ≤ simdt) :
    s.hullIntegrity - max (g - 12) 0 * 0.0005 * simdt
      ≤ (SurvivalShip.stressMild s simdt g).hullIntegrity ∧
    (SurvivalShip.stressMild s simdt g).hullIntegrity ≤ s.hullIntegrity := by
  have hm : 0 ≤ max (g - 12) 0 * 0.0005 * simdt :=
    mul_nonneg (mul_nonneg (le_max_right _ _) (by norm_num)) hdt
  simp only [SurvivalShip.stressMild]
  split_ifs with h1 h2
  · have hmax : max (g - 12) 0 = g - 12 := max_eq_left (by norm_num at h1; linarith [h1.1])
    rw [hmax] at hm ⊢
    refine ⟨?_, ?_⟩ <;> simp only [] <;> norm_num at hm ⊢ <;> nlinarith
  · have hmax : max (g - 12) 0 = g - 12 := max_eq_left (by norm_num at h1; linarith [h1.1])
    rw [hmax] at hm ⊢
    refine ⟨?_, ?_⟩ <;> simp only [] <;> norm_num at hm ⊢ <;> nlinarith
  · exact ⟨by linarith, le_refl _⟩

theorem SurvivalShip.stressExtreme_hull (s : SurvivalShip) (simdt g : ℚ) (hdt : 0 ≤ simdt) :
    s.hullIntegrity - max (g - 25) 0 * 0.005 * simdt
      ≤ (SurvivalShip.stressExtreme s simdt g).hullIntegrity ∧
    (SurvivalShip.stressExtreme s simdt g).hullIntegrity ≤ s.hullIntegrity := by
  have hm : 0 ≤ max (g - 25) 0 * 0.005 * simdt :=
    mul_nonneg (mul_nonneg (le_max_right _ _) (by norm_num)) hdt
  simp only [SurvivalShip.stressExtreme]
  split_ifs with h1 h2
  · have hmax : max (g - 25) 0 = g - 25 := max_eq_left (by norm_num at h1; linarith)
    rw [hmax] at hm ⊢
    refine ⟨?_, ?_⟩ <;> simp only [] <;> norm_num at hm ⊢ <;> nlinarith
  · have hmax : max (g - 25) 0 = g - 25 := max_eq_left (by norm_num at h1; linarith)
    rw [hmax] at hm ⊢
    refine ⟨?_, ?_⟩ <;> simp only [] <;> norm_num at hm ⊢ <;> nlinarith
  · exact ⟨by linarith, le_refl _⟩

theorem SurvivalShip.ApplyGravityBuckling_hull (s : SurvivalShip) (simdt g : ℚ)
    (hdt : 0 ≤ simdt) :
    s.hullIntegrity - (max (g - 18) 0 / 10) ^ 2 * 0.002 * simdt
      ≤ (SurvivalShip.ApplyGravityBuckling s simdt g).hullIntegrity := by
  have hm : 0 ≤ (max (g - 18) 0 / 10) ^ 2 * 0.002 * simdt :=
    mul_nonneg (mul_nonneg (sq_nonneg _) (by norm_num)) hdt
  simp only [SurvivalShip.ApplyGravityBuckling, SurvivalShip.bucklingLoad]
  split_ifs with h1 h2 h3 h3
  · linarith
  all_goals
    have hmax : max (g - 18) 0 = g - 18 := max_eq_left (by norm_num at h1; linarith)
    rw [hmax]
    simp only []
    norm_num

theorem SurvivalShip.stressMild_zero (s : SurvivalShip) (g : ℚ) (ho : 0 ≤ s.internalOxygen) :
    SurvivalShip.stressMild s 0 g = s := by
  simp only [SurvivalShip.stressMild]
  split_ifs with h1 h2
  · simp only [zero_mul, sub_zero] at h2
    exact absurd ho (by norm_num at h2 ⊢; exact h2)
  · simp only [zero_mul, sub_zero]
  · rfl

theorem SurvivalShip.stressExtreme_zero (s : SurvivalShip) (g : ℚ)
    (hp : 0 ≤ s.internalPressure) :
    SurvivalShip.stressExtreme s 0 g = s := by
  simp only [SurvivalShip.stressExtreme]
  split_ifs with h1 h2
  · simp only [mul_zero, sub_zero] at h2
    exact absurd hp (by norm_num at h2 ⊢; exact h2)
  · simp only [mul_zero, sub_zero]
    norm_num
  · rfl

theorem SurvivalShip.ApplyGravityBuckling_zero (s : SurvivalShip) (g : ℚ)
    (hp : 0 ≤ s.internalPressure) (hc : 0 ≤ s.computerHealth) :
    SurvivalShip.ApplyGravityBuckling s 0 g = s := by
  have hload : SurvivalShip.bucklingLoad s 0 g = s := by
    simp only [SurvivalShip.bucklingLoad, mul_zero, sub_zero]
    norm_num
  simp only [SurvivalShip.ApplyGravityBuckling, hload]
  split_ifs with h1 h2 h3 h3
  · rfl
  · exact absurd hp (by norm_num at h2 ⊢; exact h2)
  · exact absurd hp (by norm_num at h2 ⊢; exact h2)
  · exact absurd hc (by norm_num at h3 ⊢; exact h3)
  · rfl

theorem SurvivalShip.ApplyGravityStress_zero (s : SurvivalShip) (g : ℚ)
    (hh : 0 ≤ s.hullIntegrity ∧ s.hullIntegrity ≤ 1) (hp : 0 ≤ s.internalPressure)
    (ho : 0 ≤ s.internalOxygen) (hc : 0 ≤ s.computerHealth) :
    SurvivalShip.ApplyGravityStress s 0 g = s := by
  simp only [SurvivalShip.ApplyGravityStress, SurvivalShip.stressMild_zero s g ho,
    SurvivalShip.stressExtreme_zero s g hp, Clamp_unit_id _ hh.1 hh.2]
  exact SurvivalShip.ApplyGravityBuckling_zero s g hp hc

theorem SurvivalShip.ApplyGravityStress_extreme_hull (s : SurvivalShip) (g simdt : ℚ)
    (hh : 0 ≤ s.hullIntegrity ∧ s.hullIntegrity ≤ 1) (hdt : 0 ≤ simdt) (hg : 25 < g)
    (hroom : 0 ≤ s.hullIntegrity - (g - 25) * 0.005 * simdt) :
    (SurvivalShip.ApplyGravityStress s simdt g).hullIntegrity
      = s.hullIntegrity - ((g - 25) * 0.005 + ((g - 18) / 10) ^ 2 * 0.002) * simdt := by
  have h1 : ¬ (g > 12.0 ∧ g ≤ 25.0) := fun hx => absurd hx.2 (by norm_num; exact hg)
  have h2 : g > 25.0 := by norm_num; exact hg
  have h3 : ¬ g ≤ 18.0 := by norm_num; linarith
  have hf : 0 ≤ (g - 25) * 0.005 * simdt :=
    mul_nonneg (mul_nonneg (by linarith) (by norm_num)) hdt
  have hid : Clamp (s.hullIntegrity - (g - 25.0) * 0.005 * simdt) 0.0 1.0
      = s.hullIntegrity - (g - 25) * 0.005 * simdt := by
    have := Clamp_unit_id (s.hullIntegrity - (g - 25) * 0.005 * simdt) hroom (by linarith)
    norm_num at this ⊢
    exact this
  simp only [SurvivalShip.ApplyGravityStress, SurvivalShip.stressMild,
    SurvivalShip.stressExtreme, SurvivalShip.ApplyGravityBuckling, SurvivalShip.bucklingLoad,
    if_neg h1, if_pos h2, if_neg h3]
  split_ifs <;> simp only [hid] <;> norm_num <;> ring

/-- C18. Ship extreme gravity is damage over time, never an instant kill: for every
`g`, every state with `hullIntegrity` in [0,1] and every `simdt >= 0`,
`ApplyGravityStress` (buckling included) lowers `hullIntegrity` by at most
`(max(g-25,0)*0.005 + max(g-12,0)*0.0005 + (max(g-18,0)/10)^2*0.002) * simdt`; for
`g > 25`, as long as the extreme-gravity term leaves the hull above 0, the loss is
exactly `((g-25)*0.005 + ((g-18)/10)^2*0.002) * simdt`; and with `simdt = 0`, in every
state the ship object can be in, it leaves the whole state unchanged for every `g`,
`hullIntegrity`, `internalPressure`, `internalOxygen` and `computerHealth` among it. -/
theorem SurvivalShip_ApplyGravityStress_bound (s : SurvivalShip) (g simdt : ℚ)
    (hh : 0 ≤ s.hullIntegrity ∧ s.hullIntegrity ≤ 1) (hdt : 0 ≤ simdt) :
    s.hullIntegrity
        - (max (g - 25) 0 * 0.005 + max (g - 12) 0 * 0.0005
            + (max (g - 18) 0 / 10) ^ 2 * 0.002) * simdt
      ≤ (SurvivalShip.ApplyGravityStress s simdt g).hullIntegrity ∧
    (25 < g → 0 ≤ s.hullIntegrity - (g - 25) * 0.005 * simdt →
      (SurvivalShip.ApplyGravityStress s simdt g).hullIntegrity
        = s.hullIntegrity - ((g - 25) * 0.005 + ((g - 18) / 10) ^ 2 * 0.002) * simdt) ∧
    (SurvivalShip.Reachable s →
      SurvivalShip.ApplyGravityStress s 0 g = s ∧
      (SurvivalShip.ApplyGravityStress s 0 g).hullIntegrity = s.hullIntegrity ∧
      (SurvivalShip.ApplyGravityStress s 0 g).internalPressure = s.internalPressure ∧
      (SurvivalShip.ApplyGravityStress s 0 g).internalOxygen = s.internalOxygen ∧
      (SurvivalShip.ApplyGravityStress s 0 g).computerHealth = s.computerHealth) := by
  refine ⟨?_, SurvivalShip.ApplyGravityStress_extreme_hull s g simdt hh hdt, ?_⟩
  · have h1 := SurvivalShip.stressMild_hull s simdt g hdt
    have h2 := SurvivalShip.stressExtreme_hull (SurvivalShip.stressMild s simdt g) simdt g hdt
    have hle : (SurvivalShip.stressExtreme (SurvivalShip.stressMild s simdt g) simdt
        g).hullIntegrity ≤ 1 := le_trans h2.2 (le_trans h1.2 hh.2)
    have h3 : (SurvivalShip.stressExtreme (SurvivalShip.stressMild s simdt g) simdt
          g).hullIntegrity
        ≤ Clamp (SurvivalShip.stressExtreme (SurvivalShip.stressMild s simdt g) simdt
          g).hullIntegrity 0.0 1.0 := by
      unfold Clamp
      split_ifs with ha hb
      · norm_num at ha ⊢; linarith
      · norm_num at hb; linarith
      · exact le_refl _
    have h4 := SurvivalShip.ApplyGravityBuckling_hull
      { SurvivalShip.stressExtreme (SurvivalShip.stressMild s simdt g) simdt g with
        hullIntegrity := Clamp (SurvivalShip.stressExtreme
          (SurvivalShip.stressMild s simdt g) simdt g).hullIntegrity 0.0 1.0 } simdt g hdt
    simp only [SurvivalShip.ApplyGravityStress]
    simp only [] at h4
    linarith
  · intro hr
    obtain ⟨_, hp, ho, hc, _⟩ := hr.shipSound
    have hz := SurvivalShip.ApplyGravityStress_zero s g hh hp ho hc
    exact ⟨hz, by rw [hz], by rw [hz], by rw [hz], by rw [hz]⟩

/-- Witness for C18: the ship after `clbkSetClassCaps` under 30 m/s² for one second.
The hull goes from 1 to 0.97212, inside the bound of 0.03688. -/
theorem SurvivalShip_ApplyGravityStress_bound_witness :
    (SurvivalShip.clbkSetClassCaps SurvivalShip.construct).hullIntegrity
        - (max ((30 : ℚ) - 25) 0 * 0.005 + max ((30 : ℚ) - 12) 0 * 0.0005
            + (max ((30 : ℚ) - 18) 0 / 10) ^ 2 * 0.002) * 1
      ≤ (SurvivalShip.ApplyGravityStress
          (SurvivalShip.clbkSetClassCaps SurvivalShip.construct) 1 30).hullIntegrity ∧
    (SurvivalShip.ApplyGravityStress
        (SurvivalShip.clbkSetClassCaps SurvivalShip.construct) 1 30).hullIntegrity
      = (SurvivalShip.clbkSetClassCaps SurvivalShip.construct).hullIntegrity
        - (((30 : ℚ) - 25) * 0.005 + (((30 : ℚ) - 18) / 10) ^ 2 * 0.002) * 1 ∧
    SurvivalShip.ApplyGravityStress
        (SurvivalShip.clbkSetClassCaps SurvivalShip.construct) 0 30
      = SurvivalShip.clbkSetClassCaps SurvivalShip.construct :=
  ⟨(SurvivalShip_ApplyGravityStress_bound
      (SurvivalShip.clbkSetClassCaps SurvivalShip.construct) 30 1
      (by norm_num [SurvivalShip.clbkSetClassCaps, SurvivalShip.construct])
      (by norm_num)).1,
    (SurvivalShip_ApplyGravityStress_bound
      (SurvivalShip.clbkSetClassCaps SurvivalShip.construct) 30 1
      (by norm_num [SurvivalShip.clbkSetClassCaps, SurvivalShip.construct])
      (by norm_num)).2.1 (by norm_num)
      (by norm_num [SurvivalShip.clbkSetClassCaps, SurvivalShip.construct]),
    ((SurvivalShip_ApplyGravityStress_bound
      (SurvivalShip.clbkSetClassCaps SurvivalShip.construct) 30 1
      (by norm_num [SurvivalShip.clbkSetClassCaps, SurvivalShip.construct])
      (by norm_num)).2.2
      (SurvivalShip.Reachable.caps _ SurvivalShip.Reachable.construct)).1⟩

/-! ### Hover mode -/

theorem SurvivalShip.UpdateHoverMode_cases (s : SurvivalShip) (h : ShipHost) (simdt g : ℚ)
    (hon : s.hoverMode = true) (hth : s.th_main = true) (hph : s.ph_main = true) :
    (0.3 ≤ s.computerHealth → 0.1 ≤ g → 0.1 ≤ h.cosAngle →
      (SurvivalShip.UpdateHoverMode s h simdt g).mainLevel
        = Clamp (h.mass * g / (s.mainMaxThrust * h.cosAngle)) 0 1) ∧
    (0.3 ≤ s.computerHealth → 0.1 ≤ g → 0.1 ≤ h.cosAngle → 0 ≤ h.mass →
      h.mass * g ≤ s.mainMaxThrust * h.cosAngle →
      (SurvivalShip.UpdateHoverMode s h simdt g).mainLevel * s.mainMaxThrust * h.cosAngle
        = h.mass * g) ∧
    ((g < 0.1 ∨ h.cosAngle < 0.1) →
      (SurvivalShip.UpdateHoverMode s h simdt g).mainLevel = 0) ∧
    (0 ≤ (SurvivalShip.UpdateHoverMode s h simdt g).mainLevel ∧
      (SurvivalShip.UpdateHoverMode s h simdt g).mainLevel ≤ 1) := by
  have h1 : ¬ s.hoverMode = false := by simp [hon]
  have h2 : ¬ (s.th_main = false ∨ s.ph_main = false) := by simp [hth, hph]
  have hlevel : 0.3 ≤ s.computerHealth → 0.1 ≤ g → 0.1 ≤ h.cosAngle →
      (SurvivalShip.UpdateHoverMode s h simdt g).mainLevel
        = Clamp (h.mass * g / (s.mainMaxThrust * h.cosAngle)) 0 1 := by
    intro hc hg hcos
    have h3 : ¬ (s.computerHealth < 0.3 ∧ h.randHover < 0.3 * simdt) :=
      fun hx => absurd hx.1 (not_lt.mpr hc)
    have h4 : ¬ g < 0.1 := not_lt.mpr hg
    have h5 : ¬ h.cosAngle < 0.1 := not_lt.mpr hcos
    simp only [SurvivalShip.UpdateHoverMode, if_neg h1, if_neg h2, if_neg h3, if_neg h4,
      if_neg h5]
    norm_num
  refine ⟨hlevel, ?_, ?_, ?_⟩
  · intro hc hg hcos hm hle
    rw [hlevel hc hg hcos]
    have hw : 0 ≤ h.mass * g := mul_nonneg hm (le_trans (by norm_num) hg)
    rcases eq_or_lt_of_le (le_trans hw hle) with hz | hpos
    · have hw0 : h.mass * g = 0 := le_antisymm (by rw [hz]; exact hle) hw
      rw [← hz, hw0]
      norm_num [Clamp]
    · have hr0 : 0 ≤ h.mass * g / (s.mainMaxThrust * h.cosAngle) :=
        div_nonneg hw (le_of_lt hpos)
      have hr1 : h.mass * g / (s.mainMaxThrust * h.cosAngle) ≤ 1 :=
        (div_le_one hpos).mpr hle
      have hid : Clamp (h.mass * g / (s.mainMaxThrust * h.cosAngle)) 0 1
          = h.mass * g / (s.mainMaxThrust * h.cosAngle) := by
        have := Clamp_unit_id _ hr0 hr1
        norm_num at this
        exact this
      rw [hid, mul_assoc]
      exact div_mul_cancel₀ _ (ne_of_gt hpos)
  · intro hlow
    simp only [SurvivalShip.UpdateHoverMode, if_neg h1, if_neg h2]
    rcases hlow with hg | hcos
    · split_ifs <;> (try simp only []) <;> norm_num
    · split_ifs <;> (try simp only []) <;> norm_num
  · simp only [SurvivalShip.UpdateHoverMode, if_neg h1, if_neg h2]
    split_ifs <;> (try simp only []) <;> first | (norm_num; done) | exact Clamp_unit _


/-- C16. Hover mode holds the ship against gravity: in every state the ship object can
be in with hover mode on and the thruster and propellant handles present, when
`computerHealth >= 0.3`, `g >= 0.1` and `cosAngle >= 0.1`, `UpdateHoverMode` sets the
main thruster level to `Clamp (mass*g / (mainMaxThrust*cosAngle)) 0 1`, the divisor
being positive; hence whenever `mass*g <= mainMaxThrust*cosAngle` the vertical thrust
`level*mainMaxThrust*cosAngle` equals the weight `mass*g`, for every mass the host can
report (`GetMass()` is the empty mass, set to 20000 kg by `clbkSetClassCaps`, plus the
propellant mass, so it is not negative).  When `g < 0.1` or `cosAngle < 0.1` the level
is set to 0, and the level set is always in [0,1]. -/
theorem SurvivalShip_UpdateHoverMode_level (s : SurvivalShip) (h : ShipHost) (simdt g : ℚ)
    (hr : SurvivalShip.Reachable s)
    (hon : s.hoverMode = true) (hth : s.th_main = true) (hph : s.ph_main = true) :
    (0.3 ≤ s.computerHealth → 0.1 ≤ g → 0.1 ≤ h.cosAngle →
      0 < s.mainMaxThrust * h.cosAngle ∧
      (SurvivalShip.UpdateHoverMode s h simdt g).mainLevel
        = Clamp (h.mass * g / (s.mainMaxThrust * h.cosAngle)) 0 1) ∧
    (0.3 ≤ s.computerHealth → 0.1 ≤ g → 0.1 ≤ h.cosAngle → 0 ≤ h.mass →
      h.mass * g ≤ s.mainMaxThrust * h.cosAngle →
      (SurvivalShip.UpdateHoverMode s h simdt g).mainLevel * s.mainMaxThrust * h.cosAngle
        = h.mass * g) ∧
    ((g < 0.1 ∨ h.cosAngle < 0.1) →
      (SurvivalShip.UpdateHoverMode s h simdt g).mainLevel = 0) ∧
    (0 ≤ (SurvivalShip.UpdateHoverMode s h simdt g).mainLevel ∧
      (SurvivalShip.UpdateHoverMode s h simdt g).mainLevel ≤ 1) := by
  have hc := SurvivalShip.UpdateHoverMode_cases s h simdt g hon hth hph
  have ht := hr.shipSound.1
  refine ⟨fun h1 h2 h3 => ⟨?_, hc.1 h1 h2 h3⟩, hc.2.1, hc.2.2.1, hc.2.2.2⟩
  rw [ht]
  exact mul_pos (by norm_num) (lt_of_lt_of_le (by norm_num) h3)

/-- The ship after `clbkSetClassCaps` and one press of the H key has hover mode on. -/
theorem hoveringShip_reachable : SurvivalShip.Reachable hoveringShip :=
  SurvivalShip.Reachable.step orbiterKeys
    (SurvivalShip.clbkSetClassCaps SurvivalShip.construct)
    (SurvivalShip.Event.key 0x23 true)
    (SurvivalShip.Reachable.caps _ SurvivalShip.Reachable.construct) trivial

/-- Witness for C16: 40 t hovering under Earth gravity on 600 kN, after
`clbkSetClassCaps` and one press of the H key. -/
theorem SurvivalShip_UpdateHoverMode_level_witness :
    (SurvivalShip.UpdateHoverMode hoveringShip earthHover 1 9.81).mainLevel
        * hoveringShip.mainMaxThrust * earthHover.cosAngle
      = earthHover.mass * 9.81 :=
  (SurvivalShip_UpdateHoverMode_level hoveringShip earthHover 1 9.81
    hoveringShip_reachable
    (by simp [hoveringShip]) (by simp [hoveringShip, SurvivalShip.clbkSetClassCaps])
    (by simp [hoveringShip, SurvivalShip.clbkSetClassCaps])).2.1
    (by norm_num [hoveringShip, SurvivalShip.clbkSetClassCaps, SurvivalShip.construct])
    (by norm_num) (by norm_num [earthHover, highGravity])
    (by norm_num [earthHover, highGravity])
    (by norm_num [earthHover, highGravity, hoveringShip, SurvivalShip.clbkSetClassCaps,
      SurvivalShip.construct])

/-! ### Suit temperature limits -/

theorem EVA.envTemperatureDamage_band (s : EVA) (simdt : ℚ)
    (hint : s.suitInternalTemp = 20) (hcool : s.suitCoolingPower = 5)
    (hheat : s.suitHeatingPower = 5) (hlo : s.maxSafeTempLow = -40)
    (hhi : s.maxSafeTempHigh = 60)
    (h1 : -25 ≤ s.envTemperature) (h2 : s.envTemperature ≤ 85) :
    EVA.envTemperatureDamage s simdt = s := by
  have hd : -40 ≤ EVA.envTempDelta s ∧ EVA.envTempDelta s ≤ 60 := by
    simp only [EVA.envTempDelta, hint, hcool, hheat]
    split_ifs <;> norm_num at * <;> constructor <;> linarith
  have ha : ¬ EVA.envTempDelta s > s.maxSafeTempHigh := by rw [hhi]; exact not_lt.mpr hd.2
  have hb : ¬ EVA.envTempDelta s < s.maxSafeTempLow := by rw [hlo]; exact not_lt.mpr hd.1
  simp only [EVA.envTemperatureDamage, if_neg ha, if_neg hb]

theorem EVA.SameThermal.thermalTrans {s t u : EVA} (h1 : EVA.SameThermal s t)
    (h2 : EVA.SameThermal t u) : EVA.SameThermal s u :=
  ⟨h2.1.trans h1.1, h2.2.1.trans h1.2.1, h2.2.2.1.trans h1.2.2.1,
    h2.2.2.2.1.trans h1.2.2.2.1, h2.2.2.2.2.1.trans h1.2.2.2.2.1,
    h2.2.2.2.2.2.trans h1.2.2.2.2.2⟩

theorem EVA.envOxygen_thermal (s : EVA) (simdt : ℚ) :
    EVA.SameThermal s (EVA.envOxygen s simdt) := by
  simp only [EVA.envOxygen]
  split_ifs <;> exact ⟨rfl, rfl, rfl, rfl, rfl, rfl⟩

theorem EVA.envPressureDamage_thermal (s : EVA) (simdt : ℚ) :
    EVA.SameThermal s (EVA.envPressureDamage s simdt) := by
  simp only [EVA.envPressureDamage]
  split_ifs <;> exact ⟨rfl, rfl, rfl, rfl, rfl, rfl⟩

theorem EVA.envRadiationDamage_thermal (s : EVA) (simdt : ℚ) :
    EVA.SameThermal s (EVA.envRadiationDamage s simdt) := by
  simp only [EVA.envRadiationDamage]
  split_ifs <;> exact ⟨rfl, rfl, rfl, rfl, rfl, rfl⟩

theorem EVA.envToxicityDamage_thermal (s : EVA) (simdt : ℚ) :
    EVA.SameThermal s (EVA.envToxicityDamage s simdt) := by
  simp only [EVA.envToxicityDamage]
  split_ifs <;> exact ⟨rfl, rfl, rfl, rfl, rfl, rfl⟩

theorem EVA.envGasGiantDamage_thermal (s : EVA) (simdt : ℚ) :
    EVA.SameThermal s (EVA.envGasGiantDamage s simdt) := by
  simp only [EVA.envGasGiantDamage]
  split_ifs <;> exact ⟨rfl, rfl, rfl, rfl, rfl, rfl⟩

theorem EVA.beforeTemperature_thermal (s : EVA) (simdt : ℚ) :
    EVA.SameThermal s (EVA.beforeTemperature s simdt) :=
  ((((EVA.envOxygen_thermal s simdt).thermalTrans
    (EVA.envPressureDamage_thermal _ simdt)).thermalTrans
    (EVA.envRadiationDamage_thermal _ simdt)).thermalTrans
    (EVA.envToxicityDamage_thermal _ simdt)).thermalTrans
    (EVA.envGasGiantDamage_thermal _ simdt)

/-- Outside the band the temperature block does act: below -25 °C the cold stress
`(-25 - envTemperature) * 0.001` per second is taken from `health`. -/
theorem EVA.envTemperatureDamage_cold (s : EVA) (simdt : ℚ)
    (hint : s.suitInternalTemp = 20) (hheat : s.suitHeatingPower = 5)
    (hlo : s.maxSafeTempLow = -40) (hhi : s.maxSafeTempHigh = 60)
    (h1 : s.envTemperature < -25) :
    (EVA.envTemperatureDamage s simdt).health
      = s.health - (-25 - s.envTemperature) * 0.001 * simdt := by
  have hd : EVA.envTempDelta s = s.envTemperature - 15 := by
    simp only [EVA.envTempDelta, hint, hheat]
    split_ifs <;> norm_num at * <;> linarith
  have ha : ¬ EVA.envTempDelta s > s.maxSafeTempHigh := by rw [hhi, hd]; norm_num; linarith
  have hb : EVA.envTempDelta s < s.maxSafeTempLow := by rw [hlo, hd]; linarith
  simp only [EVA.envTemperatureDamage, if_neg ha, if_pos hb]
  rw [hd, hlo]
  ring

/-- C19, amended. For a living astronaut with the constructed suit constants (internal
temperature 20 °C, cooling and heating power 5, limits -40 °C and 60 °C),
`EVA::ApplyEnvironmentEffects` applies no temperature damage whenever `envTemperature`
lies between -25 and 85 °C: the block `// Temperature` leaves the state it is given
unchanged, on its own and where `ApplyEnvironmentEffects` runs it, so the result of
`ApplyEnvironmentEffects` is that of the other blocks alone. -/
theorem EVA_temperature_damage_band (s : EVA) (h : EVAHost) (simdt : ℚ)
    (halive : 0 < s.health ∧ 0 < s.suitIntegrity)
    (hint : s.suitInternalTemp = 20) (hcool : s.suitCoolingPower = 5)
    (hheat : s.suitHeatingPower = 5) (hlo : s.maxSafeTempLow = -40)
    (hhi : s.maxSafeTempHigh = 60)
    (h1 : -25 ≤ s.envTemperature) (h2 : s.envTemperature ≤ 85) :
    EVA.envTemperatureDamage s simdt = s ∧
    EVA.envTemperatureDamage (EVA.beforeTemperature s simdt) simdt
      = EVA.beforeTemperature s simdt ∧
    EVA.ApplyEnvironmentEffects s h simdt
      = { EVA.ApplyGravityEffects (EVA.beforeTemperature s simdt) h.g simdt with
          suitIntegrity :=
            Clamp (EVA.ApplyGravityEffects (EVA.beforeTemperature s simdt) h.g
              simdt).suitIntegrity 0.0 1.0,
          health :=
            Clamp (EVA.ApplyGravityEffects (EVA.beforeTemperature s simdt) h.g
              simdt).health 0.0 1.0 } := by
  obtain ⟨e1, e2, e3, e4, e5, e6⟩ := EVA.beforeTemperature_thermal s simdt
  have hb : EVA.envTemperatureDamage (EVA.beforeTemperature s simdt) simdt
      = EVA.beforeTemperature s simdt :=
    EVA.envTemperatureDamage_band _ simdt (e2.trans hint) (e3.trans hcool) (e4.trans hheat)
      (e5.trans hlo) (e6.trans hhi) (by rw [e1]; exact h1) (by rw [e1]; exact h2)
  refine ⟨EVA.envTemperatureDamage_band s simdt hint hcool hheat hlo hhi h1 h2, hb, ?_⟩
  have hdead : ¬ (s.health ≤ 0.0 ∨ s.suitIntegrity ≤ 0.0) := by
    norm_num
    exact ⟨halive.1, halive.2⟩
  unfold EVA.beforeTemperature at hb
  simp only [EVA.ApplyEnvironmentEffects, if_neg hdead, EVA.beforeTemperature, hb]

/-- Witness for C19 (amended): the constructed suit at -25 °C, the lower end of the
band, over a one-second frame of `calmHost`. -/
theorem EVA_temperature_damage_band_witness :
    EVA.envTemperatureDamage
        (EVA.beforeTemperature { EVA.construct with envTemperature := -25 } 1) 1
      = EVA.beforeTemperature { EVA.construct with envTemperature := -25 } 1 :=
  (EVA_temperature_damage_band { EVA.construct with envTemperature := -25 } calmHost 1
    (by norm_num [EVA.construct]) (by norm_num [EVA.construct])
    (by norm_num [EVA.construct]) (by norm_num [EVA.construct])
    (by norm_num [EVA.construct]) (by norm_num [EVA.construct])
    (by norm_num) (by norm_num)).2.1

/-- Counterexample for C19 as stated. A frame of `coldFrame` gives the constructed suit
an environment of -40 °C, inside the stated safe range.  With the constructed constants
(limits -40 °C and 60 °C, internal temperature 20 °C, heating power 5) on a living
astronaut, the temperature block sees `delta = -40 - 20 + 5 = -55 < maxSafeTempLow` and
applies cold stress: after one second `health` is 0.985 and `suitIntegrity` 0.9925, in
the block alone and in the whole of `ApplyEnvironmentEffects`. -/
theorem EVA_temperature_damage_inside_limits :
    (EVA.UpdateEnvironment EVA.construct coldFrame 1).envTemperature = -40 ∧
    coldSuit.maxSafeTempLow = -40 ∧ coldSuit.maxSafeTempHigh = 60 ∧
    (-40 ≤ coldSuit.envTemperature ∧ coldSuit.envTemperature ≤ 60) ∧
    (0 < coldSuit.health ∧ 0 < coldSuit.suitIntegrity) ∧
    EVA.envTempDelta coldSuit = -55 ∧
    (EVA.envTemperatureDamage coldSuit 1).health = 197 / 200 ∧
    (EVA.envTemperatureDamage coldSuit 1).suitIntegrity = 397 / 400 ∧
    (EVA.ApplyEnvironmentEffects coldSuit calmHost 1).health = 197 / 200 ∧
    (EVA.ApplyEnvironmentEffects coldSuit calmHost 1).suitIntegrity = 397 / 400 ∧
    (EVA.ApplyEnvironmentEffects coldSuit calmHost 1).health < coldSuit.health ∧
    (EVA.ApplyEnvironmentEffects coldSuit calmHost 1).suitIntegrity
      < coldSuit.suitIntegrity := by
  norm_num [EVA.ApplyEnvironmentEffects, EVA.envOxygen, EVA.envPressureDamage,
    EVA.envRadiationDamage, EVA.envToxicityDamage, EVA.envEffectiveTox,
    EVA.envGasGiantDamage, EVA.envTemperatureDamage, EVA.envTempDelta,
    EVA.ApplyGravityEffects, EVA.UpdateEnvironment, EVA.ComputeVacuumTemperature,
    coldSuit, coldFrame, calmHost, EVA.construct, Clamp, PlanetHazardProfile.zeroInit]

/-! ### EVA: the stores over a run -/

theorem EVA.SameStores.trans {s t u : EVA} (h1 : EVA.SameStores s t)
    (h2 : EVA.SameStores t u) : EVA.SameStores s u :=
  ⟨h2.1.trans h1.1, h2.2.1.trans h1.2.1, h2.2.2.1.trans h1.2.2.1,
    h2.2.2.2.1.trans h1.2.2.2.1, h2.2.2.2.2.trans h1.2.2.2.2⟩

theorem EVA.StoresSafe.of_same {s t : EVA} (h : EVA.SameStores s t)
    (hs : EVA.StoresSafe s) : EVA.StoresSafe t := by
  obtain ⟨e1, e2, e3, e4, e5⟩ := h
  unfold EVA.StoresSafe EVA.StoresInRange at *
  rw [e1, e2, e3, e4, e5]
  exact hs

theorem EVA.sampleAtmosphere_same (s : EVA) (h : EVAHost) (alt : ℚ) :
    EVA.SameStores s (EVA.sampleAtmosphere s h alt) := by
  simp only [EVA.sampleAtmosphere]
  split_ifs <;> exact ⟨rfl, rfl, rfl, rfl, rfl⟩

theorem EVA.sampleToxicity_same (s : EVA) :
    EVA.SameStores s (EVA.sampleToxicity s) := by
  simp only [EVA.sampleToxicity]
  split_ifs <;> exact ⟨rfl, rfl, rfl, rfl, rfl⟩

theorem EVA.sampleTemperature_same (s : EVA) (h : EVAHost) (alt : ℚ) :
    EVA.SameStores s (EVA.sampleTemperature s h alt) := by
  simp only [EVA.sampleTemperature]
  split_ifs <;> exact ⟨rfl, rfl, rfl, rfl, rfl⟩

theorem EVA.UpdateEnvironment_same (s : EVA) (h : EVAHost) (simdt : ℚ) :
    EVA.SameStores s (EVA.UpdateEnvironment s h simdt) := by
  rcases hs : h.surfaceRef with _ | name
  · simp only [EVA.UpdateEnvironment, hs]
    exact ⟨rfl, rfl, rfl, rfl, rfl⟩
  · simp only [EVA.UpdateEnvironment, hs]
    refine EVA.SameStores.trans ?_ (EVA.sampleTemperature_same _ h _)
    refine EVA.SameStores.trans ?_ (EVA.sampleToxicity_same _)
    have h1 := EVA.sampleAtmosphere_same
      { s with underwater := false, inAtmosphere := false, inVacuum := false,
               currentProfile := GetPlanetHazardProfile name } h (h.rDist - h.radius)
    exact ⟨h1.1, h1.2.1, h1.2.2.1, h1.2.2.2.1, h1.2.2.2.2⟩

theorem EVA.envOxygen_same (s : EVA) (simdt : ℚ) :
    EVA.SameStores s (EVA.envOxygen s simdt) := by
  simp only [EVA.envOxygen]
  split_ifs <;> exact ⟨rfl, rfl, rfl, rfl, rfl⟩

theorem EVA.envPressureDamage_same (s : EVA) (simdt : ℚ) :
    EVA.SameStores s (EVA.envPressureDamage s simdt) := by
  simp only [EVA.envPressureDamage]
  split_ifs <;> exact ⟨rfl, rfl, rfl, rfl, rfl⟩

theorem EVA.envRadiationDamage_same (s : EVA) (simdt : ℚ) :
    EVA.SameStores s (EVA.envRadiationDamage s simdt) := by
  simp only [EVA.envRadiationDamage]
  split_ifs <;> exact ⟨rfl, rfl, rfl, rfl, rfl⟩

theorem EVA.envToxicityDamage_same (s : EVA) (simdt : ℚ) :
    EVA.SameStores s (EVA.envToxicityDamage s simdt) := by
  simp only [EVA.envToxicityDamage]
  split_ifs <;> exact ⟨rfl, rfl, rfl, rfl, rfl⟩

theorem EVA.envGasGiantDamage_same (s : EVA) (simdt : ℚ) :
    EVA.SameStores s (EVA.envGasGiantDamage s simdt) := by
  simp only [EVA.envGasGiantDamage]
  split_ifs <;> exact ⟨rfl, rfl, rfl, rfl, rfl⟩

theorem EVA.envTemperatureDamage_same (s : EVA) (simdt : ℚ) :
    EVA.SameStores s (EVA.envTemperatureDamage s simdt) := by
  simp only [EVA.envTemperatureDamage]
  split_ifs <;> exact ⟨rfl, rfl, rfl, rfl, rfl⟩

theorem EVA.ApplyGravityEffects_same (s : EVA) (g simdt : ℚ) :
    EVA.SameStores s (EVA.ApplyGravityEffects s g simdt) := by
  simp only [EVA.ApplyGravityEffects]
  split_ifs <;> exact ⟨rfl, rfl, rfl, rfl, rfl⟩

theorem EVA.ApplyEnvironmentEffects_same (s : EVA) (h : EVAHost) (simdt : ℚ) :
    EVA.SameStores s (EVA.ApplyEnvironmentEffects s h simdt) := by
  simp only [EVA.ApplyEnvironmentEffects]
  split_ifs
  · exact ⟨rfl, rfl, rfl, rfl, rfl⟩
  · have h7 := (((((((EVA.envOxygen_same s simdt).trans
      (EVA.envPressureDamage_same _ simdt)).trans
      (EVA.envRadiationDamage_same _ simdt)).trans
      (EVA.envToxicityDamage_same _ simdt)).trans
      (EVA.envGasGiantDamage_same _ simdt)).trans
      (EVA.envTemperatureDamage_same _ simdt)).trans
      (EVA.ApplyGravityEffects_same _ h.g simdt))
    exact ⟨h7.1, h7.2.1, h7.2.2.1, h7.2.2.2.1, h7.2.2.2.2⟩

theorem EVA.UpdateToxicShield_safe (s : EVA) (simdt : ℚ) (hdt : 0 ≤ simdt)
    (hs : EVA.StoresSafe s) : EVA.StoresSafe (EVA.UpdateToxicShield s simdt) := by
  obtain ⟨⟨hion, hinv, hsh0, hsh1⟩, hrate⟩ := hs
  have hcap : 0 ≤ s.toxicShieldCapacity := le_trans hsh0 hsh1
  simp only [EVA.UpdateToxicShield]
  split_ifs with h1 h2 h3 h4
  · exact ⟨⟨hion, hinv, hsh0, hsh1⟩, hrate⟩
  · exact ⟨⟨hion, hinv, by norm_num, by norm_num; exact hcap⟩, hrate⟩
  · exact ⟨⟨hion, hinv, by norm_num, by norm_num; exact hcap⟩, hrate⟩
  · have hd : 0 ≤ s.toxicShieldDrainRate * s.envToxicity * simdt :=
      mul_nonneg (mul_nonneg hrate (le_trans (by norm_num) (le_of_lt h3))) hdt
    refine ⟨⟨hion, hinv, ?_, ?_⟩, hrate⟩
    · simp only [] at h4 ⊢
      norm_num at h4
      linarith
    · simp only []
      linarith
  · exact ⟨⟨hion, hinv, hsh0, hsh1⟩, hrate⟩

theorem EVA.ApplyIonBatteryEffects_safe (s : EVA) (simdt : ℚ) (hs : EVA.StoresSafe s) :
    EVA.StoresSafe (EVA.ApplyIonBatteryEffects s simdt) := by
  obtain ⟨⟨hion, hinv, hsh⟩, hrate⟩ := hs
  have hcap : 0 ≤ s.ion.capacity := le_trans hion.1 hion.2
  simp only [EVA.ApplyIonBatteryEffects]
  split_ifs
  · exact ⟨⟨⟨by norm_num, by norm_num; exact hcap⟩, hinv, hsh⟩, hrate⟩
  · exact ⟨⟨hion, hinv, hsh⟩, hrate⟩
  · exact ⟨⟨⟨by norm_num, by norm_num; exact hcap⟩, hinv, hsh⟩, hrate⟩
  · exact ⟨⟨hion, hinv, hsh⟩, hrate⟩

theorem EVA.ApplyRandomMicrometeorites_safe (s : EVA) (h : EVAHost) (simdt : ℚ)
    (hs : EVA.StoresSafe s) : EVA.StoresSafe (EVA.ApplyRandomMicrometeorites s h simdt) := by
  obtain ⟨⟨hion, hinv, hsh⟩, hrate⟩ := hs
  simp only [EVA.ApplyRandomMicrometeorites]
  split_ifs <;> exact ⟨⟨hion, hinv, hsh⟩, hrate⟩

theorem EVA.clbkPreStep_safe (s : EVA) (h : EVAHost) (simdt : ℚ) (hdt : 0 ≤ simdt)
    (hs : EVA.StoresSafe s) : EVA.StoresSafe (EVA.clbkPreStep s h simdt) := by
  have h1 := EVA.StoresSafe.of_same (EVA.UpdateEnvironment_same s h simdt) hs
  have h2 := EVA.UpdateToxicShield_safe _ simdt hdt h1
  have h3 := EVA.ApplyIonBatteryEffects_safe _ simdt h2
  have h4 := EVA.StoresSafe.of_same (EVA.ApplyEnvironmentEffects_same _ h simdt) h3
  have h5 := EVA.ApplyRandomMicrometeorites_safe _ h simdt h4
  simp only [EVA.clbkPreStep]
  exact h5

theorem EVA.StoresWithin.of_sameStores {n : Nat} {s t : EVA} (h : EVA.SameStores s t)
    (hs : EVA.StoresWithin n s) : EVA.StoresWithin n t := by
  refine ⟨EVA.StoresSafe.of_same h hs.1, ?_⟩
  rw [h.2.1]
  exact hs.2

theorem EVA.StoresWithin.mono {n m : Nat} {s : EVA} (hmn : m ≤ n)
    (hs : EVA.StoresWithin n s) : EVA.StoresWithin m s := by
  refine ⟨hs.1, ?_⟩
  have := hs.2
  omega

theorem EVA.UpdateToxicShield_inventory (s : EVA) (simdt : ℚ) :
    (EVA.UpdateToxicShield s simdt).inventory = s.inventory := by
  simp only [EVA.UpdateToxicShield]
  split_ifs <;> rfl

theorem EVA.ApplyIonBatteryEffects_inventory (s : EVA) (simdt : ℚ) :
    (EVA.ApplyIonBatteryEffects s simdt).inventory = s.inventory := by
  simp only [EVA.ApplyIonBatteryEffects]
  split_ifs <;> rfl

theorem EVA.ApplyRandomMicrometeorites_inventory (s : EVA) (h : EVAHost) (simdt : ℚ) :
    (EVA.ApplyRandomMicrometeorites s h simdt).inventory = s.inventory := by
  simp only [EVA.ApplyRandomMicrometeorites]
  split_ifs <;> rfl

theorem EVA.clbkPreStep_inventory (s : EVA) (h : EVAHost) (simdt : ℚ) :
    (EVA.clbkPreStep s h simdt).inventory = s.inventory := by
  simp only [EVA.clbkPreStep]
  rw [EVA.ApplyRandomMicrometeorites_inventory, (EVA.ApplyEnvironmentEffects_same _ h simdt).2.1,
    EVA.ApplyIonBatteryEffects_inventory, EVA.UpdateToxicShield_inventory,
    (EVA.UpdateEnvironment_same s h simdt).2.1]

theorem EVA.clbkPreStep_within (n : Nat) (s : EVA) (h : EVAHost) (simdt : ℚ) (hdt : 0 ≤ simdt)
    (hs : EVA.StoresWithin n s) : EVA.StoresWithin n (EVA.clbkPreStep s h simdt) := by
  refine ⟨EVA.clbkPreStep_safe s h simdt hdt hs.1, ?_⟩
  rw [EVA.clbkPreStep_inventory]
  exact hs.2

/-- Mining uses one unit of the room left in the inventory. -/
theorem EVA.MineResource_within (n : Nat) (s : EVA) (hs : EVA.StoresWithin (n + 1) s) :
    EVA.StoresWithin n (EVA.MineResource s) := by
  obtain ⟨⟨⟨hion, hinv, hsh⟩, hrate⟩, hb⟩ := hs
  have hc0 : 0 ≤ s.inventory.Crystal.val := hinv.1
  have hi0 : 0 ≤ s.inventory.ION_CORE.val := hinv.2
  simp only [EVA.MineResource]
  split_ifs
  · exact ⟨⟨⟨hion, hinv, hsh⟩, hrate⟩, by omega⟩
  · exact ⟨⟨⟨hion, hinv, hsh⟩, hrate⟩, by omega⟩
  · have hv : (s.inventory.Crystal + 1).val = s.inventory.Crystal.val + 1 :=
      CInt.add_one_exact _ (by omega)
    refine ⟨⟨⟨hion, ⟨?_, hinv.2⟩, hsh⟩, hrate⟩, ?_⟩
    · show (0 : CInt).val ≤ (s.inventory.Crystal + 1).val
      rw [hv, CInt.val_zero]
      omega
    · show (s.inventory.Crystal + 1).val + 5 * s.inventory.ION_CORE.val + (n : Int)
        ≤ 2147483647
      rw [hv]
      omega

/-- Crafting turns 5 crystals into one ION core and uses no room. -/
theorem EVA.CraftIonCell_within (n : Nat) (s : EVA) (hs : EVA.StoresWithin n s) :
    EVA.StoresWithin n (EVA.CraftIonCell s) := by
  obtain ⟨⟨⟨hion, hinv, hsh⟩, hrate⟩, hb⟩ := hs
  have hc0 : 0 ≤ s.inventory.Crystal.val := hinv.1
  have hi0 : 0 ≤ s.inventory.ION_CORE.val := hinv.2
  by_cases hc : s.inventory.Crystal < 5
  · rw [(EVA.CraftIonCell_cases s).1 hc]
    exact ⟨⟨⟨hion, hinv, hsh⟩, hrate⟩, hb⟩
  · have h5 : (5 : Int) ≤ s.inventory.Crystal.val := by
      have := not_lt.mp hc
      rw [CInt.le_iff_val, CInt.val_five] at this
      exact this
    have hv1 : (s.inventory.Crystal - 5).val = s.inventory.Crystal.val - 5 :=
      CInt.sub_five_exact _ h5
    have hv2 : (s.inventory.ION_CORE + 1).val = s.inventory.ION_CORE.val + 1 :=
      CInt.add_one_exact _ (by omega)
    rw [(EVA.CraftIonCell_cases s).2 (not_lt.mp hc)]
    refine ⟨⟨⟨⟨?_, ?_⟩, ⟨?_, ?_⟩, hsh⟩, hrate⟩, ?_⟩
    · exact le_min (by linarith [hion.1]) (le_trans hion.1 hion.2)
    · exact min_le_right _ _
    · show (0 : CInt).val ≤ (s.inventory.Crystal - 5).val
      rw [hv1, CInt.val_zero]
      omega
    · show (0 : CInt).val ≤ (s.inventory.ION_CORE + 1).val
      rw [hv2, CInt.val_zero]
      omega
    · show (s.inventory.Crystal - 5).val + 5 * (s.inventory.ION_CORE + 1).val + (n : Int)
        ≤ 2147483647
      rw [hv1, hv2]
      omega

theorem EVA.RechargeToxicShieldFromIon_safe (s : EVA) (hs : EVA.StoresSafe s) :
    EVA.StoresSafe (EVA.RechargeToxicShieldFromIon s) := by
  obtain ⟨⟨hion, hinv, hsh⟩, hrate⟩ := hs
  by_cases hg : s.toxicShieldCharge ≥ s.toxicShieldCapacity ∨ s.ion.charge < 10
  · rw [(EVA.RechargeToxicShieldFromIon_cases s).1 hg]
    exact ⟨⟨hion, hinv, hsh⟩, hrate⟩
  · have hroom : s.toxicShieldCharge < s.toxicShieldCapacity :=
      not_le.mp (fun hx => hg (Or.inl hx))
    have hcharge : 10 ≤ s.ion.charge := not_lt.mp (fun hx => hg (Or.inr hx))
    rw [(EVA.RechargeToxicShieldFromIon_cases s).2.2 hroom hcharge]
    refine ⟨⟨⟨?_, ?_⟩, hinv, ⟨?_, ?_⟩⟩, hrate⟩
    · simp only []
      linarith
    · simp only []
      linarith [hion.2]
    · exact le_min (by linarith [hsh.1]) (le_trans hsh.1 hsh.2)
    · exact min_le_right _ _

theorem EVA.RechargeToxicShieldFromIon_inventory (s : EVA) :
    (EVA.RechargeToxicShieldFromIon s).inventory = s.inventory := by
  by_cases hg : s.toxicShieldCharge ≥ s.toxicShieldCapacity ∨ s.ion.charge < 10
  · rw [(EVA.RechargeToxicShieldFromIon_cases s).1 hg]
  · have hroom : s.toxicShieldCharge < s.toxicShieldCapacity :=
      not_le.mp (fun hx => hg (Or.inl hx))
    have hcharge : 10 ≤ s.ion.charge := not_lt.mp (fun hx => hg (Or.inr hx))
    rw [(EVA.RechargeToxicShieldFromIon_cases s).2.2 hroom hcharge]

theorem EVA.RechargeToxicShieldFromIon_within (n : Nat) (s : EVA)
    (hs : EVA.StoresWithin n s) : EVA.StoresWithin n (EVA.RechargeToxicShieldFromIon s) := by
  refine ⟨EVA.RechargeToxicShieldFromIon_safe s hs.1, ?_⟩
  rw [EVA.RechargeToxicShieldFromIon_inventory]
  exact hs.2

theorem EVA.step_within (k : KeyCodes) (n : Nat) (s : EVA) (e : EVA.Event)
    (he : e.TimeForward)
    (hs : EVA.StoresWithin (n + (if EVA.Event.isMining k e = true then 1 else 0)) s) :
    EVA.StoresWithin n (EVA.step k s e) := by
  cases e with
  | mine => exact EVA.MineResource_within n s hs
  | craft => exact EVA.CraftIonCell_within n s hs
  | recharge => exact EVA.RechargeToxicShieldFromIon_within n s hs
  | frame h simdt => exact EVA.clbkPreStep_within n s h simdt he hs
  | key key down vessels =>
    by_cases hk : key = k.keyM
    · have hs1 : EVA.StoresWithin (n + 1) s := by
        simpa [EVA.Event.isMining, hk] using hs
      simp only [EVA.step, EVA.clbkConsumeBufferedKey, if_pos hk]
      split_ifs
      · exact hs1.mono (Nat.le_succ n)
      · exact hs1.mono (Nat.le_succ n)
      · exact EVA.MineResource_within n s hs1
    · have hs0 : EVA.StoresWithin n s := by
        simpa [EVA.Event.isMining, hk] using hs
      simp only [EVA.step, EVA.clbkConsumeBufferedKey, if_neg hk]
      split_ifs
      · exact hs0
      · exact hs0
      · exact hs0
      · exact EVA.CraftIonCell_within n s hs0
      · exact EVA.RechargeToxicShieldFromIon_within n s hs0
      · exact hs0

theorem EVA.run_within (k : KeyCodes) (events : List EVA.Event) :
    ∀ (s : EVA) (n : Nat), (∀ e ∈ events, e.TimeForward) →
      EVA.StoresWithin (n + EVA.miningCount k events) s →
      EVA.StoresWithin n (EVA.run k s events) := by
  induction events with
  | nil =>
    intro s n _ hs
    simpa [EVA.miningCount, EVA.run] using hs
  | cons e rest ih =>
    intro s n hev hs
    have he : e.TimeForward := hev e (List.mem_cons_self _ _)
    have hrest : ∀ x ∈ rest, x.TimeForward := fun x hx => hev x (List.mem_cons_of_mem _ hx)
    have hcount : EVA.miningCount k (e :: rest)
        = EVA.miningCount k rest + (if EVA.Event.isMining k e = true then 1 else 0) := by
      simp only [EVA.miningCount, List.countP_cons]
    rw [hcount, ← Nat.add_assoc] at hs
    exact ih (EVA.step k s e) n hrest (EVA.step_within k _ s e he hs)

theorem EVA.construct_within (n : Nat) (hn : n ≤ 2147483647) :
    EVA.StoresWithin n EVA.construct := by
  refine ⟨by norm_num [EVA.StoresSafe, EVA.StoresInRange, EVA.construct], ?_⟩
  show (0 : CInt).val + 5 * (0 : CInt).val + (n : Int) ≤ 2147483647
  rw [CInt.val_zero]
  omega

theorem EVA.run_cons (k : KeyCodes) (s : EVA) (e : EVA.Event) (es : List EVA.Event) :
    EVA.run k s (e :: es) = EVA.run k (EVA.step k s e) es := rfl

/-- Repeated mining by a living astronaut in range adds to the Crystal count in 32-bit
wrapping arithmetic. -/
theorem EVA.mine_repeat (k : KeyCodes) (n : Nat) :
    ∀ s : EVA, s.inMiningRange = true → 0 < s.health → 0 < s.suitIntegrity →
      (EVA.run k s (List.replicate n EVA.Event.mine)).inventory.Crystal.val
        = wrapInt32 (s.inventory.Crystal.val + n) := by
  induction n with
  | zero =>
    intro s _ _ _
    have hp := s.inventory.Crystal.property
    simp only [List.replicate, EVA.run, List.foldl, Nat.cast_zero, add_zero]
    exact (wrapInt32_of_range _ hp.1 hp.2).symm
  | succ n ih =>
    intro s hr hh hsu
    have h1 : ¬ s.inMiningRange = false := by simp [hr]
    have h2 : ¬ (s.health ≤ 0.0 ∨ s.suitIntegrity ≤ 0.0) := by
      norm_num
      exact ⟨hh, hsu⟩
    have hstep : EVA.run k s (List.replicate (n + 1) EVA.Event.mine)
        = EVA.run k (EVA.MineResource s) (List.replicate n EVA.Event.mine) := rfl
    rw [hstep, ih (EVA.MineResource s)
      (by simp only [EVA.MineResource, if_neg h1, if_neg h2]; exact hr)
      (by simp only [EVA.MineResource, if_neg h1, if_neg h2]; exact hh)
      (by simp only [EVA.MineResource, if_neg h1, if_neg h2]; exact hsu)]
    have hv : (EVA.MineResource s).inventory.Crystal.val
        = wrapInt32 (s.inventory.Crystal.val + 1) := by
      simp only [EVA.MineResource, if_neg h1, if_neg h2]
      rfl
    rw [hv, wrapInt32_add_left]
    push_cast
    ring_nf

/-- One frame on the resource node leaves the constructed astronaut alive and in
mining range. -/
theorem EVA.atResource_frame :
    (EVA.clbkPreStep EVA.construct atResource 1).inMiningRange = true ∧
    0 < (EVA.clbkPreStep EVA.construct atResource 1).health ∧
    0 < (EVA.clbkPreStep EVA.construct atResource 1).suitIntegrity := by
  norm_num [EVA.clbkPreStep, EVA.UpdateEnvironment, EVA.UpdateToxicShield,
    EVA.ApplyIonBatteryEffects, EVA.ApplyEnvironmentEffects, EVA.ApplyRandomMicrometeorites,
    EVA.envOxygen, EVA.envPressureDamage, EVA.envRadiationDamage, EVA.envToxicityDamage,
    EVA.envEffectiveTox, EVA.envGasGiantDamage, EVA.envTemperatureDamage, EVA.envTempDelta,
    EVA.ApplyGravityEffects, EVA.ComputeVacuumTemperature, EVA.CheckProximity, atResource,
    calmHost, EVA.construct, Clamp, PlanetHazardProfile.zeroInit]

/-- C12, amended. Starting from the constructed EVA state, after any sequence of key
actions (mine, craft, recharge, called directly or through the key handler with any
key) and `clbkPreStep` frames with `simdt >= 0` in which at most 2^31 - 1 = 2147483647
events can mine (direct calls of `MineResource` and M key events):
`0 <= ion.charge <= ion.capacity`, the Crystal and ION_CORE counts are not negative,
and `0 <= toxicShieldCharge <= toxicShieldCapacity`. -/
theorem EVA_stores_in_range (k : KeyCodes) (events : List EVA.Event)
    (hev : ∀ e ∈ events, e.TimeForward) (hn : EVA.miningCount k events ≤ 2147483647) :
    (0 ≤ (EVA.run k EVA.construct events).ion.charge ∧
      (EVA.run k EVA.construct events).ion.charge
        ≤ (EVA.run k EVA.construct events).ion.capacity) ∧
    (0 ≤ (EVA.run k EVA.construct events).inventory.Crystal ∧
      0 ≤ (EVA.run k EVA.construct events).inventory.ION_CORE) ∧
    (0 ≤ (EVA.run k EVA.construct events).toxicShieldCharge ∧
      (EVA.run k EVA.construct events).toxicShieldCharge
        ≤ (EVA.run k EVA.construct events).toxicShieldCapacity) :=
  (EVA.run_within k events EVA.construct 0 hev
    (EVA.construct_within _ (by omega))).1.1

/-- The stores after the mining trip: the five crystals mined went into one ION core,
whose 20 units of charge paid 10 for 25 units of toxic shield. -/
theorem EVA.miningTrip_stores :
    (EVA.run orbiterKeys EVA.construct miningTrip).inventory.Crystal = 0 ∧
    (EVA.run orbiterKeys EVA.construct miningTrip).inventory.ION_CORE = 1 ∧
    (EVA.run orbiterKeys EVA.construct miningTrip).ion.charge = 10 ∧
    (EVA.run orbiterKeys EVA.construct miningTrip).toxicShieldCharge = 25 := by
  decide!

/-- Witness for C12 (amended): the mining trip, in which five crystals are mined, an ION
cell is crafted and the toxic shield is recharged. -/
theorem EVA_stores_in_range_witness :
    (0 ≤ (EVA.run orbiterKeys EVA.construct miningTrip).ion.charge ∧
      (EVA.run orbiterKeys EVA.construct miningTrip).ion.charge
        ≤ (EVA.run orbiterKeys EVA.construct miningTrip).ion.capacity) ∧
    (0 ≤ (EVA.run orbiterKeys EVA.construct miningTrip).inventory.Crystal ∧
      0 ≤ (EVA.run orbiterKeys EVA.construct miningTrip).inventory.ION_CORE) ∧
    (0 ≤ (EVA.run orbiterKeys EVA.construct miningTrip).toxicShieldCharge ∧
      (EVA.run orbiterKeys EVA.construct miningTrip).toxicShieldCharge
        ≤ (EVA.run orbiterKeys EVA.construct miningTrip).toxicShieldCapacity) :=
  EVA_stores_in_range orbiterKeys miningTrip
    (by
      intro e he
      simp only [miningTrip, List.mem_cons, List.mem_singleton, List.not_mem_nil,
        or_false] at he
      rcases he with rfl | rfl | rfl | rfl | rfl | rfl | rfl | rfl | rfl <;>
        simp [EVA.Event.TimeForward])
    (by decide)

/-- Counterexample for C12 as stated. From the constructed state, one frame on the
resource node and then 2^31 calls of `MineResource`, each of which adds one crystal:
the 32-bit count wraps around to -2^31, so the Crystal count is negative. -/
theorem EVA_stores_in_range_counterexample :
    (∀ e ∈ miningOverflow, e.TimeForward) ∧
    (EVA.run orbiterKeys EVA.construct miningOverflow).inventory.Crystal < 0 := by
  constructor
  · intro e he
    simp only [miningOverflow, List.mem_cons, List.mem_replicate] at he
    rcases he with rfl | ⟨_, rfl⟩
    · norm_num [EVA.Event.TimeForward]
    · trivial
  · have hrun : EVA.run orbiterKeys EVA.construct miningOverflow
        = EVA.run orbiterKeys (EVA.clbkPreStep EVA.construct atResource 1)
            (List.replicate 2147483648 EVA.Event.mine) :=
      EVA.run_cons orbiterKeys EVA.construct (EVA.Event.frame atResource 1)
        (List.replicate 2147483648 EVA.Event.mine)
    have hv := EVA.mine_repeat orbiterKeys 2147483648
      (EVA.clbkPreStep EVA.construct atResource 1) EVA.atResource_frame.1
      EVA.atResource_frame.2.1 EVA.atResource_frame.2.2
    rw [EVA.clbkPreStep_inventory] at hv
    rw [hrun, CInt.lt_iff_val, hv, CInt.val_zero]
    decide

/-! ### SurvivalShip: repair materials -/

theorem SurvivalShip.KeepsMaterials.andThen {f g : SurvivalShip → SurvivalShip}
    (hf : SurvivalShip.KeepsMaterials f) (hg : SurvivalShip.KeepsMaterials g) :
    SurvivalShip.KeepsMaterials (fun s => g (f s)) :=
  fun s => (hg (f s)).trans (hf s)

theorem SurvivalShip.sampleAtmosphere_materials (h : ShipHost) :
    SurvivalShip.KeepsMaterials (fun s => SurvivalShip.sampleAtmosphere s h) := by
  intro s
  simp only [SurvivalShip.sampleAtmosphere]
  split_ifs <;> rfl

theorem SurvivalShip.sampleTemperature_materials (h : ShipHost) :
    SurvivalShip.KeepsMaterials (fun s => SurvivalShip.sampleTemperature s h) := by
  intro s
  simp only [SurvivalShip.sampleTemperature]
  split_ifs <;> rfl

theorem SurvivalShip.UpdateEnvironment_materials (h : ShipHost) (simdt : ℚ) :
    SurvivalShip.KeepsMaterials (fun s => SurvivalShip.UpdateEnvironment s h simdt) := by
  intro s
  rcases hs : h.surfaceRef with _ | name
  · simp only [SurvivalShip.UpdateEnvironment, hs]
  · simp only [SurvivalShip.UpdateEnvironment, hs]
    rw [SurvivalShip.sampleTemperature_materials h _]
    simp only []
    rw [SurvivalShip.sampleAtmosphere_materials h _]

theorem SurvivalShip.envBreach_materials (simdt : ℚ) :
    SurvivalShip.KeepsMaterials (fun s => SurvivalShip.envBreach s simdt) := by
  intro s
  simp only [SurvivalShip.envBreach]
  split_ifs <;> rfl

theorem SurvivalShip.envAirlock_materials (simdt : ℚ) :
    SurvivalShip.KeepsMaterials (fun s => SurvivalShip.envAirlock s simdt) := by
  intro s
  simp only [SurvivalShip.envAirlock]
  split_ifs <;> rfl

theorem SurvivalShip.envOxygen_materials (simdt : ℚ) :
    SurvivalShip.KeepsMaterials (fun s => SurvivalShip.envOxygen s simdt) := by
  intro s
  simp only [SurvivalShip.envOxygen]
  split_ifs <;> rfl

theorem SurvivalShip.envRadiationHull_materials (simdt : ℚ) :
    SurvivalShip.KeepsMaterials (fun s => SurvivalShip.envRadiationHull s simdt) := by
  intro s
  simp only [SurvivalShip.envRadiationHull]
  split_ifs <;> rfl

theorem SurvivalShip.envCorrosion_materials (simdt : ℚ) :
    SurvivalShip.KeepsMaterials (fun s => SurvivalShip.envCorrosion s simdt) := by
  intro s
  simp only [SurvivalShip.envCorrosion]
  split_ifs <;> rfl

theorem SurvivalShip.envGasGiant_materials (simdt : ℚ) :
    SurvivalShip.KeepsMaterials (fun s => SurvivalShip.envGasGiant s simdt) := by
  intro s
  simp only [SurvivalShip.envGasGiant]
  split_ifs <;> rfl

theorem SurvivalShip.ApplyEnvironmentToShip_materials (simdt : ℚ) :
    SurvivalShip.KeepsMaterials (fun s => SurvivalShip.ApplyEnvironmentToShip s simdt) := by
  have hc := (((((SurvivalShip.envBreach_materials simdt).andThen
    (SurvivalShip.envAirlock_materials simdt)).andThen
    (SurvivalShip.envOxygen_materials simdt)).andThen
    (SurvivalShip.envRadiationHull_materials simdt)).andThen
    (SurvivalShip.envCorrosion_materials simdt)).andThen
    (SurvivalShip.envGasGiant_materials simdt)
  intro s
  exact hc s

theorem SurvivalShip.meteorHit_materials :
    SurvivalShip.KeepsMaterials (fun s => SurvivalShip.meteorHit s) := by
  intro s
  simp only [SurvivalShip.meteorHit]
  split_ifs <;> rfl

theorem SurvivalShip.ApplyRandomMicrometeorites_materials (h : ShipHost) (simdt : ℚ) :
    SurvivalShip.KeepsMaterials
      (fun s => SurvivalShip.ApplyRandomMicrometeorites s h simdt) := by
  intro s
  simp only [SurvivalShip.ApplyRandomMicrometeorites]
  split_ifs
  · rfl
  · rfl
  · exact SurvivalShip.meteorHit_materials s
  · rfl

theorem SurvivalShip.thermalOverheat_materials (simdt : ℚ) :
    SurvivalShip.KeepsMaterials (fun s => SurvivalShip.thermalOverheat s simdt) := by
  intro s
  simp only [SurvivalShip.thermalOverheat]
  split_ifs <;> rfl

theorem SurvivalShip.thermalMelt_materials (simdt : ℚ) :
    SurvivalShip.KeepsMaterials (fun s => SurvivalShip.thermalMelt s simdt) := by
  intro s
  simp only [SurvivalShip.thermalMelt]
  split_ifs <;> rfl

theorem SurvivalShip.UpdateThermalModel_materials (h : ShipHost) (simdt g : ℚ) :
    SurvivalShip.KeepsMaterials (fun s => SurvivalShip.UpdateThermalModel s h simdt g) := by
  intro s
  simp only [SurvivalShip.UpdateThermalModel]
  generalize SurvivalShip.thermalDTemp s h simdt g = dTemp
  have hc := ((SurvivalShip.thermalOverheat_materials simdt).andThen
    (SurvivalShip.thermalMelt_materials simdt))
    { s with hullTemp := s.hullTemp + dTemp }
  split_ifs
  · exact hc
  · exact hc

theorem SurvivalShip.stressMild_materials (simdt g : ℚ) :
    SurvivalShip.KeepsMaterials (fun s => SurvivalShip.stressMild s simdt g) := by
  intro s
  simp only [SurvivalShip.stressMild]
  split_ifs <;> rfl

theorem SurvivalShip.stressExtreme_materials (simdt g : ℚ) :
    SurvivalShip.KeepsMaterials (fun s => SurvivalShip.stressExtreme s simdt g) := by
  intro s
  simp only [SurvivalShip.stressExtreme]
  split_ifs <;> rfl

theorem SurvivalShip.ApplyGravityBuckling_materials (simdt g : ℚ) :
    SurvivalShip.KeepsMaterials (fun s => SurvivalShip.ApplyGravityBuckling s simdt g) := by
  intro s
  have hb : (SurvivalShip.bucklingLoad s simdt g).repairMaterials = s.repairMaterials := by
    simp only [SurvivalShip.bucklingLoad]
  simp only [SurvivalShip.ApplyGravityBuckling]
  generalize SurvivalShip.bucklingLoad s simdt g = t at hb
  split_ifs <;> first | rfl | exact hb

theorem SurvivalShip.ApplyGravityStress_materials (simdt g : ℚ) :
    SurvivalShip.KeepsMaterials (fun s => SurvivalShip.ApplyGravityStress s simdt g) := by
  have hclamp : SurvivalShip.KeepsMaterials
      (fun s => { s with hullIntegrity := Clamp s.hullIntegrity 0.0 1.0 }) :=
    fun _ => rfl
  have hc := (((SurvivalShip.stressMild_materials simdt g).andThen
    (SurvivalShip.stressExtreme_materials simdt g)).andThen hclamp).andThen
    (SurvivalShip.ApplyGravityBuckling_materials simdt g)
  intro s
  exact hc s

theorem SurvivalShip.ApplyElectronicsDamage_materials (simdt : ℚ) :
    SurvivalShip.KeepsMaterials (fun s => SurvivalShip.ApplyElectronicsDamage s simdt) := by
  intro s
  unfold SurvivalShip.ApplyElectronicsDamage
  simp only []
  split_ifs <;> rfl

theorem SurvivalShip.UpdateComputerRepair_materials (simdt : ℚ) :
    SurvivalShip.KeepsMaterials (fun s => SurvivalShip.UpdateComputerRepair s simdt) := by
  intro s
  have ha : (SurvivalShip.repairAdvance s simdt).repairMaterials = s.repairMaterials := by
    simp only [SurvivalShip.repairAdvance]
    split_ifs <;> rfl
  simp only [SurvivalShip.UpdateComputerRepair]
  generalize SurvivalShip.repairAdvance s simdt = t at ha
  split_ifs <;> first | rfl | exact ha

theorem SurvivalShip.UpdateHoverMode_materials (h : ShipHost) (simdt g : ℚ) :
    SurvivalShip.KeepsMaterials (fun s => SurvivalShip.UpdateHoverMode s h simdt g) := by
  intro s
  simp only [SurvivalShip.UpdateHoverMode]
  split_ifs <;> rfl

theorem SurvivalShip.UpdatePulseEngine_materials (h : ShipHost) (simdt g : ℚ) :
    SurvivalShip.KeepsMaterials (fun s => SurvivalShip.UpdatePulseEngine s h simdt g) := by
  intro s
  simp only [SurvivalShip.UpdatePulseEngine]
  split_ifs <;> rfl

theorem SurvivalShip.ApplyGravityManeuverPenalties_materials (h : ShipHost) (simdt g : ℚ) :
    SurvivalShip.KeepsMaterials (fun s => SurvivalShip.ApplyGravityManeuverPenalties s h simdt g) := by
  intro s
  simp only [SurvivalShip.ApplyGravityManeuverPenalties]
  split_ifs <;> rfl

theorem SurvivalShip.clbkPreStep_materials (h : ShipHost) (simdt : ℚ) :
    SurvivalShip.KeepsMaterials (fun s => SurvivalShip.clbkPreStep s h simdt) := by
  have hc := (((((((((SurvivalShip.UpdateEnvironment_materials h simdt).andThen
    (SurvivalShip.ApplyEnvironmentToShip_materials simdt)).andThen
    (SurvivalShip.ApplyRandomMicrometeorites_materials h simdt)).andThen
    (SurvivalShip.UpdateThermalModel_materials h simdt h.g)).andThen
    (SurvivalShip.ApplyGravityStress_materials simdt h.g)).andThen
    (SurvivalShip.ApplyElectronicsDamage_materials simdt)).andThen
    (SurvivalShip.UpdateComputerRepair_materials simdt)).andThen
    (SurvivalShip.UpdateHoverMode_materials h simdt h.g)).andThen
    (SurvivalShip.UpdatePulseEngine_materials h simdt h.g)).andThen
    (SurvivalShip.ApplyGravityManeuverPenalties_materials h simdt h.g)
  intro s
  exact hc s

theorem SurvivalShip.StartComputerRepair_cases (s : SurvivalShip) :
    (s.repairingComputer = false → 0 < s.repairMaterials →
      SurvivalShip.StartComputerRepair s =
        { s with repairingComputer := true, computerRepairProgress := 0,
                 repairMaterials := s.repairMaterials - 1 }) ∧
    (¬ (s.repairingComputer = false ∧ 0 < s.repairMaterials) →
      SurvivalShip.StartComputerRepair s = s) := by
  constructor
  · intro hr hm
    have h1 : ¬ s.repairingComputer = true := by simp [hr]
    have h2 : ¬ s.repairMaterials ≤ 0 := not_le.mpr hm
    simp only [SurvivalShip.StartComputerRepair, if_neg h1, if_neg h2]
    norm_num
  · intro hno
    simp only [SurvivalShip.StartComputerRepair]
    split_ifs with h1 h2
    · rfl
    · rfl
    · exact absurd ⟨by simpa using h1, not_le.mp h2⟩ hno

theorem SurvivalShip.StartComputerRepair_supplied (n : Nat) (s : SurvivalShip)
    (hs : SurvivalShip.MaterialsWithin n s) :
    SurvivalShip.MaterialsWithin n (SurvivalShip.StartComputerRepair s) := by
  obtain ⟨h0, hb⟩ := hs
  simp only [SurvivalShip.StartComputerRepair]
  split_ifs with h1 h2
  · exact ⟨h0, hb⟩
  · exact ⟨h0, hb⟩
  · have hpos : 0 < s.repairMaterials.val := by
      have := not_le.mp h2
      rw [CInt.lt_iff_val, CInt.val_zero] at this
      exact this
    have hv : (s.repairMaterials - 1).val = s.repairMaterials.val - 1 :=
      CInt.sub_one_exact _ hpos
    refine ⟨?_, ?_⟩
    · show 0 ≤ (s.repairMaterials - 1).val
      rw [hv]
      omega
    · show (s.repairMaterials - 1).val + (n : Int) ≤ 2147483647
      rw [hv]
      omega

theorem SurvivalShip.MaterialsWithin.anti {n m : Nat} {s : SurvivalShip} (hmn : m ≤ n)
    (hs : SurvivalShip.MaterialsWithin n s) : SurvivalShip.MaterialsWithin m s := by
  refine ⟨hs.1, ?_⟩
  have := hs.2
  omega

theorem SurvivalShip.addMaterial_supplied (n : Nat) (s : SurvivalShip)
    (hs : SurvivalShip.MaterialsWithin (n + 1) s) :
    0 ≤ (s.repairMaterials + 1).val ∧ (s.repairMaterials + 1).val + (n : Int) ≤ 2147483647 := by
  obtain ⟨h0, hb⟩ := hs
  have hv : (s.repairMaterials + 1).val = s.repairMaterials.val + 1 :=
    CInt.add_one_exact _ (by omega)
  rw [hv]
  constructor
  · omega
  · push_cast at hb
    omega

theorem SurvivalShip.step_supplied (k : KeyCodes) (n : Nat) (s : SurvivalShip)
    (e : SurvivalShip.Event)
    (hs : SurvivalShip.MaterialsWithin
      (n + (if SurvivalShip.Event.isSupply k e = true then 1 else 0)) s) :
    SurvivalShip.MaterialsWithin n (SurvivalShip.step k s e) := by
  cases e with
  | frame h simdt =>
    have hs0 : SurvivalShip.MaterialsWithin n s := by
      simpa [SurvivalShip.Event.isSupply] using hs
    show 0 ≤ (SurvivalShip.clbkPreStep s h simdt).repairMaterials.val ∧
      (SurvivalShip.clbkPreStep s h simdt).repairMaterials.val + (n : Int) ≤ 2147483647
    rw [SurvivalShip.clbkPreStep_materials h simdt s]
    exact hs0
  | key key down =>
    by_cases hk : key = k.keyM
    · have hs1 : SurvivalShip.MaterialsWithin (n + 1) s := by
        simpa [SurvivalShip.Event.isSupply, hk] using hs
      have hs0 : SurvivalShip.MaterialsWithin n s := hs1.anti (Nat.le_succ n)
      simp only [SurvivalShip.step, SurvivalShip.clbkConsumeBufferedKey, SurvivalShip.SpawnEVA]
      split_ifs <;>
        first
        | exact hs0
        | exact SurvivalShip.StartComputerRepair_supplied n s hs0
        | exact SurvivalShip.addMaterial_supplied n s hs1
    · have hs0 : SurvivalShip.MaterialsWithin n s := by
        simpa [SurvivalShip.Event.isSupply, hk] using hs
      simp only [SurvivalShip.step, SurvivalShip.clbkConsumeBufferedKey, SurvivalShip.SpawnEVA,
        if_neg hk]
      split_ifs <;>
        first
        | exact hs0
        | exact SurvivalShip.StartComputerRepair_supplied n s hs0

theorem SurvivalShip.run_supplied (k : KeyCodes) (events : List SurvivalShip.Event) :
    ∀ (s : SurvivalShip) (n : Nat),
      SurvivalShip.MaterialsWithin (n + SurvivalShip.supplyCount k events) s →
      SurvivalShip.MaterialsWithin n (SurvivalShip.run k s events) := by
  induction events with
  | nil =>
    intro s n hs
    simpa [SurvivalShip.supplyCount, SurvivalShip.run] using hs
  | cons e rest ih =>
    intro s n hs
    have hcount : SurvivalShip.supplyCount k (e :: rest)
        = SurvivalShip.supplyCount k rest
          + (if SurvivalShip.Event.isSupply k e = true then 1 else 0) := by
      simp only [SurvivalShip.supplyCount, List.countP_cons]
    rw [hcount, ← Nat.add_assoc] at hs
    exact ih (SurvivalShip.step k s e) n (SurvivalShip.step_supplied k _ s e hs)

theorem SurvivalShip.run_shipCons (k : KeyCodes) (s : SurvivalShip) (e : SurvivalShip.Event)
    (es : List SurvivalShip.Event) :
    SurvivalShip.run k s (e :: es) = SurvivalShip.run k (SurvivalShip.step k s e) es := rfl

theorem SurvivalShip.pressM (s : SurvivalShip) :
    SurvivalShip.step orbiterKeys s (SurvivalShip.Event.key 0x32 true)
      = { s with repairMaterials := s.repairMaterials + 1 } := by
  simp [SurvivalShip.step, SurvivalShip.clbkConsumeBufferedKey, orbiterKeys]

/-- Repeated presses of the M key add to the count of repair materials in 32-bit
wrapping arithmetic. -/
theorem SurvivalShip.supply_repeat (n : Nat) :
    ∀ s : SurvivalShip,
      (SurvivalShip.run orbiterKeys s
        (List.replicate n (SurvivalShip.Event.key 0x32 true))).repairMaterials.val
        = wrapInt32 (s.repairMaterials.val + n) := by
  induction n with
  | zero =>
    intro s
    have hp := s.repairMaterials.property
    simp only [List.replicate, SurvivalShip.run, List.foldl, Nat.cast_zero, add_zero]
    exact (wrapInt32_of_range _ hp.1 hp.2).symm
  | succ n ih =>
    intro s
    have hstep : SurvivalShip.run orbiterKeys s
          (List.replicate (n + 1) (SurvivalShip.Event.key 0x32 true))
        = SurvivalShip.run orbiterKeys
            (SurvivalShip.step orbiterKeys s (SurvivalShip.Event.key 0x32 true))
            (List.replicate n (SurvivalShip.Event.key 0x32 true)) := rfl
    rw [hstep, ih, SurvivalShip.pressM]
    have hv : ({ s with repairMaterials := s.repairMaterials + 1 } :
        SurvivalShip).repairMaterials.val = wrapInt32 (s.repairMaterials.val + 1) := rfl
    rw [hv, wrapInt32_add_left]
    push_cast
    ring_nf

/-- C14, amended. `SurvivalShip::StartComputerRepair` consumes exactly one repair
material, sets `repairingComputer` and resets `computerRepairProgress` to 0 when no
repair is in progress and `repairMaterials > 0`, and only then: in every other case the
state is unchanged. Consequently, from a state with `repairMaterials >= 0` (the
constructed state has 0), `repairMaterials` is not negative after any sequence of key
presses (R and M among them) and frames in which the M presses do not take the count
past the largest `int`, 2^31 - 1 = 2147483647. -/
theorem SurvivalShip_StartComputerRepair_materials (k : KeyCodes) (s : SurvivalShip)
    (events : List SurvivalShip.Event) :
    (s.repairingComputer = false → 0 < s.repairMaterials →
      SurvivalShip.StartComputerRepair s =
        { s with repairingComputer := true, computerRepairProgress := 0,
                 repairMaterials := s.repairMaterials - 1 } ∧
      (s.repairMaterials - 1).val = s.repairMaterials.val - 1) ∧
    (¬ (s.repairingComputer = false ∧ 0 < s.repairMaterials) →
      SurvivalShip.StartComputerRepair s = s) ∧
    (0 ≤ s.repairMaterials →
      s.repairMaterials.val + SurvivalShip.supplyCount k events ≤ 2147483647 →
      0 ≤ (SurvivalShip.run k s events).repairMaterials) ∧
    (SurvivalShip.supplyCount k events ≤ 2147483647 →
      0 ≤ (SurvivalShip.run k SurvivalShip.construct events).repairMaterials) := by
  refine ⟨fun hr hm => ⟨(SurvivalShip.StartComputerRepair_cases s).1 hr hm,
      CInt.sub_one_exact _ hm⟩,
    (SurvivalShip.StartComputerRepair_cases s).2, ?_, ?_⟩
  · intro h0 hb
    exact (SurvivalShip.run_supplied k events s 0 ⟨h0, by push_cast; omega⟩).1
  · intro hb
    exact (SurvivalShip.run_supplied k events SurvivalShip.construct 0
      ⟨le_refl _, by
        show (0 : CInt).val + ((0 + SurvivalShip.supplyCount k events : Nat) : Int)
          ≤ 2147483647
        rw [CInt.val_zero]
        push_cast
        omega⟩).1

/-- The count of repair materials along the supply run: two are added, the repair
takes one, the second M press adds one. -/
theorem SurvivalShip.supplyRun_materials :
    (SurvivalShip.run orbiterKeys (SurvivalShip.clbkSetClassCaps SurvivalShip.construct)
      supplyRun).repairMaterials = 2 ∧
    (SurvivalShip.run orbiterKeys (SurvivalShip.clbkSetClassCaps SurvivalShip.construct)
      supplyRun).repairingComputer = true := by
  decide!

/-- Witness for C14 (amended): with two materials in store and no repair running,
`StartComputerRepair` takes one and starts the repair; and the count is not negative
after the supply run. -/
theorem SurvivalShip_StartComputerRepair_materials_witness :
    (SurvivalShip.StartComputerRepair suppliedShip =
        { suppliedShip with repairingComputer := true, computerRepairProgress := 0,
                            repairMaterials := suppliedShip.repairMaterials - 1 } ∧
      (suppliedShip.repairMaterials - 1).val = suppliedShip.repairMaterials.val - 1) ∧
    0 ≤ (SurvivalShip.run orbiterKeys (SurvivalShip.clbkSetClassCaps SurvivalShip.construct)
      supplyRun).repairMaterials :=
  ⟨(SurvivalShip_StartComputerRepair_materials orbiterKeys suppliedShip supplyRun).1
      (by simp [suppliedShip, SurvivalShip.clbkSetClassCaps, SurvivalShip.construct])
      (by decide),
    (SurvivalShip_StartComputerRepair_materials orbiterKeys
      (SurvivalShip.clbkSetClassCaps SurvivalShip.construct) supplyRun).2.2.1
      (by decide) (by decide)⟩

/-- Counterexample for C14 as stated. From the constructed ship, 2^31 presses of the M
key, each of which adds one repair material: the 32-bit count wraps around to -2^31, so
`repairMaterials` is negative. -/
theorem SurvivalShip_StartComputerRepair_materials_counterexample :
    (SurvivalShip.run orbiterKeys SurvivalShip.construct supplyOverflow).repairMaterials
      < 0 := by
  have hv := SurvivalShip.supply_repeat 2147483648 SurvivalShip.construct
  unfold supplyOverflow
  rw [CInt.lt_iff_val, hv, CInt.val_zero]
  decide

end SurvivalPack
